import Mathlib

/-!
# TinyMPS: bubble-particle extension and analysis conditions

A shallow embedding of `src/src/bubble_particles.cpp` and `src/include/condition.h`.

Numeric model.  A C++ `double` is an exact rational number (`ℚ`): there is no
rounding, no infinity and no NaN, and a division by zero yields `0`.  A C++
`int` is an unbounded integer (`ℤ`), or a natural number where it is an index.
`std::sqrt` has no rational counterpart and is taken as a parameter, a total
function on `ℚ`; `abs` on a double is the absolute value.

Storage model.  An Eigen vector of `getSize()` entries is a total function on
`ℕ` together with the particle count `size`; entries at indices `≥ size` do
not exist in the program and are never inspected by the statements below.
-/

namespace tiny_mps

/-- Eigen::Vector3d over exact rationals. -/
structure Vector3d where
  x : ℚ
  y : ℚ
  z : ℚ
deriving DecidableEq

namespace Vector3d

/-- Eigen::Vector3d::Zero(). -/
def zero : Vector3d := ⟨0, 0, 0⟩

/-- Componentwise sum, `a + b`. -/
def add (a b : Vector3d) : Vector3d := ⟨a.x + b.x, a.y + b.y, a.z + b.z⟩

/-- Componentwise difference, `a - b`. -/
def sub (a b : Vector3d) : Vector3d := ⟨a.x - b.x, a.y - b.y, a.z - b.z⟩

/-- Product with a scalar, `v * k`. -/
def smul (v : Vector3d) (k : ℚ) : Vector3d := ⟨v.x * k, v.y * k, v.z * k⟩

/-- Quotient by a scalar, `v / k`. -/
def sdiv (v : Vector3d) (k : ℚ) : Vector3d := ⟨v.x / k, v.y / k, v.z / k⟩

/-- Inner product, `a.dot(b)`. -/
def dot (a b : Vector3d) : ℚ := a.x * b.x + a.y * b.y + a.z * b.z

/-- Squared Euclidean length, `v.squaredNorm()`. -/
def squaredNorm (v : Vector3d) : ℚ := v.dot v

/-- Euclidean length, `v.norm()`, through the supplied square root. -/
def norm (sqrt : ℚ → ℚ) (v : Vector3d) : ℚ := sqrt v.squaredNorm

/-- Eigen's `v.normalized()`: a vector of squared length zero is returned as is. -/
def normalized (sqrt : ℚ → ℚ) (v : Vector3d) : Vector3d :=
  if v.squaredNorm > 0 then v.sdiv (sqrt v.squaredNorm) else v

end Vector3d

/-- Modelled from the spec: `enum ParticleType` is declared in particles.h, which is
not among the sources; the spec lists the roles NORMAL, WALL, INFLOW and GHOST. -/
inductive ParticleType where
  | NORMAL
  | WALL
  | INFLOW
  | GHOST
deriving DecidableEq

/-- Modelled from the spec: `enum BoundaryType` is declared in particles.h, which is
not among the sources; the spec lists INNER, SURFACE and OTHERS. -/
inductive BoundaryType where
  | INNER
  | SURFACE
  | OTHERS
deriving DecidableEq

/-- The standard exceptions the code throws, each with its `what()` text. -/
inductive Exception where
  | range_error (what : String)
  | out_of_range (what : String)
  | ios_failure (what : String)
deriving DecidableEq

end tiny_mps

namespace my_mps

open tiny_mps

/-- Modelled from the spec: `enum SurfaceLayer` is declared in bubble_particles.h, which
is not among the sources; the spec lists INNER, INNER_SURFACE, OUTER_SURFACE and OTHERS. -/
inductive SurfaceLayer where
  | INNER
  | INNER_SURFACE
  | OUTER_SURFACE
  | OTHERS
deriving DecidableEq

/-- The constant `M_PI` as defined at the top of bubble_particles.cpp. -/
def M_PI : ℚ := 3.14159265358979323846

/-- The members of `condition_` that bubble_particles.cpp reads.  The bubble build uses
an extended condition header; the fields are taken as they are named in the code. -/
structure BubbleCondition where
  average_distance : ℚ
  dimension : ℤ
  mass_density : ℚ
  head_pressure : ℚ
  vapor_pressure : ℚ
  bubble_density : ℚ
  initial_void_fraction : ℚ
  min_void_fraction : ℚ
  surface_threshold_pnd : ℚ
  surface_threshold_number : ℚ
  secondary_surface_eta : ℚ
  pnd_weight_radius : ℚ
  gradient_radius : ℚ
  laplacian_pressure_weight_radius : ℚ
  weak_compressibility : ℚ
  relaxation_coefficient_pnd : ℚ
  relaxation_coefficient_vel_div : ℚ

/-- The state of a `BubbleParticles` object: the inherited `Particles` arrays that the
code reads or writes, and the arrays of the bubble extension. -/
structure BubbleParticles where
  condition_ : BubbleCondition
  size : ℕ
  dimension : ℤ
  initial_particle_number_density : ℚ
  initial_neighbor_particles : ℤ
  laplacian_lambda_pressure : ℚ
  particle_types : ℕ → ParticleType
  boundary_types : ℕ → BoundaryType
  position : ℕ → Vector3d
  velocity : ℕ → Vector3d
  temporary_position : ℕ → Vector3d
  temporary_velocity : ℕ → Vector3d
  correction_velocity : ℕ → Vector3d
  pressure : ℕ → ℚ
  particle_number_density : ℕ → ℚ
  neighbor_particles : ℕ → ℤ
  source_term : ℕ → ℚ
  average_pressure : ℕ → ℚ
  normal_vector : ℕ → Vector3d
  modified_pnd : ℕ → ℚ
  bubble_radius : ℕ → ℚ
  void_fraction : ℕ → ℚ
  free_surface_type : ℕ → SurfaceLayer
  grid_min_pos : Vector3d
  grid_max_pos : Vector3d
  grid_w : ℤ
  grid_h : ℤ
  average_grid : ℕ → ℚ
  average_count : ℤ

/-- Modelled from the spec: the `Grid` class is declared in grid.h, which is not among the
sources.  A grid answers neighbour queries and reports its bucket width. -/
structure Grid where
  getNeighbors : ℕ → List ℕ
  getGridWidth : ℚ

/-- An entry `Eigen::Triplet<double>(row, col, value)` of the coefficient list. -/
structure Triplet where
  row : ℕ
  col : ℕ
  value : ℚ
deriving DecidableEq

/-- Functions the code calls whose definitions are outside the sources: the C library
square root, the weight functions, `getMaxSpeed`, `checkNeedlessCalculation` and
`solveConjugateGradient` of the `Particles` base class, the `Grid` constructor (cutoff
radius, particle count, positions, active mask, dimension), `boost::format` with one
argument, and whether opening an output stream on a path fails. -/
structure Externals where
  sqrt : ℚ → ℚ
  weightForParticleNumberDensity : Vector3d → ℚ
  weightForLaplacianPressure : Vector3d → ℚ
  makeGrid : ℚ → ℕ → (ℕ → Vector3d) → (ℕ → Bool) → ℤ → Grid
  getMaxSpeed : BubbleParticles → ℚ
  checkNeedlessCalculation : BubbleParticles → Bool
  solveConjugateGradient : (ℕ → ℕ → ℚ) → BubbleParticles → BubbleParticles
  format : String → String → String
  ofstreamFails : String → Bool

/-- Modelled from the spec: the `Timer` class is declared in timer.h, which is not among
the sources.  The member functions that bubble_particles.cpp calls, over a timer state
`τ`. -/
structure TimerOps (τ : Type) where
  limitCurrentDeltaTime : τ → ℚ → BubbleCondition → τ
  isUnderMinDeltaTime : τ → Bool
  hasNextLoop : τ → Bool
  isOutputTime : τ → Bool
  update : τ → τ
  getCurrentTime : τ → ℚ
  getCurrentDeltaTime : τ → ℚ
  getOutputCount : τ → ℤ
  getLoopCount : τ → ℤ

namespace BubbleParticles

/-! ## Bubble radius and void fraction (lines 352-390) -/

/-- Lines 357-360 (and 379-382): explicit radius step from the pressure deficit
`del_p`, then the two clamps. -/
def updateBubbleRadius (E : Externals) (c : BubbleCondition) (radius del_p : ℚ) : ℚ :=
  let r1 := if del_p > 0 then radius + E.sqrt (2 * |del_p| / (3 * c.mass_density))
            else radius - E.sqrt (2 * |del_p| / (3 * c.mass_density))
  let r2 := if r1 > c.average_distance then c.average_distance else r1
  if r2 < 0 then 0 else r2

/-- Lines 362-365 (and 384-387): void fraction from the bubble volume, then the two
clamps. -/
def updateVoidFraction (c : BubbleCondition) (radius : ℚ) : ℚ :=
  let bubble_vol := 4 * M_PI * c.bubble_density * radius * radius * radius / 3
  let v0 := bubble_vol / (1 + bubble_vol)
  let v1 := if v0 < c.min_void_fraction then c.min_void_fraction else v0
  if v1 > 0.5 then 0.5 else v1

/-- One iteration of the loop of `calculateBubbles` (lines 354-366). -/
def calculateBubblesStep (E : Externals) (s : BubbleParticles) (i_particle : ℕ) :
    BubbleParticles :=
  if s.particle_types i_particle = ParticleType.NORMAL then
    let del_p := (s.condition_.vapor_pressure - s.condition_.head_pressure)
      - s.pressure i_particle
    let radius := updateBubbleRadius E s.condition_ (s.bubble_radius i_particle) del_p
    { s with
      bubble_radius := Function.update s.bubble_radius i_particle radius
      void_fraction := Function.update s.void_fraction i_particle
        (updateVoidFraction s.condition_ radius) }
  else s

/-- Embedding of `BubbleParticles::calculateBubbles` (lines 352-368). -/
def calculateBubbles (E : Externals) (s : BubbleParticles) : BubbleParticles :=
  (List.range s.size).foldl (calculateBubblesStep E) s

/-- The cell coordinate of lines 373-374 (and 634-635):
`floor((pos - min + average_distance / 2) / average_distance)`. -/
def cellIndex (average_distance pos min_pos : ℚ) : ℤ :=
  ⌊(pos - min_pos + average_distance / 2) / average_distance⌋

/-- One iteration of the loop of `calculateBubblesFromAveragePressure` (lines 372-388). -/
def calculateBubblesFromAveragePressureStep (E : Externals) (s : BubbleParticles)
    (i_particle : ℕ) : BubbleParticles :=
  if s.particle_types i_particle = ParticleType.NORMAL then
    let ix := cellIndex s.condition_.average_distance (s.temporary_position i_particle).x
      s.grid_min_pos.x
    let iy := cellIndex s.condition_.average_distance (s.temporary_position i_particle).y
      s.grid_min_pos.y
    if ix < 0 ∨ ix ≥ s.grid_w then s
    else if iy < 0 ∨ iy ≥ s.grid_h then s
    else
      let del_p := (s.condition_.vapor_pressure - s.condition_.head_pressure)
        - s.average_grid (ix + iy * s.grid_w).toNat
      let radius := updateBubbleRadius E s.condition_ (s.bubble_radius i_particle) del_p
      { s with
        bubble_radius := Function.update s.bubble_radius i_particle radius
        void_fraction := Function.update s.void_fraction i_particle
          (updateVoidFraction s.condition_ radius) }
  else s

/-- Embedding of `BubbleParticles::calculateBubblesFromAveragePressure` (lines 370-390). -/
def calculateBubblesFromAveragePressure (E : Externals) (s : BubbleParticles) :
    BubbleParticles :=
  (List.range s.size).foldl (calculateBubblesFromAveragePressureStep E) s

/-- Whether the averaging grid covers particle `i_particle`: the range checks of
lines 375-376 both pass. -/
def insideAverageGrid (s : BubbleParticles) (i_particle : ℕ) : Prop :=
  let ix := cellIndex s.condition_.average_distance (s.temporary_position i_particle).x
    s.grid_min_pos.x
  let iy := cellIndex s.condition_.average_distance (s.temporary_position i_particle).y
    s.grid_min_pos.y
  (0 ≤ ix ∧ ix < s.grid_w) ∧ (0 ≤ iy ∧ iy < s.grid_h)

/-! ## Poly6 kernel (lines 417-424) -/

/-- Embedding of `BubbleParticles::weightPoly6Kernel` (lines 417-424); `dimension` is
`condition_.dimension`. -/
def weightPoly6Kernel (dimension : ℤ) (r h : ℚ) : ℚ :=
  if r > h then 0
  else if dimension = 2 then 4 * (h * h - r * r) ^ 3 / (M_PI * h ^ 8)
  else 315 * (h * h - r * r) ^ 3 / (64 * M_PI * h ^ 8)

/-! ## Free-surface classification (lines 236-300) -/

/-- First step of `checkSurface`, one particle (lines 240-254). -/
def checkSurfaceFirstStep (s : BubbleParticles) (i_particle : ℕ) : BubbleParticles :=
  if s.particle_types i_particle = ParticleType.NORMAL
      ∨ s.particle_types i_particle = ParticleType.WALL
      ∨ s.particle_types i_particle = ParticleType.INFLOW then
    if s.particle_number_density i_particle
          < s.condition_.surface_threshold_pnd * s.initial_particle_number_density
        ∧ (s.neighbor_particles i_particle : ℚ)
          < s.condition_.surface_threshold_number * (s.initial_neighbor_particles : ℚ) then
      { s with
        boundary_types := Function.update s.boundary_types i_particle BoundaryType.SURFACE
        free_surface_type :=
          Function.update s.free_surface_type i_particle SurfaceLayer.OUTER_SURFACE }
    else
      { s with
        boundary_types := Function.update s.boundary_types i_particle BoundaryType.INNER
        free_surface_type :=
          Function.update s.free_surface_type i_particle SurfaceLayer.INNER }
  else
    { s with
      boundary_types := Function.update s.boundary_types i_particle BoundaryType.OTHERS
      free_surface_type :=
        Function.update s.free_surface_type i_particle SurfaceLayer.OTHERS }

/-- First step of `checkSurface` (lines 239-255). -/
def checkSurfaceFirst (s : BubbleParticles) : BubbleParticles :=
  (List.range s.size).foldl checkSurfaceFirstStep s

/-- The accumulation of the normal vector of particle `i_particle` over its neighbours
(lines 265-268), starting from the stored normal. -/
def accumulateNormal (E : Externals) (temporary_position : ℕ → Vector3d) (i_particle : ℕ)
    (normal : Vector3d) (neighbors : List ℕ) : Vector3d :=
  neighbors.foldl
    (fun normal j_particle =>
      let r_ij := (temporary_position j_particle).sub (temporary_position i_particle)
      normal.add ((r_ij.normalized E.sqrt).smul (E.weightForParticleNumberDensity r_ij)))
    normal

/-- The scan of lines 270-284 for particle `i_particle` with stored normal `normal`:
whether some neighbour, in list order, meets the first or the second condition, at which
point the loop sets the particle INNER and breaks. -/
def reclassifiedByNeighbor (E : Externals) (c : BubbleCondition)
    (temporary_position : ℕ → Vector3d) (i_particle : ℕ) (normal : Vector3d) :
    List ℕ → Bool
  | [] => false
  | j_particle :: rest =>
    let root2 := E.sqrt 2
    let r_ij := (temporary_position j_particle).sub (temporary_position i_particle)
    if r_ij.norm E.sqrt ≥ root2 * c.average_distance
        ∧ (((temporary_position i_particle).add
              ((normal.normalized E.sqrt).smul c.average_distance)).sub
            (temporary_position j_particle)).norm E.sqrt < c.average_distance then
      true
    else if r_ij.norm E.sqrt < root2 * c.average_distance
        ∧ (r_ij.normalized E.sqrt).dot (normal.normalized E.sqrt) > 1 / root2 then
      true
    else reclassifiedByNeighbor E c temporary_position i_particle normal rest

/-- Second step of `checkSurface`, one particle (lines 261-285). -/
def checkSurfaceSecondStep (E : Externals) (grid : Grid) (s : BubbleParticles)
    (i_particle : ℕ) : BubbleParticles :=
  if s.boundary_types i_particle = BoundaryType.SURFACE then
    let neighbors := grid.getNeighbors i_particle
    if neighbors.isEmpty then s
    else
      let normal :=
        (accumulateNormal E s.temporary_position i_particle (s.normal_vector i_particle)
          neighbors).sdiv (s.particle_number_density i_particle)
      if reclassifiedByNeighbor E s.condition_ s.temporary_position i_particle normal
          neighbors then
        { s with
          normal_vector := Function.update s.normal_vector i_particle normal
          boundary_types := Function.update s.boundary_types i_particle BoundaryType.INNER
          free_surface_type :=
            Function.update s.free_surface_type i_particle SurfaceLayer.INNER }
      else { s with normal_vector := Function.update s.normal_vector i_particle normal }
  else s

/-- The grid of line 257: cutoff `pnd_weight_radius`, active mask
`particle_types != GHOST`. -/
def surfaceGrid (E : Externals) (s : BubbleParticles) : Grid :=
  E.makeGrid s.condition_.pnd_weight_radius s.size s.temporary_position
    (fun i => decide (s.particle_types i ≠ ParticleType.GHOST)) s.dimension

/-- Second step of `checkSurface` (lines 257-286): the grid, the reset of the normals,
and the loop. -/
def checkSurfaceSecond (E : Externals) (s : BubbleParticles) : BubbleParticles :=
  (List.range s.size).foldl (checkSurfaceSecondStep E (surfaceGrid E s))
    { s with normal_vector := fun _ => Vector3d.zero }

/-- The inner loop of the third step (lines 294-297), one neighbour. -/
def markInnerSurface (s : BubbleParticles) (j_particle : ℕ) : BubbleParticles :=
  if s.boundary_types j_particle = BoundaryType.INNER
      ∧ s.free_surface_type j_particle = SurfaceLayer.INNER then
    { s with
      free_surface_type :=
        Function.update s.free_surface_type j_particle SurfaceLayer.INNER_SURFACE }
  else s

/-- Third step of `checkSurface`, one particle (lines 290-298). -/
def checkSurfaceThirdStep (judge_inner_surface : Grid) (s : BubbleParticles)
    (i_particle : ℕ) : BubbleParticles :=
  if s.boundary_types i_particle = BoundaryType.SURFACE then
    let neighbors := judge_inner_surface.getNeighbors i_particle
    if neighbors.isEmpty then s
    else neighbors.foldl markInnerSurface s
  else s

/-- The secondary grid of line 288, with cutoff `average_distance * secondary_surface_eta`. -/
def judgeInnerSurfaceGrid (E : Externals) (s : BubbleParticles) : Grid :=
  E.makeGrid (s.condition_.average_distance * s.condition_.secondary_surface_eta) s.size
    s.temporary_position (fun i => decide (s.particle_types i ≠ ParticleType.GHOST))
    s.dimension

/-- Third step of `checkSurface` (lines 288-299). -/
def checkSurfaceThird (E : Externals) (s : BubbleParticles) : BubbleParticles :=
  (List.range s.size).foldl (checkSurfaceThirdStep (judgeInnerSurfaceGrid E s)) s

/-- Embedding of `BubbleParticles::checkSurface` (lines 236-300). -/
def checkSurface (E : Externals) (s : BubbleParticles) : BubbleParticles :=
  checkSurfaceThird E (checkSurfaceSecond E (checkSurfaceFirst s))

/-- The inputs that `checkSurface` reads and does not write: `t` holds the same frozen
snapshot as `s` (parameters, particle count, dimension, reference densities, particle
types, positions, number densities and neighbour counts). -/
def SameSnapshot (s t : BubbleParticles) : Prop :=
  t.condition_ = s.condition_ ∧ t.size = s.size ∧ t.dimension = s.dimension
    ∧ t.initial_particle_number_density = s.initial_particle_number_density
    ∧ t.initial_neighbor_particles = s.initial_neighbor_particles
    ∧ t.particle_types = s.particle_types
    ∧ t.temporary_position = s.temporary_position
    ∧ t.particle_number_density = s.particle_number_density
    ∧ t.neighbor_particles = s.neighbor_particles

/-! ## Pressure Poisson assembly (lines 447-547) -/

/-- The conversion `(int) x` of a double: truncation toward zero. -/
def truncToInt (q : ℚ) : ℤ := if 0 ≤ q then ⌊q⌋ else ⌈q⌉

/-- The running values of the neighbour loop of one row: `sum`, `div_vel` and the
coefficient list. -/
structure PoissonRow where
  sum : ℚ
  div_vel : ℚ
  coeffs : List Triplet

/-- The linear system under assembly: the coefficient list and `source_term`. -/
structure PoissonSystem where
  coeffs : List Triplet
  source_term : ℕ → ℚ

/-- One neighbour of an inner row (lines 470-479, and 515-524). -/
def poissonNeighborStep (E : Externals) (s : BubbleParticles) (i_particle : ℕ)
    (acc : PoissonRow) (j_particle : ℕ) : PoissonRow :=
  if s.boundary_types j_particle = BoundaryType.OTHERS then acc
  else
    let r_ij := (s.temporary_position j_particle).sub (s.temporary_position i_particle)
    let mat_ij := E.weightForLaplacianPressure r_ij * 2 * (s.dimension : ℚ)
      / (s.laplacian_lambda_pressure * s.initial_particle_number_density)
    { sum := acc.sum - mat_ij
      div_vel := acc.div_vel
        + ((s.temporary_velocity j_particle).sub (s.temporary_velocity i_particle)).dot r_ij
          * E.weightForLaplacianPressure r_ij * (s.condition_.dimension : ℚ)
          / (r_ij.squaredNorm * s.initial_particle_number_density)
      coeffs :=
        if s.boundary_types j_particle = BoundaryType.INNER then
          acc.coeffs ++ [⟨i_particle, j_particle, mat_ij⟩]
        else acc.coeffs }

/-- One row of `solvePressurePoisson` (lines 459-486). -/
def solvePressurePoissonRow (E : Externals) (grid : Grid) (delta_time : ℚ)
    (s : BubbleParticles) (sys : PoissonSystem) (i_particle : ℕ) : PoissonSystem :=
  if s.boundary_types i_particle = BoundaryType.OTHERS then
    { sys with coeffs := sys.coeffs ++ [⟨i_particle, i_particle, 1⟩] }
  else if s.boundary_types i_particle = BoundaryType.SURFACE then
    { sys with coeffs := sys.coeffs ++ [⟨i_particle, i_particle, 1⟩] }
  else
    let acc := (grid.getNeighbors i_particle).foldl (poissonNeighborStep E s i_particle)
      ⟨0, 0, sys.coeffs⟩
    let sum := acc.sum
      - s.condition_.weak_compressibility * s.condition_.mass_density / (delta_time * delta_time)
    let initial_pnd_i := s.initial_particle_number_density * (1 - s.void_fraction i_particle)
    { coeffs := acc.coeffs ++ [⟨i_particle, i_particle, sum⟩]
      source_term := Function.update sys.source_term i_particle
        (acc.div_vel * s.condition_.mass_density * s.condition_.relaxation_coefficient_vel_div
            / delta_time
          - (s.particle_number_density i_particle - initial_pnd_i)
            * s.condition_.relaxation_coefficient_pnd * s.condition_.mass_density
            / (delta_time * delta_time * s.initial_particle_number_density)) }

/-- One row of `solvePressurePoissonDuan` (lines 504-543). -/
def solvePressurePoissonDuanRow (E : Externals) (grid : Grid) (delta_time : ℚ)
    (s : BubbleParticles) (sys : PoissonSystem) (i_particle : ℕ) : PoissonSystem :=
  if s.boundary_types i_particle = BoundaryType.OTHERS then
    { sys with coeffs := sys.coeffs ++ [⟨i_particle, i_particle, 1⟩] }
  else if s.boundary_types i_particle = BoundaryType.SURFACE then
    { sys with coeffs := sys.coeffs ++ [⟨i_particle, i_particle, 1⟩] }
  else
    let acc := (grid.getNeighbors i_particle).foldl (poissonNeighborStep E s i_particle)
      ⟨0, 0, sys.coeffs⟩
    let sum := acc.sum
      - s.condition_.weak_compressibility * s.condition_.mass_density / (delta_time * delta_time)
    if s.free_surface_type i_particle = SurfaceLayer.INNER_SURFACE then
      let sum2 := sum
        - (s.modified_pnd i_particle - s.particle_number_density i_particle) * 2
          * (s.dimension : ℚ)
          / (s.laplacian_lambda_pressure * s.initial_particle_number_density)
      let initial_pnd_i := s.initial_particle_number_density * (1 - s.void_fraction i_particle)
      { coeffs := acc.coeffs ++ [⟨i_particle, i_particle, sum2⟩]
        source_term := Function.update sys.source_term i_particle
          (acc.div_vel * s.condition_.mass_density * s.condition_.relaxation_coefficient_vel_div
              / delta_time
            - (s.modified_pnd i_particle - initial_pnd_i)
              * s.condition_.relaxation_coefficient_pnd * s.condition_.mass_density
              / (delta_time * delta_time * s.initial_particle_number_density)) }
    else
      { coeffs := acc.coeffs ++ [⟨i_particle, i_particle, sum⟩]
        source_term := Function.update sys.source_term i_particle
          (acc.div_vel * s.condition_.mass_density * s.condition_.relaxation_coefficient_vel_div
              / delta_time
            - (s.particle_number_density i_particle - s.initial_particle_number_density)
              * s.condition_.relaxation_coefficient_pnd * s.condition_.mass_density
              / (delta_time * delta_time * s.initial_particle_number_density)) }

/-- The grid of lines 449 and 494: cutoff `laplacian_pressure_weight_radius`, active mask
`boundary_types != OTHERS`. -/
def laplacianGrid (E : Externals) (s : BubbleParticles) : Grid :=
  E.makeGrid s.condition_.laplacian_pressure_weight_radius s.size s.temporary_position
    (fun i => decide (s.boundary_types i ≠ BoundaryType.OTHERS)) s.condition_.dimension

/-- The coefficient list as constructed at lines 456 and 501: `size * n_size`
value-initialised triplets, with `n_size = (int) pow(lap_r * 2, dimension)`.  A negative
product, for which the program cannot allocate the vector, counts as no triplet. -/
def initialCoeffs (E : Externals) (s : BubbleParticles) : List Triplet :=
  let lap_r := (laplacianGrid E s).getGridWidth
  let n_size := truncToInt ((lap_r * 2) ^ s.dimension)
  List.replicate ((s.size : ℤ) * n_size).toNat ⟨0, 0, 0⟩

/-- The assembly part of `solvePressurePoisson` (lines 449-487): the coefficient list and
the source term after the row loop. -/
def assemblePressurePoisson (E : Externals) (delta_time : ℚ) (s : BubbleParticles) :
    PoissonSystem :=
  (List.range s.size).foldl (solvePressurePoissonRow E (laplacianGrid E s) delta_time s)
    ⟨initialCoeffs E s, fun _ => 0⟩

/-- The assembly part of `solvePressurePoissonDuan` (lines 494-544). -/
def assemblePressurePoissonDuan (E : Externals) (delta_time : ℚ) (s : BubbleParticles) :
    PoissonSystem :=
  (List.range s.size).foldl (solvePressurePoissonDuanRow E (laplacianGrid E s) delta_time s)
    ⟨initialCoeffs E s, fun _ => 0⟩

/-- Embedding of `Eigen::SparseMatrix::setFromTriplets`: entry `(i, j)` is the sum of the values of
all triplets at `(i, j)`. -/
def setFromTriplets (coeffs : List Triplet) (i j : ℕ) : ℚ :=
  ((coeffs.filter (fun t => decide (t.row = i ∧ t.col = j))).map Triplet.value).sum

/-- Embedding of `BubbleParticles::solvePressurePoisson` (lines 447-490). -/
def solvePressurePoisson {τ : Type} (E : Externals) (T : TimerOps τ) (timer : τ)
    (s : BubbleParticles) : BubbleParticles :=
  let sys := assemblePressurePoisson E (T.getCurrentDeltaTime timer) s
  E.solveConjugateGradient (setFromTriplets sys.coeffs)
    { s with source_term := sys.source_term }

/-- Embedding of `BubbleParticles::solvePressurePoissonDuan` (lines 492-547). -/
def solvePressurePoissonDuan {τ : Type} (E : Externals) (T : TimerOps τ) (timer : τ)
    (s : BubbleParticles) : BubbleParticles :=
  let sys := assemblePressurePoissonDuan E (T.getCurrentDeltaTime timer) s
  E.solveConjugateGradient (setFromTriplets sys.coeffs)
    { s with source_term := sys.source_term }

/-! ## Loop control (lines 27-63) -/

/-- The part of `writeVtkFile` and of `writeGridVtkFile` that decides success (lines
66-71, 186-190): opening the stream may fail, and that raises `ios_base::failure`. -/
def writeVtkFile (E : Externals) (path : String) : Except Exception Unit :=
  if E.ofstreamFails path then
    Except.error (Exception.ios_failure "Error: in writeVtkFile() in particles.cpp.")
  else Except.ok ()

/-- See `writeVtkFile`; the grid variant (lines 185-207). -/
def writeGridVtkFile (E : Externals) (path : String) : Except Exception Unit :=
  if E.ofstreamFails path then
    Except.error (Exception.ios_failure "Error: in writeGridVtkFile() in particles.cpp.")
  else Except.ok ()

/-- Embedding of `BubbleParticles::saveInterval` (lines 57-63). -/
def saveInterval {τ : Type} (E : Externals) (T : TimerOps τ) (path : String) (timer : τ) :
    Except Exception Bool :=
  if ¬ T.isOutputTime timer then Except.ok false
  else
    let output_index := E.format "%04d" (toString (T.getOutputCount timer))
    match writeVtkFile E (E.format (path ++ "output_%1%.vtk") output_index) with
    | Except.error e => Except.error e
    | Except.ok _ =>
      match writeGridVtkFile E (E.format (path ++ "grid_%1%.vtk") output_index) with
      | Except.error e => Except.error e
      | Except.ok _ => Except.ok true

/-- Embedding of `BubbleParticles::nextLoop` (lines 27-55).  The result is the returned flag with the
particle state and the timer on return, or the exception that leaves the function. -/
def nextLoop {τ : Type} (E : Externals) (T : TimerOps τ) (path : String)
    (s : BubbleParticles) (timer : τ) : Except Exception (Bool × BubbleParticles × τ) :=
  let timer1 := T.limitCurrentDeltaTime timer (E.getMaxSpeed s) s.condition_
  match saveInterval E T path timer1 with
  | Except.error e => Except.error e
  | Except.ok _ =>
    if E.checkNeedlessCalculation s then
      match writeVtkFile E (path ++ "err.vtk") with
      | Except.error e => Except.error e
      | Except.ok _ =>
        Except.error (Exception.range_error "Error: All particles have become ghost.")
    else if T.isUnderMinDeltaTime timer1 then
      match writeVtkFile E (path ++ "err.vtk") with
      | Except.error e => Except.error e
      | Except.ok _ =>
        Except.error (Exception.range_error "Error: Delta time has become so small.")
    else if ¬ T.hasNextLoop timer1 then Except.ok (false, s, timer1)
    else
      Except.ok
        (true,
          { s with temporary_velocity := s.velocity, temporary_position := s.position },
          T.update timer1)

/-! ## Storage of the bubble extension (lines 209-224) -/

/-- The six arrays of the bubble extension as stored, each with its own length;
`free_surface_type` is an integer vector and holds the integer codes of the layers. -/
structure BubbleStorage where
  average_pressure : List ℚ
  normal_vector : List Vector3d
  modified_pnd : List ℚ
  bubble_radius : List ℚ
  void_fraction : List ℚ
  free_surface_type : List ℤ

/-- The indeterminate values that `conservativeResize` leaves in new entries, by index,
for the three entry types. -/
structure Indeterminate where
  double : ℕ → ℚ
  vector : ℕ → Vector3d
  int : ℕ → ℤ

/-- Eigen's `v.conservativeResize(n)`: the result has `n` entries, the entries that `v`
already had are kept, the others are indeterminate. -/
def conservativeResize {α : Type} (fill : ℕ → α) (v : List α) (n : ℕ) : List α :=
  (List.range n).map (fun i => (v[i]?).getD (fill i))

/-- Eigen's `v.segment(start, len).setZero()`: the entries `start ≤ i < start + len` of
`v` become `zero`. -/
def segmentSetZero {α : Type} (zero : α) (v : List α) (start len : ℕ) : List α :=
  (List.range v.length).map
    (fun i => if start ≤ i ∧ i < start + len then zero else (v[i]?).getD zero)

/-- Embedding of `BubbleParticles::extendStorage` (lines 209-224) on the six arrays of the
extension; `size` is `getSize()` on entry.  `Particles::extendStorage`, which resizes the
inherited arrays, is outside the sources. -/
def extendStorage (junk : Indeterminate) (size : ℕ) (extra_size : ℤ) (st : BubbleStorage) :
    BubbleStorage :=
  let n := ((size : ℤ) + extra_size).toNat
  { average_pressure :=
      segmentSetZero 0 (conservativeResize junk.double st.average_pressure n) size
        extra_size.toNat
    normal_vector :=
      segmentSetZero Vector3d.zero (conservativeResize junk.vector st.normal_vector n) size
        extra_size.toNat
    modified_pnd :=
      segmentSetZero 0 (conservativeResize junk.double st.modified_pnd n) size
        extra_size.toNat
    bubble_radius :=
      segmentSetZero 0 (conservativeResize junk.double st.bubble_radius n) size
        extra_size.toNat
    void_fraction :=
      segmentSetZero 0 (conservativeResize junk.double st.void_fraction n) size
        extra_size.toNat
    free_surface_type :=
      segmentSetZero 0 (conservativeResize junk.int st.free_surface_type n) size
        extra_size.toNat }

/-! ## Average grid (lines 619-647) -/

/-- The locals `tmp_average` and `number` of `updateAverageGrid`. -/
structure GridSample where
  tmp_average : ℕ → ℚ
  number : ℕ → ℤ

/-- One particle of the loop of lines 632-640. -/
def updateAverageGridParticle (s : BubbleParticles) (acc : GridSample) (i_particle : ℕ) :
    GridSample :=
  if s.boundary_types i_particle = BoundaryType.OTHERS then acc
  else
    let ix := cellIndex s.condition_.average_distance (s.temporary_position i_particle).x
      s.grid_min_pos.x
    let iy := cellIndex s.condition_.average_distance (s.temporary_position i_particle).y
      s.grid_min_pos.y
    if ix < 0 ∨ ix ≥ s.grid_w then acc
    else if iy < 0 ∨ iy ≥ s.grid_h then acc
    else
      { tmp_average := Function.update acc.tmp_average (ix + iy * s.grid_w).toNat
          (acc.tmp_average (ix + iy * s.grid_w).toNat + s.pressure i_particle)
        number := Function.update acc.number (ix + iy * s.grid_w).toNat
          (acc.number (ix + iy * s.grid_w).toNat + 1) }

/-- One cell of the loop of lines 642-645: the new value of `average_grid[i_grid]`.  The
division of `tmp_average[i_grid]` by the count is kept in a local, as the code never
reads that entry again. -/
def updateAverageGridCell (n : ℤ) (sample : GridSample) (average_grid : ℕ → ℚ)
    (i_grid : ℕ) : ℕ → ℚ :=
  let tmp := if sample.number i_grid > 0 then
      sample.tmp_average i_grid / (sample.number i_grid : ℚ)
    else sample.tmp_average i_grid
  Function.update average_grid i_grid
    ((average_grid i_grid * (n : ℚ) + tmp) / ((n + 1 : ℤ) : ℚ))

/-- Embedding of `BubbleParticles::updateAverageGrid` (lines 619-647). -/
def updateAverageGrid {τ : Type} (T : TimerOps τ) (start_time : ℚ) (timer : τ)
    (s : BubbleParticles) : BubbleParticles :=
  if start_time > T.getCurrentTime timer then
    { s with average_count := T.getLoopCount timer }
  else
    let sample := (List.range s.size).foldl (updateAverageGridParticle s)
      ⟨fun _ => 0, fun _ => 0⟩
    let n := T.getLoopCount timer - s.average_count
    { s with
      average_grid := (List.range (s.grid_w * s.grid_h).toNat).foldl
        (updateAverageGridCell n sample) s.average_grid }

/-- Whether particle `i` counts for cell `c` in the claim on `updateAverageGrid`: its
boundary type is not OTHERS and its temporary position rounds to a cell inside the grid
whose index is `c`. -/
def roundsToCell (s : BubbleParticles) (c i : ℕ) : Bool :=
  decide (s.boundary_types i ≠ BoundaryType.OTHERS
    ∧ (0 ≤ cellIndex s.condition_.average_distance (s.temporary_position i).x
          s.grid_min_pos.x
      ∧ cellIndex s.condition_.average_distance (s.temporary_position i).x
          s.grid_min_pos.x < s.grid_w)
    ∧ (0 ≤ cellIndex s.condition_.average_distance (s.temporary_position i).y
          s.grid_min_pos.y
      ∧ cellIndex s.condition_.average_distance (s.temporary_position i).y
          s.grid_min_pos.y < s.grid_h)
    ∧ (cellIndex s.condition_.average_distance (s.temporary_position i).x s.grid_min_pos.x
        + cellIndex s.condition_.average_distance (s.temporary_position i).y
            s.grid_min_pos.y * s.grid_w).toNat = c)

/-- The particles that the claim on `updateAverageGrid` counts for cell `c`. -/
def particlesOfCell (s : BubbleParticles) (c : ℕ) : List ℕ :=
  (List.range s.size).filter (roundsToCell s c)

/-- The sample of the claim on `updateAverageGrid` for cell `c`: the arithmetic mean of
the pressure over `particlesOfCell s c`, and `0` when there is no such particle. -/
def cellSample (s : BubbleParticles) (c : ℕ) : ℚ :=
  if particlesOfCell s c = [] then 0
  else ((particlesOfCell s c).map s.pressure).sum / ((particlesOfCell s c).length : ℚ)

/-! ## Normal vector of the claim on the second step -/

/-- The sum of the claim on the second step of `checkSurface`: over the neighbours `j` of
`i`, the unit vector of `r_ij` times the number-density weight of `r_ij`. -/
def weightedDirectionSum (E : Externals) (temporary_position : ℕ → Vector3d)
    (i_particle : ℕ) (neighbors : List ℕ) : Vector3d :=
  ⟨(neighbors.map (fun j =>
      (((temporary_position j).sub (temporary_position i_particle)).normalized E.sqrt).x
        * E.weightForParticleNumberDensity
            ((temporary_position j).sub (temporary_position i_particle)))).sum,
    (neighbors.map (fun j =>
      (((temporary_position j).sub (temporary_position i_particle)).normalized E.sqrt).y
        * E.weightForParticleNumberDensity
            ((temporary_position j).sub (temporary_position i_particle)))).sum,
    (neighbors.map (fun j =>
      (((temporary_position j).sub (temporary_position i_particle)).normalized E.sqrt).z
        * E.weightForParticleNumberDensity
            ((temporary_position j).sub (temporary_position i_particle)))).sum⟩

/-- The normal of the claim on the second step of `checkSurface`: the weighted direction
sum over the neighbours, divided by the number density of the particle. -/
def claimedNormal (E : Externals) (s : BubbleParticles) (i_particle : ℕ)
    (neighbors : List ℕ) : Vector3d :=
  (weightedDirectionSum E s.temporary_position i_particle neighbors).sdiv
    (s.particle_number_density i_particle)

/-! ## Pressure Poisson assembly: the quantities of an inner row -/

/-- The coefficient `mat_ij` of lines 472-473 (and 517-518). -/
def laplacianCoefficient (E : Externals) (s : BubbleParticles) (i_particle j_particle : ℕ) :
    ℚ :=
  E.weightForLaplacianPressure
      ((s.temporary_position j_particle).sub (s.temporary_position i_particle))
    * 2 * (s.dimension : ℚ)
    / (s.laplacian_lambda_pressure * s.initial_particle_number_density)

/-- The term that neighbour `j_particle` adds to `div_vel` (lines 475-476, and 520-521). -/
def divergenceContribution (E : Externals) (s : BubbleParticles)
    (i_particle j_particle : ℕ) : ℚ :=
  ((s.temporary_velocity j_particle).sub (s.temporary_velocity i_particle)).dot
      ((s.temporary_position j_particle).sub (s.temporary_position i_particle))
    * E.weightForLaplacianPressure
        ((s.temporary_position j_particle).sub (s.temporary_position i_particle))
    * (s.condition_.dimension : ℚ)
    / (((s.temporary_position j_particle).sub (s.temporary_position i_particle)).squaredNorm
        * s.initial_particle_number_density)

/-- The neighbours of `i_particle` that the loop of an inner row does not skip: those
whose boundary type is not OTHERS. -/
def coupledNeighbors (s : BubbleParticles) (grid : Grid) (i_particle : ℕ) : List ℕ :=
  (grid.getNeighbors i_particle).filter
    (fun j => decide (s.boundary_types j ≠ BoundaryType.OTHERS))

/-- The neighbours of `i_particle` of a given boundary type. -/
def neighborsOfType (s : BubbleParticles) (grid : Grid) (b : BoundaryType)
    (i_particle : ℕ) : List ℕ :=
  (grid.getNeighbors i_particle).filter (fun j => decide (s.boundary_types j = b))

/-- The off-diagonal triplets that an inner row pushes: one per INNER neighbour. -/
def innerRowOffDiagonal (E : Externals) (s : BubbleParticles) (grid : Grid)
    (i_particle : ℕ) : List Triplet :=
  (neighborsOfType s grid BoundaryType.INNER i_particle).map
    (fun j => ⟨i_particle, j, laplacianCoefficient E s i_particle j⟩)

/-- The diagonal value that an inner row of `solvePressurePoisson` pushes (lines 467-482):
minus the coefficients of the coupled neighbours, minus the compressibility term. -/
def innerRowDiagonal (E : Externals) (s : BubbleParticles) (grid : Grid) (delta_time : ℚ)
    (i_particle : ℕ) : ℚ :=
  0 - ((coupledNeighbors s grid i_particle).map (laplacianCoefficient E s i_particle)).sum
    - s.condition_.weak_compressibility * s.condition_.mass_density / (delta_time * delta_time)

/-- The value of `div_vel` after the neighbour loop of an inner row. -/
def innerRowDivergence (E : Externals) (s : BubbleParticles) (grid : Grid)
    (i_particle : ℕ) : ℚ :=
  0 + ((coupledNeighbors s grid i_particle).map (divergenceContribution E s i_particle)).sum

/-- The source term that an inner row of `solvePressurePoisson` writes (lines 483-486). -/
def innerRowSourceTerm (E : Externals) (s : BubbleParticles) (grid : Grid) (delta_time : ℚ)
    (i_particle : ℕ) : ℚ :=
  innerRowDivergence E s grid i_particle * s.condition_.mass_density
      * s.condition_.relaxation_coefficient_vel_div / delta_time
    - (s.particle_number_density i_particle
        - s.initial_particle_number_density * (1 - s.void_fraction i_particle))
      * s.condition_.relaxation_coefficient_pnd * s.condition_.mass_density
      / (delta_time * delta_time * s.initial_particle_number_density)

/-- The diagonal value that an inner row of `solvePressurePoissonDuan` pushes (lines
526-529, 538). -/
def innerRowDiagonalDuan (E : Externals) (s : BubbleParticles) (grid : Grid)
    (delta_time : ℚ) (i_particle : ℕ) : ℚ :=
  if s.free_surface_type i_particle = SurfaceLayer.INNER_SURFACE then
    innerRowDiagonal E s grid delta_time i_particle
      - (s.modified_pnd i_particle - s.particle_number_density i_particle) * 2
        * (s.dimension : ℚ)
        / (s.laplacian_lambda_pressure * s.initial_particle_number_density)
  else innerRowDiagonal E s grid delta_time i_particle

/-- The source term that an inner row of `solvePressurePoissonDuan` writes (lines 530-533,
540-542). -/
def innerRowSourceTermDuan (E : Externals) (s : BubbleParticles) (grid : Grid)
    (delta_time : ℚ) (i_particle : ℕ) : ℚ :=
  if s.free_surface_type i_particle = SurfaceLayer.INNER_SURFACE then
    innerRowDivergence E s grid i_particle * s.condition_.mass_density
        * s.condition_.relaxation_coefficient_vel_div / delta_time
      - (s.modified_pnd i_particle
          - s.initial_particle_number_density * (1 - s.void_fraction i_particle))
        * s.condition_.relaxation_coefficient_pnd * s.condition_.mass_density
        / (delta_time * delta_time * s.initial_particle_number_density)
  else
    innerRowDivergence E s grid i_particle * s.condition_.mass_density
        * s.condition_.relaxation_coefficient_vel_div / delta_time
      - (s.particle_number_density i_particle - s.initial_particle_number_density)
        * s.condition_.relaxation_coefficient_pnd * s.condition_.mass_density
        / (delta_time * delta_time * s.initial_particle_number_density)

/-- The triplets that row `i_particle` pushes, given its diagonal value when inner. -/
def rowTriplets (E : Externals) (s : BubbleParticles) (grid : Grid) (diagonal : ℚ)
    (i_particle : ℕ) : List Triplet :=
  if s.boundary_types i_particle = BoundaryType.OTHERS
      ∨ s.boundary_types i_particle = BoundaryType.SURFACE then
    [⟨i_particle, i_particle, 1⟩]
  else innerRowOffDiagonal E s grid i_particle ++ [⟨i_particle, i_particle, diagonal⟩]

/-- The source term that row `i_particle` writes, if it writes one, given its value when
inner. -/
def rowSourceTerm (s : BubbleParticles) (source : ℚ) (i_particle : ℕ) : Option ℚ :=
  if s.boundary_types i_particle = BoundaryType.OTHERS
      ∨ s.boundary_types i_particle = BoundaryType.SURFACE then
    none
  else some source

/-! ## Average pressure (lines 392-415) -/

/-- Line 394: the grid of `calculateAveragePressure`, over the particles that are not
OTHERS. -/
def averagePressureGrid (E : Externals) (s : BubbleParticles) : Grid :=
  E.makeGrid s.condition_.pnd_weight_radius s.size s.temporary_position
    (fun i => decide (s.boundary_types i ≠ BoundaryType.OTHERS)) s.condition_.dimension

/-- Lines 409-410: the kernel weight of neighbour `j_particle` for `i_particle`. -/
def averagePressureWeight (E : Externals) (s : BubbleParticles) (i_particle j_particle : ℕ) :
    ℚ :=
  let r_ij := (s.temporary_position j_particle).sub (s.temporary_position i_particle)
  weightPoly6Kernel s.condition_.dimension (r_ij.norm E.sqrt) s.condition_.pnd_weight_radius

/-- Lines 408-411: one neighbour of `i_particle`, added to the pair
`(numerator, denominator)`. -/
def averagePressureNeighbor (E : Externals) (s : BubbleParticles) (i_particle : ℕ)
    (acc : ℚ × ℚ) (j_particle : ℕ) : ℚ × ℚ :=
  (acc.1 + s.pressure j_particle * averagePressureWeight E s i_particle j_particle,
   acc.2 + averagePressureWeight E s i_particle j_particle)

/-- Lines 396-413: the body of the loop of `calculateAveragePressure` for one particle. -/
def calculateAveragePressureStep (E : Externals) (grid : Grid) (s : BubbleParticles)
    (i_particle : ℕ) : BubbleParticles :=
  if s.boundary_types i_particle = BoundaryType.OTHERS then
    { s with average_pressure := Function.update s.average_pressure i_particle 0 }
  else
    let neighbors := grid.getNeighbors i_particle
    if neighbors.isEmpty then
      { s with average_pressure :=
          Function.update s.average_pressure i_particle (s.pressure i_particle) }
    else
      let numerator := s.pressure i_particle
        * weightPoly6Kernel s.condition_.dimension 0 s.condition_.pnd_weight_radius
      let denominator :=
        weightPoly6Kernel s.condition_.dimension 0 s.condition_.pnd_weight_radius
      let acc := neighbors.foldl (averagePressureNeighbor E s i_particle)
        (numerator, denominator)
      { s with average_pressure :=
          Function.update s.average_pressure i_particle (acc.1 / acc.2) }

/-- Embedding of `BubbleParticles::calculateAveragePressure` (lines 392-415). -/
def calculateAveragePressure (E : Externals) (s : BubbleParticles) : BubbleParticles :=
  (List.range s.size).foldl (calculateAveragePressureStep E (averagePressureGrid E s)) s

/-- The value that `calculateAveragePressure` stores for a particle, from the state on
entry. -/
def averagePressureOf (E : Externals) (grid : Grid) (s : BubbleParticles) (i : ℕ) : ℚ :=
  if s.boundary_types i = BoundaryType.OTHERS then 0
  else if (grid.getNeighbors i).isEmpty then s.pressure i
  else
    (s.pressure i * weightPoly6Kernel s.condition_.dimension 0 s.condition_.pnd_weight_radius
        + ((grid.getNeighbors i).map
            (fun j => s.pressure j * averagePressureWeight E s i j)).sum)
      / (weightPoly6Kernel s.condition_.dimension 0 s.condition_.pnd_weight_radius
        + ((grid.getNeighbors i).map (fun j => averagePressureWeight E s i j)).sum)

/-! ## Velocity correction (lines 549-605) -/

/-- Eigen::Matrix3d over exact rationals, `mRC` being the entry of row `R` and column
`C`. -/
structure Matrix3d where
  m00 : ℚ
  m01 : ℚ
  m02 : ℚ
  m10 : ℚ
  m11 : ℚ
  m12 : ℚ
  m20 : ℚ
  m21 : ℚ
  m22 : ℚ

/-- Eigen::Matrix3d::Zero(). -/
def Matrix3d.zero : Matrix3d := ⟨0, 0, 0, 0, 0, 0, 0, 0, 0⟩

/-- The determinant, `m.determinant()`, by expansion along the first row. -/
def Matrix3d.determinant (m : Matrix3d) : ℚ :=
  m.m00 * (m.m11 * m.m22 - m.m12 * m.m21)
    - m.m01 * (m.m10 * m.m22 - m.m12 * m.m20)
    + m.m02 * (m.m10 * m.m21 - m.m11 * m.m20)

/-- The inverse, `m.inverse()`: Eigen computes a 3x3 inverse as the transposed cofactor
matrix times the reciprocal of the determinant. -/
def Matrix3d.inverse (m : Matrix3d) : Matrix3d :=
  let invdet := 1 / m.determinant
  { m00 := (m.m11 * m.m22 - m.m12 * m.m21) * invdet
    m01 := (m.m02 * m.m21 - m.m01 * m.m22) * invdet
    m02 := (m.m01 * m.m12 - m.m02 * m.m11) * invdet
    m10 := (m.m12 * m.m20 - m.m10 * m.m22) * invdet
    m11 := (m.m00 * m.m22 - m.m02 * m.m20) * invdet
    m12 := (m.m02 * m.m10 - m.m00 * m.m12) * invdet
    m20 := (m.m10 * m.m21 - m.m11 * m.m20) * invdet
    m21 := (m.m01 * m.m20 - m.m00 * m.m21) * invdet
    m22 := (m.m00 * m.m11 - m.m01 * m.m10) * invdet }

/-- Product of a matrix with a vector, `m * v`. -/
def Matrix3d.mulVec (m : Matrix3d) (v : Vector3d) : Vector3d :=
  ⟨m.m00 * v.x + m.m01 * v.y + m.m02 * v.z,
   m.m10 * v.x + m.m11 * v.y + m.m12 * v.z,
   m.m20 * v.x + m.m21 * v.y + m.m22 * v.z⟩

/-- Line 551: the grid of `correctVelocityDuan`, over the particles that are not
OTHERS. -/
def gradientGrid (E : Externals) (s : BubbleParticles) : Grid :=
  E.makeGrid s.condition_.gradient_radius s.size s.temporary_position
    (fun i => decide (s.boundary_types i ≠ BoundaryType.OTHERS)) s.condition_.dimension

/-- Lines 563-567: one neighbour of an INNER_SURFACE particle, added to `tmp_vel`.
`weightForGradientPressure` is a member of the base class `Particles`, whose code is not
among the sources. -/
def innerSurfaceGradientNeighbor (weightForGradientPressure : Vector3d → ℚ)
    (s : BubbleParticles) (i_particle : ℕ) (tmp_vel : Vector3d) (j_particle : ℕ) :
    Vector3d :=
  if s.boundary_types j_particle = BoundaryType.OTHERS then tmp_vel
  else
    let r_ij := (s.temporary_position j_particle).sub (s.temporary_position i_particle)
    tmp_vel.add
      (((r_ij.smul (s.pressure j_particle + s.pressure i_particle)).smul
        (weightForGradientPressure r_ij)).sdiv r_ij.squaredNorm)

/-- Lines 573-577: one neighbour in the search for `(p_min, p_max)`. -/
def pressureRangeNeighbor (s : BubbleParticles) (acc : ℚ × ℚ) (j_particle : ℕ) : ℚ × ℚ :=
  if s.boundary_types j_particle = BoundaryType.OTHERS then acc
  else (min (s.pressure j_particle) acc.1, max (s.pressure j_particle) acc.2)

/-- Lines 578-589: one neighbour of a particle that is not INNER_SURFACE, added to the
pair `(tensor, tmp_vel)`. -/
def tensorNeighbor (E : Externals) (weightForGradientPressure : Vector3d → ℚ)
    (s : BubbleParticles) (i_particle : ℕ) (p_min p_max : ℚ) (acc : Matrix3d × Vector3d)
    (j_particle : ℕ) : Matrix3d × Vector3d :=
  if s.boundary_types j_particle = BoundaryType.OTHERS then acc
  else
    let r_ij := (s.temporary_position j_particle).sub (s.temporary_position i_particle)
    let n_ij := r_ij.normalized E.sqrt
    let w := weightForGradientPressure r_ij
    let n0 := s.initial_particle_number_density
    let tensor : Matrix3d :=
      { m00 := acc.1.m00 + n_ij.x * n_ij.x * w / n0
        m01 := acc.1.m01 + n_ij.x * n_ij.y * w / n0
        m02 := acc.1.m02 + n_ij.x * n_ij.z * w / n0
        m10 := acc.1.m10 + n_ij.y * n_ij.x * w / n0
        m11 := acc.1.m11 + n_ij.y * n_ij.y * w / n0
        m12 := acc.1.m12 + n_ij.y * n_ij.z * w / n0
        m20 := acc.1.m20 + n_ij.z * n_ij.x * w / n0
        m21 := acc.1.m21 + n_ij.z * n_ij.y * w / n0
        m22 := acc.1.m22 + n_ij.z * n_ij.z * w / n0 }
    let xi := 2 / 10 + 2 * (s.normal_vector j_particle).norm E.sqrt
    (tensor,
     acc.2.add
      (((r_ij.smul (s.pressure j_particle - s.pressure i_particle + xi * (p_max - p_min))).smul
        w).sdiv r_ij.squaredNorm))

/-- Lines 555-601: the body of the loop of `correctVelocityDuan` for one particle, with
`delta_time = timer.getCurrentDeltaTime()`.  The two counters, which are only printed, are
left out. -/
def correctVelocityDuanStep (E : Externals) (weightForGradientPressure : Vector3d → ℚ)
    (grid : Grid) (delta_time : ℚ) (s : BubbleParticles) (i_particle : ℕ) :
    BubbleParticles :=
  if s.particle_types i_particle ≠ ParticleType.NORMAL then s
  else if s.boundary_types i_particle = BoundaryType.OTHERS then s
  else
    let neighbors := grid.getNeighbors i_particle
    let scale := s.initial_particle_number_density * s.condition_.mass_density
    if s.free_surface_type i_particle = SurfaceLayer.INNER_SURFACE then
      let tmp_vel := neighbors.foldl
        (innerSurfaceGradientNeighbor weightForGradientPressure s i_particle) Vector3d.zero
      let tmp_vel : Vector3d := if s.dimension = 2 then { tmp_vel with z := 0 } else tmp_vel
      { s with correction_velocity := (Function.update s.correction_velocity i_particle
          ((s.correction_velocity i_particle).sub
            (((tmp_vel.smul (s.dimension : ℚ)).smul delta_time).sdiv scale))) }
    else
      let range := neighbors.foldl (pressureRangeNeighbor s)
        (s.pressure i_particle, s.pressure i_particle)
      let acc := neighbors.foldl
        (tensorNeighbor E weightForGradientPressure s i_particle range.1 range.2)
        (Matrix3d.zero, Vector3d.zero)
      let tmp_vel : Vector3d := if s.dimension = 2 then { acc.2 with z := 0 } else acc.2
      let tensor : Matrix3d := if s.dimension = 2 then { acc.1 with m22 := 1 } else acc.1
      if tensor.determinant > 1 / 10000000000 then
        { s with correction_velocity := (Function.update s.correction_velocity i_particle
            ((s.correction_velocity i_particle).sub
              (((tensor.inverse.mulVec tmp_vel).smul delta_time).sdiv scale))) }
      else
        { s with correction_velocity := (Function.update s.correction_velocity i_particle
            ((s.correction_velocity i_particle).sub
              (((tmp_vel.smul (s.dimension : ℚ)).smul delta_time).sdiv scale))) }

/-- Embedding of `BubbleParticles::correctVelocityDuan` (lines 549-605). -/
def correctVelocityDuan {τ : Type} (E : Externals)
    (weightForGradientPressure : Vector3d → ℚ) (T : TimerOps τ) (timer : τ)
    (s : BubbleParticles) : BubbleParticles :=
  let grid := gradientGrid E s
  let s0 := { s with correction_velocity := fun _ => Vector3d.zero }
  let s1 := (List.range s.size).foldl
    (correctVelocityDuanStep E weightForGradientPressure grid (T.getCurrentDeltaTime timer))
    s0
  { s1 with temporary_velocity := fun i =>
      (s1.temporary_velocity i).add (s1.correction_velocity i) }

/-- The vector that `correctVelocityDuan` subtracts from `correction_velocity(i)`, from
the state on entry: zero for a particle that the loop skips. -/
def velocityCorrection (E : Externals) (weightForGradientPressure : Vector3d → ℚ)
    (grid : Grid) (delta_time : ℚ) (s : BubbleParticles) (i : ℕ) : Vector3d :=
  if s.particle_types i ≠ ParticleType.NORMAL then Vector3d.zero
  else if s.boundary_types i = BoundaryType.OTHERS then Vector3d.zero
  else
    let neighbors := grid.getNeighbors i
    let scale := s.initial_particle_number_density * s.condition_.mass_density
    if s.free_surface_type i = SurfaceLayer.INNER_SURFACE then
      let tmp_vel := neighbors.foldl
        (innerSurfaceGradientNeighbor weightForGradientPressure s i) Vector3d.zero
      let tmp_vel : Vector3d := if s.dimension = 2 then { tmp_vel with z := 0 } else tmp_vel
      ((tmp_vel.smul (s.dimension : ℚ)).smul delta_time).sdiv scale
    else
      let range := neighbors.foldl (pressureRangeNeighbor s) (s.pressure i, s.pressure i)
      let acc := neighbors.foldl
        (tensorNeighbor E weightForGradientPressure s i range.1 range.2)
        (Matrix3d.zero, Vector3d.zero)
      let tmp_vel : Vector3d := if s.dimension = 2 then { acc.2 with z := 0 } else acc.2
      let tensor : Matrix3d := if s.dimension = 2 then { acc.1 with m22 := 1 } else acc.1
      if tensor.determinant > 1 / 10000000000 then
        ((tensor.inverse.mulVec tmp_vel).smul delta_time).sdiv scale
      else
        ((tmp_vel.smul (s.dimension : ℚ)).smul delta_time).sdiv scale

/-! ## Free-surface classification, second variant (lines 302-350) -/

/-- First step of `checkSurface2`, one particle (lines 306-321): the surface test has the
third condition `temporary_position(1, i) < pnd_weight_radius`. -/
def checkSurface2FirstStep (s : BubbleParticles) (i_particle : ℕ) : BubbleParticles :=
  if s.particle_types i_particle = ParticleType.NORMAL
      ∨ s.particle_types i_particle = ParticleType.WALL
      ∨ s.particle_types i_particle = ParticleType.INFLOW then
    if s.particle_number_density i_particle
          < s.condition_.surface_threshold_pnd * s.initial_particle_number_density
        ∧ (s.neighbor_particles i_particle : ℚ)
          < s.condition_.surface_threshold_number * (s.initial_neighbor_particles : ℚ)
        ∧ (s.temporary_position i_particle).y < s.condition_.pnd_weight_radius then
      { s with
        boundary_types := Function.update s.boundary_types i_particle BoundaryType.SURFACE
        free_surface_type :=
          Function.update s.free_surface_type i_particle SurfaceLayer.OUTER_SURFACE }
    else
      { s with
        boundary_types := Function.update s.boundary_types i_particle BoundaryType.INNER
        free_surface_type :=
          Function.update s.free_surface_type i_particle SurfaceLayer.INNER }
  else
    { s with
      boundary_types := Function.update s.boundary_types i_particle BoundaryType.OTHERS
      free_surface_type :=
        Function.update s.free_surface_type i_particle SurfaceLayer.OTHERS }

/-- First step of `checkSurface2` (lines 305-322). -/
def checkSurface2First (s : BubbleParticles) : BubbleParticles :=
  (List.range s.size).foldl checkSurface2FirstStep s

/-- Second step of `checkSurface2`, one particle (lines 327-336): the normal vector only,
without the reclassification of `checkSurface`. -/
def checkSurface2SecondStep (E : Externals) (grid : Grid) (s : BubbleParticles)
    (i_particle : ℕ) : BubbleParticles :=
  if s.boundary_types i_particle = BoundaryType.SURFACE then
    let neighbors := grid.getNeighbors i_particle
    if neighbors.isEmpty then s
    else
      { s with
        normal_vector := Function.update s.normal_vector i_particle
          ((accumulateNormal E s.temporary_position i_particle (s.normal_vector i_particle)
            neighbors).sdiv (s.particle_number_density i_particle)) }
  else s

/-- Second step of `checkSurface2` (lines 324-337): the grid, the reset of the normals,
and the loop. -/
def checkSurface2Second (E : Externals) (s : BubbleParticles) : BubbleParticles :=
  (List.range s.size).foldl (checkSurface2SecondStep E (surfaceGrid E s))
    { s with normal_vector := fun _ => Vector3d.zero }

/-- Embedding of `BubbleParticles::checkSurface2` (lines 302-350); its third step
(lines 339-349) is that of `checkSurface`. -/
def checkSurface2 (E : Externals) (s : BubbleParticles) : BubbleParticles :=
  checkSurfaceThird E (checkSurface2Second E (checkSurface2First s))

/-- The agreement of a boundary type with a layer: OTHERS with OTHERS, SURFACE with
OUTER_SURFACE, and INNER with INNER or INNER_SURFACE. -/
def layersAgree (b : BoundaryType) (l : SurfaceLayer) : Bool :=
  match b, l with
  | BoundaryType.OTHERS, SurfaceLayer.OTHERS => true
  | BoundaryType.SURFACE, SurfaceLayer.OUTER_SURFACE => true
  | BoundaryType.INNER, SurfaceLayer.INNER => true
  | BoundaryType.INNER, SurfaceLayer.INNER_SURFACE => true
  | _, _ => false

/-! ## Average grid: allocation (lines 607-617) -/

/-- Modelled from the spec: the member `average_grid` is declared in bubble_particles.h,
which is not among the sources; the calls `average_grid.reserve(n)` and `average_grid[i]`
are those of a `std::vector<double>`, like the locals of `updateAverageGrid`.  A vector
has `size()` elements, the entries of `elems` below `size`, in a storage of `capacity`
elements. -/
structure StdVector where
  size : ℕ
  capacity : ℕ
  elems : ℕ → ℚ

/-- The ways in which the two vector operations of `initAverageGrid` have no result. -/
inductive StorageFault where
  | length_error
  | out_of_bounds (index : ℤ) (size : ℕ)
deriving DecidableEq

/-- The call `v.reserve(n)` with an `int` argument: the capacity becomes at least `n`,
while `size()` and the elements stay as they are; a negative `n` converts to a size above
`max_size()`, for which `reserve` throws `std::length_error`. -/
def StdVector.reserve (v : StdVector) (n : ℤ) : Except StorageFault StdVector :=
  if n < 0 then Except.error StorageFault.length_error
  else Except.ok { v with capacity := max v.capacity n.toNat }

/-- The assignment `v[i] = x`: `operator[]` is defined for `i < size()` only, whatever the
capacity; outside of that range the behaviour is undefined. -/
def StdVector.assign (v : StdVector) (i : ℤ) (x : ℚ) : Except StorageFault StdVector :=
  if 0 ≤ i ∧ i < (v.size : ℤ) then
    Except.ok { v with elems := Function.update v.elems i.toNat x }
  else Except.error (StorageFault.out_of_bounds i v.size)

/-- The members that `initAverageGrid` writes. -/
structure AverageGridStorage where
  grid_min_pos : Vector3d
  grid_max_pos : Vector3d
  grid_w : ℤ
  grid_h : ℤ
  average_grid : StdVector

/-- Embedding of `BubbleParticles::initAverageGrid` (lines 607-617).  The two widths are
doubles converted to `int`. -/
def initAverageGrid (c : BubbleCondition) (min_pos max_pos : Vector3d)
    (st : AverageGridStorage) : Except StorageFault AverageGridStorage :=
  let r_ij := max_pos.sub min_pos
  let grid_w := truncToInt (r_ij.x / c.average_distance + 1)
  let grid_h := truncToInt (r_ij.y / c.average_distance + 1)
  (st.average_grid.reserve (grid_w * grid_h)).bind fun reserved =>
    ((List.range (grid_w * grid_h).toNat).foldlM
      (fun (v : StdVector) (i : ℕ) => v.assign (i : ℤ) 0) reserved).bind fun average_grid =>
      Except.ok
        { grid_min_pos := min_pos
          grid_max_pos := max_pos
          grid_w := grid_w
          grid_h := grid_h
          average_grid := average_grid }

/-- The number of cells along one axis in the claim on `initAverageGrid`:
`trunc((hi - lo) / average_distance) + 1`. -/
def claimedGridExtent (c : BubbleCondition) (lo hi : ℚ) : ℤ :=
  truncToInt ((hi - lo) / c.average_distance) + 1

end BubbleParticles

end my_mps

namespace tiny_mps

/-! ## Analysis conditions (condition.h) -/

/-- Standard-library behaviour the header relies on: formatted extraction of an `int`
and of a `double` from a stream holding a text (the text and the prior value of the
target give the value afterwards), and `std::regex_replace(item, re, "")` for the two
patterns of `readDataFile`. -/
structure StdLib where
  extractInt : String → ℤ → ℤ
  extractDouble : String → ℚ → ℚ
  regex_replace_re : String → String
  regex_replace_re2 : String → String

/-- The data members of `class Condition` (lines 120-163, 196). -/
structure Condition where
  average_distance : ℚ
  dimension : ℤ
  gravity : Vector3d
  mass_density : ℚ
  temperature : ℚ
  head_pressure : ℚ
  viscosity_calculation : Bool
  kinematic_viscosity : ℚ
  courant_number : ℚ
  diffusion_number : ℚ
  initial_time : ℚ
  finish_time : ℚ
  delta_time : ℚ
  min_delta_time : ℚ
  output_interval : ℚ
  inner_particle_index : ℤ
  surface_parameter : ℚ
  relaxation_coefficient_lambda : ℚ
  weak_compressibility : ℚ
  extra_ghost_particles : ℤ
  additional_ghost_particles : ℤ
  inflow_velocity : Vector3d
  collision_influence : ℚ
  restitution_coefficent : ℚ
  pnd_influence : ℚ
  gradient_influence : ℚ
  laplacian_pressure_influence : ℚ
  laplacian_viscosity_influence : ℚ
  pnd_weight_radius : ℚ
  gradient_radius : ℚ
  laplacian_pressure_weight_radius : ℚ
  laplacian_viscosity_weight_radius : ℚ
  tanaka_masunaga_method : Bool
  tanaka_masunaga_gamma : ℚ
  tanaka_masunaga_c : ℚ
  tanaka_masunaga_beta : ℚ
  data : String → Option String

/-- The uninitialised locals `gx, gy, gz, ix, iy, iz` of the constructor (lines 28, 35):
their indeterminate initial values. -/
structure ConstructorLocals where
  gx : ℚ
  gy : ℚ
  gz : ℚ
  ix : ℚ
  iy : ℚ
  iz : ℚ

/-- The C locale `isspace`: space and the control characters 9 to 13. -/
def isspace (ch : Char) : Bool := ch.toNat = 32 ∨ (9 ≤ ch.toNat ∧ ch.toNat ≤ 13)

/-- The extraction `ss >> word` into a string: leading white space is skipped and the
characters up to the next white space are taken; the rest of the stream is the second
component.  An empty first component is a failed extraction. -/
def extractToken (cs : List Char) : List Char × List Char :=
  let cs1 := cs.dropWhile isspace
  (cs1.takeWhile (fun ch => !isspace ch), cs1.dropWhile (fun ch => !isspace ch))

/-- The body of the `getline` loop of `readDataFile` for one line (lines 178-191). -/
def readDataLine (L : StdLib) (data : String → Option String) (tmp_str : String) :
    Except Exception (String → Option String) :=
  if tmp_str.data = [] then Except.ok data
  else
    let item := extractToken tmp_str.data
    match item.1 with
    | [] => Except.error (Exception.out_of_range "basic_string::at")
    | first :: _ =>
      if first = '#' then Except.ok data
      else
        let key := L.regex_replace_re2 (L.regex_replace_re (String.mk item.1))
        let value := String.mk (extractToken item.2).1
        Except.ok (Function.update data key (some value))

/-- The `getline` loop of `readDataFile` over the lines of the file (lines 177-192). -/
def readDataLines (L : StdLib) :
    List String → (String → Option String) → Except Exception (String → Option String)
  | [], data => Except.ok data
  | tmp_str :: rest, data =>
    match readDataLine L data tmp_str with
    | Except.error e => Except.error e
    | Except.ok data1 => readDataLines L rest data1

/-- Embedding of `Condition::readDataFile` (lines 166-194).  The file is `none` when the stream fails
to open, else the lines that `getline` yields. -/
def readDataFile (L : StdLib) (file : Option (List String)) (data : String → Option String) :
    Except Exception (String → Option String) :=
  match file with
  | none => Except.error (Exception.ios_failure "Error: in readDataFile() in condition.h")
  | some lines => readDataLines L lines data

namespace Condition

/-- Embedding of `Condition::getValue(const std::string&, int&)` (lines 86-92): the return value and
the output argument afterwards. -/
def getValueInt (L : StdLib) (c : Condition) (item : String) (value : ℤ) : ℤ × ℤ :=
  match c.data item with
  | none => (1, value)
  | some text => (0, L.extractInt text value)

/-- Embedding of `Condition::getValue(const std::string&, double&)` (lines 94-100). -/
def getValueDouble (L : StdLib) (c : Condition) (item : String) (value : ℚ) : ℤ × ℚ :=
  match c.data item with
  | none => (1, value)
  | some text => (0, L.extractDouble text value)

/-- Embedding of `Condition::getValue(const std::string&, bool&)` (lines 102-112). -/
def getValueBool (c : Condition) (item : String) (value : Bool) : ℤ × Bool :=
  match c.data item with
  | none => (1, value)
  | some text =>
    let tmp := String.mk (text.data.map Char.toLower)
    if tmp = "on" ∨ tmp = "true" then (0, true) else (0, false)

/-- Embedding of `Condition::getValue(const std::string&, std::string&)` (lines 114-118). -/
def getValueString (c : Condition) (item : String) (value : String) : ℤ × String :=
  match c.data item with
  | none => (1, value)
  | some text => (0, text)

/-- The constructor after `readDataFile` up to the dimension check (lines 22-27). -/
def constructDimension (L : StdLib) (c : Condition) : Condition :=
  let c := { c with
    average_distance := (c.getValueDouble L "average_distance" c.average_distance).2 }
  { c with dimension := (c.getValueInt L "dimension" c.dimension).2 }

/-- The constructor after the dimension check (lines 28-78).  No `getValue` call changes
the map, and each member is assigned once, so the assignments of lines 29-73 are one
record update. -/
def constructRest (L : StdLib) (loc : ConstructorLocals) (c : Condition) : Condition :=
  let gx := (c.getValueDouble L "gravity_x" loc.gx).2
  let gy := (c.getValueDouble L "gravity_y" loc.gy).2
  let gz := (c.getValueDouble L "gravity_z" loc.gz).2
  let ix := (c.getValueDouble L "inflow_x" loc.ix).2
  let iy := (c.getValueDouble L "inflow_y" loc.iy).2
  let iz := (c.getValueDouble L "inflow_z" loc.iz).2
  let c := { c with
    gravity := ⟨gx, gy, if c.dimension = 3 then gz else 0⟩
    inflow_velocity := ⟨ix, iy, if c.dimension = 3 then iz else 0⟩
    temperature := (c.getValueDouble L "temperature" c.temperature).2
    head_pressure := (c.getValueDouble L "head_pressure" c.head_pressure).2
    mass_density := (c.getValueDouble L "mass_density" c.mass_density).2
    viscosity_calculation := (c.getValueBool "viscosity_calculation" c.viscosity_calculation).2
    kinematic_viscosity := (c.getValueDouble L "kinematic_viscosity" c.kinematic_viscosity).2
    courant_number := (c.getValueDouble L "courant_number" c.courant_number).2
    diffusion_number := (c.getValueDouble L "diffusion_number" c.diffusion_number).2
    pnd_influence := (c.getValueDouble L "pnd_influence" c.pnd_influence).2
    gradient_influence := (c.getValueDouble L "gradient_influence" c.gradient_influence).2
    laplacian_pressure_influence := (c.getValueDouble L "laplacian_pressure_influence" c.laplacian_pressure_influence).2
    laplacian_viscosity_influence := (c.getValueDouble L "laplacian_viscosity_influence" c.laplacian_viscosity_influence).2
    additional_ghost_particles := (c.getValueInt L "additional_ghost_particles" c.additional_ghost_particles).2
    extra_ghost_particles := (c.getValueInt L "extra_ghost_particles" c.extra_ghost_particles).2
    collision_influence := (c.getValueDouble L "collision_influence" c.collision_influence).2
    restitution_coefficent := (c.getValueDouble L "restitution_coefficent" c.restitution_coefficent).2
    initial_time := (c.getValueDouble L "initial_time" c.initial_time).2
    delta_time := (c.getValueDouble L "delta_time" c.delta_time).2
    finish_time := (c.getValueDouble L "finish_time" c.finish_time).2
    min_delta_time := (c.getValueDouble L "min_delta_time" c.min_delta_time).2
    output_interval := (c.getValueDouble L "output_interval" c.output_interval).2
    inner_particle_index := (c.getValueInt L "inner_particle_index" c.inner_particle_index).2
    relaxation_coefficient_lambda := (c.getValueDouble L "relaxation_coefficient_lambda" c.relaxation_coefficient_lambda).2
    weak_compressibility := (c.getValueDouble L "weak_compressibility" c.weak_compressibility).2
    surface_parameter := (c.getValueDouble L "surface_parameter" c.surface_parameter).2
    tanaka_masunaga_method := (c.getValueBool "tanaka_masunaga_method" c.tanaka_masunaga_method).2
    tanaka_masunaga_gamma := (c.getValueDouble L "tanaka_masunaga_gamma" c.tanaka_masunaga_gamma).2
    tanaka_masunaga_c := (c.getValueDouble L "tanaka_masunaga_c" c.tanaka_masunaga_c).2
    tanaka_masunaga_beta := (c.getValueDouble L "tanaka_masunaga_beta" c.tanaka_masunaga_beta).2 }
  { c with
    pnd_weight_radius := c.pnd_influence * c.average_distance
    gradient_radius := c.gradient_influence * c.average_distance
    laplacian_pressure_weight_radius := c.laplacian_pressure_influence * c.average_distance
    laplacian_viscosity_weight_radius := c.laplacian_viscosity_influence * c.average_distance }

/-- Embedding of `Condition::Condition(std::string path)` (lines 20-79).  The object starts with
indeterminate members `init` (its map is empty), and the locals start as `loc`. -/
def construct (L : StdLib) (init : Condition) (loc : ConstructorLocals)
    (file : Option (List String)) : Except Exception Condition :=
  match readDataFile L file (fun _ => none) with
  | Except.error e => Except.error e
  | Except.ok data =>
    let c := constructDimension L { init with data := data }
    if c.dimension ≠ 2 ∧ c.dimension ≠ 3 then
      Except.error (Exception.out_of_range "Error: dimension is out of range.")
    else Except.ok (constructRest L loc c)

end Condition

end tiny_mps

namespace my_mps

open tiny_mps

/-! ## Concrete inputs -/

/-- A square root on the rationals for the examples: the integer square root of the
integer part. -/
def exampleSqrt (q : ℚ) : ℚ := (Nat.sqrt ⌊q⌋.toNat : ℚ)

/-- A grid for the examples: particle `0` has the neighbours `1` and `2`, each of which
has the neighbour `0`. -/
def exampleGrid : Grid where
  getNeighbors := fun i => if i = 0 then [1, 2] else if i = 1 ∨ i = 2 then [0] else []
  getGridWidth := 2

/-- Example parameters: a 2-D run with unit particle spacing. -/
def exampleCondition : BubbleCondition where
  average_distance := 1
  dimension := 2
  mass_density := 1000
  head_pressure := 0
  vapor_pressure := 2300
  bubble_density := 1
  initial_void_fraction := 1 / 100
  min_void_fraction := 1 / 1000
  surface_threshold_pnd := 97 / 100
  surface_threshold_number := 85 / 100
  secondary_surface_eta := 2
  pnd_weight_radius := 2
  gradient_radius := 2
  laplacian_pressure_weight_radius := 3
  weak_compressibility := 0
  relaxation_coefficient_pnd := 1
  relaxation_coefficient_vel_div := 1

/-- Example state: four particles on a line, a NORMAL one at the origin that is below
both surface thresholds, a WALL one on either side that is above them, and a GHOST
one. -/
def exampleParticles : BubbleParticles where
  condition_ := exampleCondition
  size := 4
  dimension := 2
  initial_particle_number_density := 6
  initial_neighbor_particles := 12
  laplacian_lambda_pressure := 1
  particle_types := fun i =>
    if i = 0 then ParticleType.NORMAL else if i = 1 ∨ i = 2 then ParticleType.WALL
    else ParticleType.GHOST
  boundary_types := fun i =>
    if i = 0 then BoundaryType.SURFACE else if i = 1 ∨ i = 2 then BoundaryType.INNER
    else BoundaryType.OTHERS
  position := fun i => if i = 1 then ⟨1, 0, 0⟩ else if i = 2 then ⟨-1, 0, 0⟩ else ⟨0, 0, 0⟩
  velocity := fun _ => ⟨1, 0, 0⟩
  temporary_position := fun i =>
    if i = 1 then ⟨1, 0, 0⟩ else if i = 2 then ⟨-1, 0, 0⟩ else ⟨0, 0, 0⟩
  temporary_velocity := fun _ => Vector3d.zero
  correction_velocity := fun _ => Vector3d.zero
  pressure := fun _ => 100
  particle_number_density := fun i => if i = 0 then 2 else 6
  neighbor_particles := fun i => if i = 0 then 2 else 12
  source_term := fun _ => 7
  average_pressure := fun _ => 0
  normal_vector := fun _ => Vector3d.zero
  modified_pnd := fun _ => 0
  bubble_radius := fun _ => 1 / 2
  void_fraction := fun _ => 1 / 100
  free_surface_type := fun i =>
    if i = 0 then SurfaceLayer.OUTER_SURFACE else if i = 1 ∨ i = 2 then SurfaceLayer.INNER
    else SurfaceLayer.OTHERS
  grid_min_pos := ⟨-1, -1, 0⟩
  grid_max_pos := ⟨1, 1, 0⟩
  grid_w := 3
  grid_h := 3
  average_grid := fun _ => 0
  average_count := 0

/-- A timer for the examples: three flags that answer the queries of `nextLoop`. -/
structure ExampleTimer where
  under_min_delta_time : Bool
  has_next_loop : Bool
  output_time : Bool
deriving DecidableEq

/-- The timer operations on `ExampleTimer`: the flags answer the queries, and limiting or
updating the timer keeps them. -/
def exampleTimerOps : TimerOps ExampleTimer where
  limitCurrentDeltaTime := fun t _ _ => t
  isUnderMinDeltaTime := fun t => t.under_min_delta_time
  hasNextLoop := fun t => t.has_next_loop
  isOutputTime := fun t => t.output_time
  update := fun t => t
  getCurrentTime := fun _ => 0
  getCurrentDeltaTime := fun _ => 1
  getOutputCount := fun _ => 0
  getLoopCount := fun _ => 0

/-- Example externals: every grid is `exampleGrid`, every weight is `1`, no particle set
is needless, the solver leaves the state alone, and every stream opens. -/
def exampleExternals : Externals where
  sqrt := exampleSqrt
  weightForParticleNumberDensity := fun _ => 1
  weightForLaplacianPressure := fun _ => 1
  makeGrid := fun _ _ _ _ _ => exampleGrid
  getMaxSpeed := fun _ => 0
  checkNeedlessCalculation := fun _ => false
  solveConjugateGradient := fun _ s => s
  format := fun f a => f ++ a
  ofstreamFails := fun _ => false

/-- Externals for a run whose particles have all become ghost and whose output directory
is missing: `checkNeedlessCalculation` holds and no stream opens. -/
def unwritableExternals : Externals :=
  { exampleExternals with
    checkNeedlessCalculation := fun _ => true
    ofstreamFails := fun _ => true }

/-- A data file with a `dimension 2` line followed by a line that holds one blank. -/
def blankLineFile : List String := ["dimension 2", " "]

/-- A data file of three lines: a comment, a 2-D dimension and a switch. -/
def exampleFile : List String := ["# conditions", "dimension 2", "viscosity_calculation ON"]

/-- The value of the leading decimal digits of a text, after the digits `acc`. -/
def leadingDigits : List Char → ℕ → ℕ
  | [], acc => acc
  | ch :: rest, acc =>
    if ch.isDigit then leadingDigits rest (acc * 10 + (ch.toNat - 48)) else acc

/-- A library for the examples: a number is read from the leading decimal digits of the
text, and the two regular-expression replacements leave a key without brackets or dashes
alone. -/
def exampleStdLib : tiny_mps.StdLib where
  extractInt := fun text _ => (leadingDigits text.data 0 : ℤ)
  extractDouble := fun text _ => (leadingDigits text.data 0 : ℚ)
  regex_replace_re := fun item => item
  regex_replace_re2 := fun item => item

/-- A key/value map for the examples. -/
def exampleData : String → Option String := fun item =>
  if item = "dimension" then some "2"
  else if item = "viscosity_calculation" then some "ON"
  else none

/-- A condition object for the examples, holding `exampleData`. -/
def exampleConditionObject : tiny_mps.Condition where
  average_distance := 1
  dimension := 2
  gravity := ⟨0, -98 / 10, 0⟩
  mass_density := 1000
  temperature := 300
  head_pressure := 0
  viscosity_calculation := false
  kinematic_viscosity := 0
  courant_number := 0
  diffusion_number := 0
  initial_time := 0
  finish_time := 1
  delta_time := 1 / 1000
  min_delta_time := 1 / 100000
  output_interval := 1 / 100
  inner_particle_index := 0
  surface_parameter := 0
  relaxation_coefficient_lambda := 0
  weak_compressibility := 0
  extra_ghost_particles := 0
  additional_ghost_particles := 0
  inflow_velocity := ⟨0, 0, 0⟩
  collision_influence := 0
  restitution_coefficent := 0
  pnd_influence := 2
  gradient_influence := 2
  laplacian_pressure_influence := 3
  laplacian_viscosity_influence := 3
  pnd_weight_radius := 2
  gradient_radius := 2
  laplacian_pressure_weight_radius := 3
  laplacian_viscosity_weight_radius := 3
  tanaka_masunaga_method := false
  tanaka_masunaga_gamma := 0
  tanaka_masunaga_c := 0
  tanaka_masunaga_beta := 0
  data := exampleData

/-- Example storage: two particles. -/
def exampleStorage : BubbleParticles.BubbleStorage where
  average_pressure := [100, 200]
  normal_vector := [⟨1, 0, 0⟩, ⟨0, 1, 0⟩]
  modified_pnd := [6, 5]
  bubble_radius := [1 / 2, 1 / 3]
  void_fraction := [1 / 100, 1 / 50]
  free_surface_type := [1, 2]

/-- Example indeterminate values: none of them is zero. -/
def exampleIndeterminate : BubbleParticles.Indeterminate where
  double := fun i => (i : ℚ) + 7
  vector := fun _ => ⟨7, 7, 7⟩
  int := fun _ => -1

/-- Example state with a pressure step: the example particles, with the pressure `200` at
particle `1` and `100` elsewhere. -/
def pressureStepParticles : BubbleParticles :=
  { exampleParticles with pressure := fun i => if i = 1 then 200 else 100 }

/-- A gradient weight for the examples: the constant `1`. -/
def exampleGradientWeight : Vector3d → ℚ := fun _ => 1

/-- A timer value for the examples. -/
def exampleTimerValue : ExampleTimer := ⟨false, true, false⟩

/-- The average-grid members of a `BubbleParticles` object that has just been constructed:
the constructor (lines 12-23) does not touch `average_grid`, which is an empty vector; the
other four members are overwritten by `initAverageGrid`. -/
def freshAverageGrid : BubbleParticles.AverageGridStorage where
  grid_min_pos := Vector3d.zero
  grid_max_pos := Vector3d.zero
  grid_w := 0
  grid_h := 0
  average_grid := ⟨0, 0, fun _ => 0⟩

end my_mps

namespace my_mps

open tiny_mps

namespace BubbleParticles

/-! ## Bubble radius and void fraction: clamps -/

theorem updateVoidFraction_bounds (c : BubbleCondition) (radius : ℚ)
    (hmin : c.min_void_fraction ≤ 0.5) :
    c.min_void_fraction ≤ updateVoidFraction c radius
      ∧ updateVoidFraction c radius ≤ 0.5 := by
  unfold updateVoidFraction
  dsimp only
  split_ifs with h1 h2 h3 <;> constructor <;> linarith

theorem updateBubbleRadius_eq (E : Externals) (c : BubbleCondition) (radius del_p : ℚ) :
    updateBubbleRadius E c radius del_p
      = max 0 (min (if del_p > 0 then radius + E.sqrt (2 * |del_p| / (3 * c.mass_density))
          else radius - E.sqrt (2 * |del_p| / (3 * c.mass_density))) c.average_distance) := by
  unfold updateBubbleRadius
  dsimp only
  split_ifs with h1 h2 h3 h4 h5 h6 <;>
    simp only [max_def, min_def] <;> split_ifs <;> linarith

theorem updateBubbleRadius_bounds (E : Externals) (c : BubbleCondition) (radius del_p : ℚ)
    (havg : 0 ≤ c.average_distance) :
    0 ≤ updateBubbleRadius E c radius del_p
      ∧ updateBubbleRadius E c radius del_p ≤ c.average_distance := by
  rw [updateBubbleRadius_eq]
  exact ⟨le_max_left _ _, max_le havg (min_le_right _ _)⟩

/-- Writing entry `n` extends a prefix-wise description of an array by one index. -/
theorem update_below {α : Type} (f g : ℕ → α) (n : ℕ) :
    Function.update (fun k => if k < n then g k else f k) n (g n)
      = fun k => if k < n + 1 then g k else f k := by
  funext k
  by_cases hk : k = n
  · subst hk; simp
  · rw [Function.update_noteq hk]
    by_cases h : k < n
    · simp [h, Nat.lt_succ_of_lt h]
    · have h2 : ¬ k < n + 1 := by omega
      simp [h, h2]

/-- Leaving entry `n` alone extends a prefix-wise description whose entry `n` is the old
one. -/
theorem keep_below {α : Type} (f g : ℕ → α) (n : ℕ) (h : g n = f n) :
    (fun k => if k < n then g k else f k) = fun k => if k < n + 1 then g k else f k := by
  funext k
  by_cases hk : k = n
  · subst hk; simp [h]
  · by_cases h1 : k < n
    · simp [h1, Nat.lt_succ_of_lt h1]
    · have h2 : ¬ k < n + 1 := by omega
      simp [h1, h2]

/-- The loop of `calculateBubbles` over the first `n` particles, in closed form. -/
theorem calculateBubbles_foldl (E : Externals) (s : BubbleParticles) (n : ℕ) :
    (List.range n).foldl (calculateBubblesStep E) s
      = { s with
          bubble_radius := fun k =>
            if k < n then (calculateBubblesStep E s k).bubble_radius k else s.bubble_radius k
          void_fraction := fun k =>
            if k < n then (calculateBubblesStep E s k).void_fraction k
            else s.void_fraction k } := by
  induction n with
  | zero => simp
  | succ n ih =>
    rw [List.range_succ, List.foldl_append, ih]
    simp only [List.foldl_cons, List.foldl_nil]
    by_cases hN : s.particle_types n = ParticleType.NORMAL
    · rw [← update_below s.bubble_radius, ← update_below s.void_fraction]
      simp [calculateBubblesStep, hN]
    · have h1 : (calculateBubblesStep E s n).bubble_radius n = s.bubble_radius n := by
        simp [calculateBubblesStep, hN]
      have h2 : (calculateBubblesStep E s n).void_fraction n = s.void_fraction n := by
        simp [calculateBubblesStep, hN]
      rw [← keep_below s.bubble_radius
          (fun k => (calculateBubblesStep E s k).bubble_radius k) n h1,
        ← keep_below s.void_fraction
          (fun k => (calculateBubblesStep E s k).void_fraction k) n h2]
      simp [calculateBubblesStep, hN]

/-- The loop of `calculateBubblesFromAveragePressure` over the first `n` particles, in
closed form. -/
theorem calculateBubblesFromAveragePressure_foldl (E : Externals) (s : BubbleParticles)
    (n : ℕ) :
    (List.range n).foldl (calculateBubblesFromAveragePressureStep E) s
      = { s with
          bubble_radius := fun k =>
            if k < n then (calculateBubblesFromAveragePressureStep E s k).bubble_radius k
            else s.bubble_radius k
          void_fraction := fun k =>
            if k < n then (calculateBubblesFromAveragePressureStep E s k).void_fraction k
            else s.void_fraction k } := by
  induction n with
  | zero => simp
  | succ n ih =>
    rw [List.range_succ, List.foldl_append, ih]
    simp only [List.foldl_cons, List.foldl_nil]
    by_cases hN : s.particle_types n = ParticleType.NORMAL
      ∧ ¬ (cellIndex s.condition_.average_distance (s.temporary_position n).x s.grid_min_pos.x < 0
        ∨ cellIndex s.condition_.average_distance (s.temporary_position n).x s.grid_min_pos.x
          ≥ s.grid_w)
      ∧ ¬ (cellIndex s.condition_.average_distance (s.temporary_position n).y s.grid_min_pos.y < 0
        ∨ cellIndex s.condition_.average_distance (s.temporary_position n).y s.grid_min_pos.y
          ≥ s.grid_h)
    · obtain ⟨hN, hx, hy⟩ := hN
      rw [← update_below s.bubble_radius, ← update_below s.void_fraction]
      simp [calculateBubblesFromAveragePressureStep, hN, hx, hy]
    · have hs : ∀ t : BubbleParticles, t.particle_types = s.particle_types →
          t.condition_ = s.condition_ → t.temporary_position = s.temporary_position →
          t.grid_min_pos = s.grid_min_pos → t.grid_w = s.grid_w → t.grid_h = s.grid_h →
          calculateBubblesFromAveragePressureStep E t n = t := by
        intro t h1 h2 h3 h4 h5 h6
        unfold calculateBubblesFromAveragePressureStep
        rw [h1, h2, h3, h4, h5, h6]
        by_cases hN1 : s.particle_types n = ParticleType.NORMAL
        · simp only [hN1, if_true]
          by_cases hx : cellIndex s.condition_.average_distance (s.temporary_position n).x
              s.grid_min_pos.x < 0
            ∨ cellIndex s.condition_.average_distance (s.temporary_position n).x
              s.grid_min_pos.x ≥ s.grid_w
          · simp only [hx, if_true]
          · simp only [hx, if_false]
            have hy : cellIndex s.condition_.average_distance (s.temporary_position n).y
                s.grid_min_pos.y < 0
              ∨ cellIndex s.condition_.average_distance (s.temporary_position n).y
                s.grid_min_pos.y ≥ s.grid_h := by
              by_contra h
              exact hN ⟨hN1, hx, h⟩
            simp only [hy, if_true]
        · simp only [hN1, if_false]
      refine Eq.trans (hs _ ?_ ?_ ?_ ?_ ?_ ?_) ?_
      iterate 6 rfl
      have e := hs s rfl rfl rfl rfl rfl rfl
      rw [← keep_below s.bubble_radius
          (fun k => (calculateBubblesFromAveragePressureStep E s k).bubble_radius k) n
          (by show (calculateBubblesFromAveragePressureStep E s n).bubble_radius n = _; rw [e]),
        ← keep_below s.void_fraction
          (fun k => (calculateBubblesFromAveragePressureStep E s k).void_fraction k) n
          (by show (calculateBubblesFromAveragePressureStep E s n).void_fraction n = _; rw [e])]

/-! ## Claims -/

/-- C1: with `min_void_fraction ≤ 0.5`, every NORMAL particle that `calculateBubbles`
updates, and every NORMAL particle inside the averaging grid that
`calculateBubblesFromAveragePressure` updates, ends with
`min_void_fraction ≤ void_fraction ≤ 0.5`, whatever the prior radius and the pressure. -/
theorem void_fraction_clamped (E : Externals) (s : BubbleParticles) (i : ℕ)
    (hmin : s.condition_.min_void_fraction ≤ 0.5) (hi : i < s.size)
    (hN : s.particle_types i = ParticleType.NORMAL) :
    (s.condition_.min_void_fraction ≤ (calculateBubbles E s).void_fraction i
        ∧ (calculateBubbles E s).void_fraction i ≤ 0.5)
      ∧ (insideAverageGrid s i →
          s.condition_.min_void_fraction
              ≤ (calculateBubblesFromAveragePressure E s).void_fraction i
            ∧ (calculateBubblesFromAveragePressure E s).void_fraction i ≤ 0.5) := by
  constructor
  · unfold calculateBubbles
    rw [calculateBubbles_foldl]
    simp only [hi, if_true, calculateBubblesStep, hN, Function.update_same]
    exact updateVoidFraction_bounds _ _ hmin
  · intro hin
    obtain ⟨⟨hx0, hx1⟩, hy0, hy1⟩ := hin
    have hx : ¬ (cellIndex s.condition_.average_distance (s.temporary_position i).x
          s.grid_min_pos.x < 0
        ∨ cellIndex s.condition_.average_distance (s.temporary_position i).x
          s.grid_min_pos.x ≥ s.grid_w) := by
      rintro (h | h) <;> omega
    have hy : ¬ (cellIndex s.condition_.average_distance (s.temporary_position i).y
          s.grid_min_pos.y < 0
        ∨ cellIndex s.condition_.average_distance (s.temporary_position i).y
          s.grid_min_pos.y ≥ s.grid_h) := by
      rintro (h | h) <;> omega
    unfold calculateBubblesFromAveragePressure
    rw [calculateBubblesFromAveragePressure_foldl]
    simp only [hi, if_true, calculateBubblesFromAveragePressureStep, hN, hx, hy, if_false,
      Function.update_same]
    exact updateVoidFraction_bounds _ _ hmin

/-- Witness for C1 on the example state, particle `0`. -/
theorem void_fraction_clamped_witness :
    exampleParticles.condition_.min_void_fraction ≤ 0.5
      ∧ 0 < exampleParticles.size
      ∧ exampleParticles.particle_types 0 = ParticleType.NORMAL
      ∧ ((exampleParticles.condition_.min_void_fraction
            ≤ (calculateBubbles exampleExternals exampleParticles).void_fraction 0
          ∧ (calculateBubbles exampleExternals exampleParticles).void_fraction 0 ≤ 0.5)
        ∧ (insideAverageGrid exampleParticles 0 →
            exampleParticles.condition_.min_void_fraction
                ≤ (calculateBubblesFromAveragePressure exampleExternals
                    exampleParticles).void_fraction 0
              ∧ (calculateBubblesFromAveragePressure exampleExternals
                  exampleParticles).void_fraction 0 ≤ 0.5)) :=
  ⟨by norm_num [exampleParticles, exampleCondition], by decide, rfl,
    void_fraction_clamped exampleExternals exampleParticles 0
      (by norm_num [exampleParticles, exampleCondition]) (by decide) rfl⟩

/-- C2: with `average_distance ≥ 0`, every NORMAL particle that `calculateBubbles`
updates ends with `0 ≤ bubble_radius ≤ average_distance`, whatever the prior radius and
the pressure; and the stored radius is the clamp of
`old_radius + sign(dp) * sqrt(2 |dp| / (3 mass_density))`,
`dp = (vapor_pressure - head_pressure) - pressure(i)` (for a square root with
`sqrt 0 = 0`). -/
theorem bubble_radius_clamped (E : Externals) (s : BubbleParticles) (i : ℕ)
    (havg : 0 ≤ s.condition_.average_distance) (hi : i < s.size)
    (hN : s.particle_types i = ParticleType.NORMAL) :
    (0 ≤ (calculateBubbles E s).bubble_radius i
        ∧ (calculateBubbles E s).bubble_radius i ≤ s.condition_.average_distance)
      ∧ (E.sqrt 0 = 0 →
          (calculateBubbles E s).bubble_radius i
            = max 0 (min
                (s.bubble_radius i
                  + (SignType.sign
                      ((s.condition_.vapor_pressure - s.condition_.head_pressure)
                        - s.pressure i) : ℚ)
                    * E.sqrt (2 * |(s.condition_.vapor_pressure - s.condition_.head_pressure)
                        - s.pressure i| / (3 * s.condition_.mass_density)))
                s.condition_.average_distance)) := by
  have key : (calculateBubbles E s).bubble_radius i
      = updateBubbleRadius E s.condition_ (s.bubble_radius i)
          ((s.condition_.vapor_pressure - s.condition_.head_pressure) - s.pressure i) := by
    unfold calculateBubbles
    rw [calculateBubbles_foldl]
    simp only [hi, if_true, calculateBubblesStep, hN, Function.update_same]
  rw [key]
  refine ⟨updateBubbleRadius_bounds E _ _ _ havg, fun h0 => ?_⟩
  rw [updateBubbleRadius_eq]
  rcases lt_trichotomy ((s.condition_.vapor_pressure - s.condition_.head_pressure)
      - s.pressure i) 0 with h | h | h
  · have h' : ¬ (s.condition_.vapor_pressure - s.condition_.head_pressure) - s.pressure i > 0 :=
      not_lt.mpr h.le
    rw [if_neg h', sign_neg h]
    simp [sub_eq_add_neg]
  · rw [h]
    simp [h0]
  · rw [if_pos h, sign_pos h]
    simp

/-- Witness for C2 on the example state, particle `0`. -/
theorem bubble_radius_clamped_witness :
    0 ≤ exampleParticles.condition_.average_distance
      ∧ 0 < exampleParticles.size
      ∧ exampleParticles.particle_types 0 = ParticleType.NORMAL
      ∧ ((0 ≤ (calculateBubbles exampleExternals exampleParticles).bubble_radius 0
          ∧ (calculateBubbles exampleExternals exampleParticles).bubble_radius 0
              ≤ exampleParticles.condition_.average_distance)
        ∧ (exampleExternals.sqrt 0 = 0 →
            (calculateBubbles exampleExternals exampleParticles).bubble_radius 0
              = max 0 (min
                  (exampleParticles.bubble_radius 0
                    + (SignType.sign
                        ((exampleParticles.condition_.vapor_pressure
                            - exampleParticles.condition_.head_pressure)
                          - exampleParticles.pressure 0) : ℚ)
                      * exampleExternals.sqrt
                          (2 * |(exampleParticles.condition_.vapor_pressure
                                - exampleParticles.condition_.head_pressure)
                              - exampleParticles.pressure 0|
                            / (3 * exampleParticles.condition_.mass_density)))
                  exampleParticles.condition_.average_distance))) :=
  ⟨by norm_num [exampleParticles, exampleCondition], by decide, rfl,
    bubble_radius_clamped exampleExternals exampleParticles 0
      (by norm_num [exampleParticles, exampleCondition]) (by decide) rfl⟩

theorem M_PI_pos : 0 < M_PI := by
  unfold M_PI
  norm_num

/-- C3: for `h > 0`, `weightPoly6Kernel(r, h)` is `c (h² - r²)³` on `0 ≤ r ≤ h` with
`c = 4 / (π h⁸)` in the 2-D branch and `c = 315 / (64 π h⁸)` in the 3-D branch, it is
`0` for every `r ≥ h`, and it is positive at `r = 0`. -/
theorem weightPoly6Kernel_values (h : ℚ) (hh : 0 < h) :
    (∀ r, 0 ≤ r → r ≤ h →
        weightPoly6Kernel 2 r h = 4 / (M_PI * h ^ 8) * (h ^ 2 - r ^ 2) ^ 3)
      ∧ (∀ r, 0 ≤ r → r ≤ h →
        weightPoly6Kernel 3 r h = 315 / (64 * M_PI * h ^ 8) * (h ^ 2 - r ^ 2) ^ 3)
      ∧ (∀ r, h ≤ r → weightPoly6Kernel 2 r h = 0 ∧ weightPoly6Kernel 3 r h = 0)
      ∧ 0 < weightPoly6Kernel 2 0 h ∧ 0 < weightPoly6Kernel 3 0 h := by
  have hpi := M_PI_pos
  have h8 : 0 < h ^ 8 := pow_pos hh 8
  refine ⟨?_, ?_, ?_, ?_, ?_⟩
  · intro r _ hr
    unfold weightPoly6Kernel
    rw [if_neg (not_lt.mpr hr), if_pos rfl]
    ring
  · intro r _ hr
    unfold weightPoly6Kernel
    rw [if_neg (not_lt.mpr hr), if_neg (by decide)]
    ring
  · intro r hr
    rcases eq_or_lt_of_le hr with e | l
    · subst e
      unfold weightPoly6Kernel
      simp
    · unfold weightPoly6Kernel
      simp [l]
  · unfold weightPoly6Kernel
    rw [if_neg (not_lt.mpr hh.le), if_pos rfl]
    have e : h * h - 0 * 0 = h ^ 2 := by ring
    rw [e]
    positivity
  · unfold weightPoly6Kernel
    rw [if_neg (not_lt.mpr hh.le), if_neg (by decide)]
    have e : h * h - 0 * 0 = h ^ 2 := by ring
    rw [e]
    positivity

/-- Witness for C3 at `h = 2`. -/
theorem weightPoly6Kernel_values_witness :
    (0 : ℚ) < 2
      ∧ ((∀ r : ℚ, 0 ≤ r → r ≤ 2 →
          weightPoly6Kernel 2 r 2 = 4 / (M_PI * 2 ^ 8) * (2 ^ 2 - r ^ 2) ^ 3)
        ∧ (∀ r : ℚ, 0 ≤ r → r ≤ 2 →
          weightPoly6Kernel 3 r 2 = 315 / (64 * M_PI * 2 ^ 8) * (2 ^ 2 - r ^ 2) ^ 3)
        ∧ (∀ r : ℚ, 2 ≤ r → weightPoly6Kernel 2 r 2 = 0 ∧ weightPoly6Kernel 3 r 2 = 0)
        ∧ 0 < weightPoly6Kernel 2 0 2 ∧ 0 < weightPoly6Kernel 3 0 2) :=
  ⟨by norm_num, weightPoly6Kernel_values 2 (by norm_num)⟩

/-! ## Pressure Poisson assembly: identity rows -/

/-- The neighbour loop of row `i` only appends triplets, all of them in row `i`, and
every appended triplet sits in the column of a neighbour that is INNER. -/
theorem poissonNeighbor_foldl_coeffs (E : Externals) (s : BubbleParticles) (i : ℕ)
    (neighbors : List ℕ) (acc : PoissonRow) :
    ∃ l : List Triplet,
      (neighbors.foldl (poissonNeighborStep E s i) acc).coeffs = acc.coeffs ++ l
        ∧ ∀ t ∈ l, t.row = i ∧ t.col ∈ neighbors
            ∧ s.boundary_types t.col = BoundaryType.INNER := by
  induction neighbors generalizing acc with
  | nil => exact ⟨[], by simp, by simp⟩
  | cons j rest ih =>
    obtain ⟨l, hl, hrow⟩ := ih (poissonNeighborStep E s i acc j)
    rw [List.foldl_cons, hl]
    have hrow' : ∀ t ∈ l, t.row = i ∧ t.col ∈ j :: rest
        ∧ s.boundary_types t.col = BoundaryType.INNER := fun t ht =>
      ⟨(hrow t ht).1, List.mem_cons_of_mem _ (hrow t ht).2.1, (hrow t ht).2.2⟩
    unfold poissonNeighborStep
    by_cases hO : s.boundary_types j = BoundaryType.OTHERS
    · rw [if_pos hO]
      exact ⟨l, rfl, hrow'⟩
    · rw [if_neg hO]
      by_cases hI : s.boundary_types j = BoundaryType.INNER
      · simp only [hI, if_true]
        refine ⟨_ :: l, by rw [List.append_assoc]; rfl, ?_⟩
        intro t ht
        rcases List.mem_cons.mp ht with h | h
        · subst h
          exact ⟨rfl, List.mem_cons_self _ _, hI⟩
        · exact hrow' t h
      · simp only [hI, if_false]
        exact ⟨l, rfl, hrow'⟩

/-- What one row of either solver does to the system: it appends triplets of its own row
only, an OTHERS or SURFACE row appends exactly the unit diagonal entry and leaves the
source term alone, and no row writes the source term of another particle. -/
theorem solvePressurePoissonRow_spec (E : Externals) (grid : Grid) (delta_time : ℚ)
    (s : BubbleParticles) (sys : PoissonSystem) (i : ℕ) :
    ∃ l : List Triplet,
      (solvePressurePoissonRow E grid delta_time s sys i).coeffs = sys.coeffs ++ l
        ∧ (∀ t ∈ l, t.row = i)
        ∧ ((s.boundary_types i = BoundaryType.OTHERS
              ∨ s.boundary_types i = BoundaryType.SURFACE) →
            l = [⟨i, i, 1⟩]
              ∧ (solvePressurePoissonRow E grid delta_time s sys i).source_term
                = sys.source_term)
        ∧ ∀ k, k ≠ i →
            (solvePressurePoissonRow E grid delta_time s sys i).source_term k
              = sys.source_term k := by
  unfold solvePressurePoissonRow
  by_cases hO : s.boundary_types i = BoundaryType.OTHERS
  · rw [if_pos hO]
    exact ⟨[⟨i, i, 1⟩], rfl, by simp, fun _ => ⟨rfl, rfl⟩, fun _ _ => rfl⟩
  · rw [if_neg hO]
    by_cases hS : s.boundary_types i = BoundaryType.SURFACE
    · rw [if_pos hS]
      exact ⟨[⟨i, i, 1⟩], rfl, by simp, fun _ => ⟨rfl, rfl⟩, fun _ _ => rfl⟩
    · rw [if_neg hS]
      obtain ⟨l, hl, hrow⟩ :=
        poissonNeighbor_foldl_coeffs E s i (grid.getNeighbors i) ⟨0, 0, sys.coeffs⟩
      dsimp only
      rw [hl]
      refine ⟨l ++ [_], by rw [List.append_assoc], ?_, ?_, ?_⟩
      · intro t ht
        rcases List.mem_append.mp ht with h | h
        · exact (hrow t h).1
        · rw [List.mem_singleton] at h
          subst h
          rfl
      · rintro (h | h)
        · exact absurd h hO
        · exact absurd h hS
      · intro k hk
        exact Function.update_noteq hk _ _

/-- See `solvePressurePoissonRow_spec`; the Duan variant. -/
theorem solvePressurePoissonDuanRow_spec (E : Externals) (grid : Grid) (delta_time : ℚ)
    (s : BubbleParticles) (sys : PoissonSystem) (i : ℕ) :
    ∃ l : List Triplet,
      (solvePressurePoissonDuanRow E grid delta_time s sys i).coeffs = sys.coeffs ++ l
        ∧ (∀ t ∈ l, t.row = i)
        ∧ ((s.boundary_types i = BoundaryType.OTHERS
              ∨ s.boundary_types i = BoundaryType.SURFACE) →
            l = [⟨i, i, 1⟩]
              ∧ (solvePressurePoissonDuanRow E grid delta_time s sys i).source_term
                = sys.source_term)
        ∧ ∀ k, k ≠ i →
            (solvePressurePoissonDuanRow E grid delta_time s sys i).source_term k
              = sys.source_term k := by
  unfold solvePressurePoissonDuanRow
  by_cases hO : s.boundary_types i = BoundaryType.OTHERS
  · rw [if_pos hO]
    exact ⟨[⟨i, i, 1⟩], rfl, by simp, fun _ => ⟨rfl, rfl⟩, fun _ _ => rfl⟩
  · rw [if_neg hO]
    by_cases hS : s.boundary_types i = BoundaryType.SURFACE
    · rw [if_pos hS]
      exact ⟨[⟨i, i, 1⟩], rfl, by simp, fun _ => ⟨rfl, rfl⟩, fun _ _ => rfl⟩
    · rw [if_neg hS]
      obtain ⟨l, hl, hrow⟩ :=
        poissonNeighbor_foldl_coeffs E s i (grid.getNeighbors i) ⟨0, 0, sys.coeffs⟩
      dsimp only
      have hmem : ∀ (v : ℚ) (t : Triplet), t ∈ l ++ [(⟨i, i, v⟩ : Triplet)] → t.row = i := by
        intro v t ht
        rcases List.mem_append.mp ht with h | h
        · exact (hrow t h).1
        · rw [List.mem_singleton] at h
          subst h
          rfl
      by_cases hIS : s.free_surface_type i = SurfaceLayer.INNER_SURFACE
      · rw [if_pos hIS, hl]
        refine ⟨l ++ [_], by rw [List.append_assoc], hmem _, ?_, ?_⟩
        · rintro (h | h)
          · exact absurd h hO
          · exact absurd h hS
        · intro k hk
          exact Function.update_noteq hk _ _
      · rw [if_neg hIS, hl]
        refine ⟨l ++ [_], by rw [List.append_assoc], hmem _, ?_, ?_⟩
        · rintro (h | h)
          · exact absurd h hO
          · exact absurd h hS
        · intro k hk
          exact Function.update_noteq hk _ _

/-- The row loop over the first `n` particles, for any row function with the behaviour
of `solvePressurePoissonRow_spec`: the identity rows among the first `n` hold exactly
their unit diagonal triplet, and their source term is the initial one. -/
theorem rowLoop_identity_rows (bt : ℕ → BoundaryType)
    (rowf : PoissonSystem → ℕ → PoissonSystem)
    (hrowf : ∀ sys i, ∃ l : List Triplet,
      (rowf sys i).coeffs = sys.coeffs ++ l
        ∧ (∀ t ∈ l, t.row = i)
        ∧ ((bt i = BoundaryType.OTHERS ∨ bt i = BoundaryType.SURFACE) →
            l = [⟨i, i, 1⟩] ∧ (rowf sys i).source_term = sys.source_term)
        ∧ ∀ k, k ≠ i → (rowf sys i).source_term k = sys.source_term k)
    (sys0 : PoissonSystem) (n : ℕ) :
    ∃ L : List Triplet,
      ((List.range n).foldl rowf sys0).coeffs = sys0.coeffs ++ L
        ∧ (∀ t ∈ L, t.row < n)
        ∧ (∀ i, i < n → (bt i = BoundaryType.OTHERS ∨ bt i = BoundaryType.SURFACE) →
            L.filter (fun t => decide (t.row = i)) = [⟨i, i, 1⟩])
        ∧ ∀ i, (bt i = BoundaryType.OTHERS ∨ bt i = BoundaryType.SURFACE ∨ n ≤ i) →
            ((List.range n).foldl rowf sys0).source_term i = sys0.source_term i := by
  induction n with
  | zero => exact ⟨[], by simp, by simp, by simp, by simp⟩
  | succ n ih =>
    obtain ⟨L, hL, hlt, hid, hsrc⟩ := ih
    obtain ⟨l, hl, hrow, hown, hother⟩ := hrowf ((List.range n).foldl rowf sys0) n
    rw [List.range_succ, List.foldl_append]
    simp only [List.foldl_cons, List.foldl_nil]
    refine ⟨L ++ l, by rw [hl, hL, List.append_assoc], ?_, ?_, ?_⟩
    · intro t ht
      rcases List.mem_append.mp ht with h | h
      · exact Nat.lt_succ_of_lt (hlt t h)
      · rw [hrow t h]
        exact Nat.lt_succ_self n
    · intro i hi hb
      rw [List.filter_append]
      rcases Nat.lt_succ_iff_lt_or_eq.mp hi with h | h
      · have e : l.filter (fun t => decide (t.row = i)) = [] := by
          rw [List.filter_eq_nil_iff]
          intro t ht
          simp only [decide_eq_true_eq]
          rw [hrow t ht]
          omega
        rw [hid i h hb, e, List.append_nil]
      · subst h
        have e : L.filter (fun t => decide (t.row = i)) = [] := by
          rw [List.filter_eq_nil_iff]
          intro t ht
          simp only [decide_eq_true_eq]
          have := hlt t ht
          omega
        rw [e, (hown hb).1]
        simp
    · intro i hb
      by_cases hin : i = n
      · subst hin
        rcases hb with h | h | h
        · rw [(hown (Or.inl h)).2]
          exact hsrc i (Or.inl h)
        · rw [(hown (Or.inr h)).2]
          exact hsrc i (Or.inr (Or.inl h))
        · omega
      · rw [hother i hin]
        apply hsrc
        rcases hb with h | h | h
        · exact Or.inl h
        · exact Or.inr (Or.inl h)
        · exact Or.inr (Or.inr (by omega))

/-- Value-initialised triplets contribute nothing to any matrix entry. -/
theorem setFromTriplets_replicate_zero (m i j : ℕ) :
    setFromTriplets (List.replicate m (⟨0, 0, 0⟩ : Triplet)) i j = 0 := by
  unfold setFromTriplets
  apply List.sum_eq_zero
  intro x hx
  rw [List.mem_map] at hx
  obtain ⟨t, ht, rfl⟩ := hx
  rw [List.eq_of_mem_replicate (List.mem_filter.mp ht).1]

/-- Matrix entries add over concatenated coefficient lists. -/
theorem setFromTriplets_append (l1 l2 : List Triplet) (i j : ℕ) :
    setFromTriplets (l1 ++ l2) i j = setFromTriplets l1 i j + setFromTriplets l2 i j := by
  unfold setFromTriplets
  rw [List.filter_append, List.map_append, List.sum_append]

/-- An entry of row `i` only depends on the triplets of row `i`. -/
theorem setFromTriplets_filter_row (l : List Triplet) (i j : ℕ) :
    setFromTriplets l i j = setFromTriplets (l.filter (fun t => decide (t.row = i))) i j := by
  unfold setFromTriplets
  rw [List.filter_filter]
  congr 2
  apply List.filter_congr
  intro t _
  by_cases h : t.row = i <;> simp [h]

/-- The assembled system of a row loop at an identity row. -/
theorem rowLoop_identity_system (bt : ℕ → BoundaryType)
    (rowf : PoissonSystem → ℕ → PoissonSystem)
    (hrowf : ∀ sys i, ∃ l : List Triplet,
      (rowf sys i).coeffs = sys.coeffs ++ l
        ∧ (∀ t ∈ l, t.row = i)
        ∧ ((bt i = BoundaryType.OTHERS ∨ bt i = BoundaryType.SURFACE) →
            l = [⟨i, i, 1⟩] ∧ (rowf sys i).source_term = sys.source_term)
        ∧ ∀ k, k ≠ i → (rowf sys i).source_term k = sys.source_term k)
    (m n i : ℕ) (hi : i < n)
    (hb : bt i = BoundaryType.OTHERS ∨ bt i = BoundaryType.SURFACE) :
    setFromTriplets ((List.range n).foldl rowf
        ⟨List.replicate m ⟨0, 0, 0⟩, fun _ => 0⟩).coeffs i i = 1
      ∧ (∀ j, j ≠ i → setFromTriplets ((List.range n).foldl rowf
          ⟨List.replicate m ⟨0, 0, 0⟩, fun _ => 0⟩).coeffs i j = 0)
      ∧ ((List.range n).foldl rowf
          ⟨List.replicate m ⟨0, 0, 0⟩, fun _ => 0⟩).source_term i = 0 := by
  obtain ⟨L, hL, _, hid, hsrc⟩ :=
    rowLoop_identity_rows bt rowf hrowf ⟨List.replicate m ⟨0, 0, 0⟩, fun _ => 0⟩ n
  have hbb : bt i = BoundaryType.OTHERS ∨ bt i = BoundaryType.SURFACE ∨ n ≤ i := by
    rcases hb with h | h
    · exact Or.inl h
    · exact Or.inr (Or.inl h)
  have hentry : ∀ j, setFromTriplets ((List.range n).foldl rowf
      ⟨List.replicate m ⟨0, 0, 0⟩, fun _ => 0⟩).coeffs i j
        = setFromTriplets [(⟨i, i, 1⟩ : Triplet)] i j := by
    intro j
    rw [hL, setFromTriplets_append, setFromTriplets_replicate_zero, zero_add,
      setFromTriplets_filter_row, hid i hi hb]
  refine ⟨?_, ?_, ?_⟩
  · rw [hentry]
    simp [setFromTriplets]
  · intro j hj
    rw [hentry]
    have : ¬ i = j := fun h => hj h.symm
    simp [setFromTriplets, this]
  · rw [hsrc i hbb]

/-- C4: for a particle `i` whose boundary type is OTHERS or SURFACE, the system assembled
by `solvePressurePoisson`, and the one assembled by `solvePressurePoissonDuan`, has
`A[i,i] = 1`, `A[i,j] = 0` for every `j ≠ i`, and `source_term(i) = 0`. -/
theorem identity_row_of_others_or_surface (E : Externals) (delta_time : ℚ)
    (s : BubbleParticles) (i : ℕ) (hi : i < s.size)
    (hb : s.boundary_types i = BoundaryType.OTHERS
      ∨ s.boundary_types i = BoundaryType.SURFACE) :
    (setFromTriplets (assemblePressurePoisson E delta_time s).coeffs i i = 1
        ∧ (∀ j, j ≠ i → setFromTriplets (assemblePressurePoisson E delta_time s).coeffs i j = 0)
        ∧ (assemblePressurePoisson E delta_time s).source_term i = 0)
      ∧ (setFromTriplets (assemblePressurePoissonDuan E delta_time s).coeffs i i = 1
        ∧ (∀ j, j ≠ i →
            setFromTriplets (assemblePressurePoissonDuan E delta_time s).coeffs i j = 0)
        ∧ (assemblePressurePoissonDuan E delta_time s).source_term i = 0) :=
  ⟨rowLoop_identity_system s.boundary_types _
      (solvePressurePoissonRow_spec E (laplacianGrid E s) delta_time s) _ s.size i hi hb,
    rowLoop_identity_system s.boundary_types _
      (solvePressurePoissonDuanRow_spec E (laplacianGrid E s) delta_time s) _ s.size i hi hb⟩

/-- Witness for C4 on the example state: particle `0` is SURFACE, particle `2` is
OTHERS. -/
theorem identity_row_of_others_or_surface_witness :
    (0 < exampleParticles.size
      ∧ (exampleParticles.boundary_types 0 = BoundaryType.OTHERS
        ∨ exampleParticles.boundary_types 0 = BoundaryType.SURFACE))
      ∧ ((setFromTriplets (assemblePressurePoisson exampleExternals 1
              exampleParticles).coeffs 0 0 = 1
          ∧ (∀ j, j ≠ 0 → setFromTriplets (assemblePressurePoisson exampleExternals 1
              exampleParticles).coeffs 0 j = 0)
          ∧ (assemblePressurePoisson exampleExternals 1 exampleParticles).source_term 0 = 0)
        ∧ (setFromTriplets (assemblePressurePoissonDuan exampleExternals 1
              exampleParticles).coeffs 0 0 = 1
          ∧ (∀ j, j ≠ 0 → setFromTriplets (assemblePressurePoissonDuan exampleExternals 1
              exampleParticles).coeffs 0 j = 0)
          ∧ (assemblePressurePoissonDuan exampleExternals 1
              exampleParticles).source_term 0 = 0)) :=
  ⟨⟨by decide, Or.inr rfl⟩,
    identity_row_of_others_or_surface exampleExternals 1 exampleParticles 0 (by decide)
      (Or.inr rfl)⟩

/-! ## Free-surface classification: the three steps in closed form -/

/-- The loop of the first step over the first `n` particles, in closed form. -/
theorem checkSurfaceFirst_foldl (s : BubbleParticles) (n : ℕ) :
    (List.range n).foldl checkSurfaceFirstStep s
      = { s with
          boundary_types := fun k =>
            if k < n then (checkSurfaceFirstStep s k).boundary_types k
            else s.boundary_types k
          free_surface_type := fun k =>
            if k < n then (checkSurfaceFirstStep s k).free_surface_type k
            else s.free_surface_type k } := by
  induction n with
  | zero => simp
  | succ n ih =>
    rw [List.range_succ, List.foldl_append, ih]
    simp only [List.foldl_cons, List.foldl_nil]
    rw [← update_below s.boundary_types, ← update_below s.free_surface_type]
    unfold checkSurfaceFirstStep
    dsimp only
    split_ifs <;> simp

/-- The second step at particle `n` writes entry `n` of three arrays and nothing else. -/
theorem checkSurfaceSecondStep_writes (E : Externals) (grid : Grid) (t : BubbleParticles)
    (n : ℕ) :
    checkSurfaceSecondStep E grid t n
      = { t with
          normal_vector := Function.update t.normal_vector n
            ((checkSurfaceSecondStep E grid t n).normal_vector n)
          boundary_types := Function.update t.boundary_types n
            ((checkSurfaceSecondStep E grid t n).boundary_types n)
          free_surface_type := Function.update t.free_surface_type n
            ((checkSurfaceSecondStep E grid t n).free_surface_type n) } := by
  unfold checkSurfaceSecondStep
  dsimp only
  split_ifs <;> simp

/-- What the second step writes at particle `n` depends on the state only through the
parameters, the positions, the number densities and entry `n` of the written arrays. -/
theorem checkSurfaceSecondStep_local (E : Externals) (grid : Grid) (s t : BubbleParticles)
    (n : ℕ) (h1 : t.condition_ = s.condition_)
    (h2 : t.temporary_position = s.temporary_position)
    (h3 : t.particle_number_density = s.particle_number_density)
    (h4 : t.boundary_types n = s.boundary_types n)
    (h5 : t.normal_vector n = s.normal_vector n)
    (h6 : t.free_surface_type n = s.free_surface_type n) :
    (checkSurfaceSecondStep E grid t n).normal_vector n
        = (checkSurfaceSecondStep E grid s n).normal_vector n
      ∧ (checkSurfaceSecondStep E grid t n).boundary_types n
        = (checkSurfaceSecondStep E grid s n).boundary_types n
      ∧ (checkSurfaceSecondStep E grid t n).free_surface_type n
        = (checkSurfaceSecondStep E grid s n).free_surface_type n := by
  unfold checkSurfaceSecondStep
  dsimp only
  rw [h1, h2, h3, h4, h5]
  split_ifs <;> simp [h4, h5, h6]

/-- The loop of the second step over the first `n` particles, in closed form. -/
theorem checkSurfaceSecond_foldl (E : Externals) (grid : Grid) (s : BubbleParticles)
    (n : ℕ) :
    (List.range n).foldl (checkSurfaceSecondStep E grid) s
      = { s with
          normal_vector := fun k =>
            if k < n then (checkSurfaceSecondStep E grid s k).normal_vector k
            else s.normal_vector k
          boundary_types := fun k =>
            if k < n then (checkSurfaceSecondStep E grid s k).boundary_types k
            else s.boundary_types k
          free_surface_type := fun k =>
            if k < n then (checkSurfaceSecondStep E grid s k).free_surface_type k
            else s.free_surface_type k } := by
  induction n with
  | zero => simp
  | succ n ih =>
    rw [List.range_succ, List.foldl_append, ih]
    simp only [List.foldl_cons, List.foldl_nil]
    rw [checkSurfaceSecondStep_writes]
    dsimp only
    obtain ⟨e1, e2, e3⟩ := checkSurfaceSecondStep_local E grid s
      { s with
          normal_vector := fun k =>
            if k < n then (checkSurfaceSecondStep E grid s k).normal_vector k
            else s.normal_vector k
          boundary_types := fun k =>
            if k < n then (checkSurfaceSecondStep E grid s k).boundary_types k
            else s.boundary_types k
          free_surface_type := fun k =>
            if k < n then (checkSurfaceSecondStep E grid s k).free_surface_type k
            else s.free_surface_type k } n rfl rfl rfl (by simp) (by simp) (by simp)
    rw [e1, e2, e3]
    rw [update_below s.normal_vector
        (fun k => (checkSurfaceSecondStep E grid s k).normal_vector k),
      update_below s.boundary_types
        (fun k => (checkSurfaceSecondStep E grid s k).boundary_types k),
      update_below s.free_surface_type
        (fun k => (checkSurfaceSecondStep E grid s k).free_surface_type k)]

/-- The inner loop of the third step over a neighbour list, in closed form. -/
theorem markInnerSurface_foldl (neighbors : List ℕ) (s : BubbleParticles) :
    neighbors.foldl markInnerSurface s
      = { s with
          free_surface_type := fun k =>
            if k ∈ neighbors ∧ s.boundary_types k = BoundaryType.INNER
                ∧ s.free_surface_type k = SurfaceLayer.INNER then
              SurfaceLayer.INNER_SURFACE
            else s.free_surface_type k } := by
  induction neighbors generalizing s with
  | nil => simp
  | cons j rest ih =>
    rw [List.foldl_cons, ih]
    unfold markInnerSurface
    by_cases hj : s.boundary_types j = BoundaryType.INNER
        ∧ s.free_surface_type j = SurfaceLayer.INNER
    · rw [if_pos hj]
      dsimp only
      congr 1
      funext k
      by_cases hk : k = j
      · subst hk
        simp [hj.1, hj.2]
      · simp [Function.update_noteq hk, hk]
    · rw [if_neg hj]
      congr 1
      funext k
      by_cases hk : k = j
      · subst hk
        have h1 : ¬ (k ∈ rest ∧ s.boundary_types k = BoundaryType.INNER
            ∧ s.free_surface_type k = SurfaceLayer.INNER) := fun h => hj h.2
        have h2 : ¬ (k ∈ k :: rest ∧ s.boundary_types k = BoundaryType.INNER
            ∧ s.free_surface_type k = SurfaceLayer.INNER) := fun h => hj h.2
        rw [if_neg h1, if_neg h2]
      · simp [hk]

/-- The third step at one particle, in closed form. -/
theorem checkSurfaceThirdStep_eq (judge : Grid) (s : BubbleParticles) (i : ℕ) :
    checkSurfaceThirdStep judge s i
      = { s with
          free_surface_type := fun k =>
            if (s.boundary_types i = BoundaryType.SURFACE ∧ k ∈ judge.getNeighbors i)
                ∧ s.boundary_types k = BoundaryType.INNER
                ∧ s.free_surface_type k = SurfaceLayer.INNER then
              SurfaceLayer.INNER_SURFACE
            else s.free_surface_type k } := by
  unfold checkSurfaceThirdStep
  by_cases hS : s.boundary_types i = BoundaryType.SURFACE
  · rw [if_pos hS]
    dsimp only
    by_cases he : (judge.getNeighbors i).isEmpty
    · rw [if_pos he]
      rw [List.isEmpty_iff] at he
      simp [he]
    · rw [if_neg he, markInnerSurface_foldl]
      simp [hS]
  · rw [if_neg hS]
    simp [hS]

/-- The loop of the third step over a list of particles, in closed form: a particle is
promoted when it is INNER in both classifications and a neighbour of a SURFACE particle
of the list. -/
theorem checkSurfaceThird_foldl (judge : Grid) (particles : List ℕ) (s : BubbleParticles) :
    particles.foldl (checkSurfaceThirdStep judge) s
      = { s with
          free_surface_type := fun k =>
            if (∃ i ∈ particles,
                  s.boundary_types i = BoundaryType.SURFACE ∧ k ∈ judge.getNeighbors i)
                ∧ s.boundary_types k = BoundaryType.INNER
                ∧ s.free_surface_type k = SurfaceLayer.INNER then
              SurfaceLayer.INNER_SURFACE
            else s.free_surface_type k } := by
  induction particles generalizing s with
  | nil => simp
  | cons i rest ih =>
    rw [List.foldl_cons, ih, checkSurfaceThirdStep_eq]
    dsimp only
    congr 1
    funext k
    by_cases hI : s.boundary_types k = BoundaryType.INNER
        ∧ s.free_surface_type k = SurfaceLayer.INNER
    · by_cases hi : s.boundary_types i = BoundaryType.SURFACE ∧ k ∈ judge.getNeighbors i
      · simp [hI.1, hI.2, hi.1, hi.2]
      · by_cases hr : ∃ x ∈ rest,
            s.boundary_types x = BoundaryType.SURFACE ∧ k ∈ judge.getNeighbors x
        · have hr2 : ∃ x ∈ i :: rest,
              s.boundary_types x = BoundaryType.SURFACE ∧ k ∈ judge.getNeighbors x := by
            obtain ⟨x, hx, hp⟩ := hr
            exact ⟨x, List.mem_cons_of_mem _ hx, hp⟩
          have c1 : ¬ ((s.boundary_types i = BoundaryType.SURFACE ∧ k ∈ judge.getNeighbors i)
              ∧ s.boundary_types k = BoundaryType.INNER
              ∧ s.free_surface_type k = SurfaceLayer.INNER) := fun h => hi h.1
          rw [if_neg c1, if_pos ⟨hr, hI⟩, if_pos ⟨hr2, hI⟩]
        · have hr2 : ¬ ∃ x ∈ i :: rest,
              s.boundary_types x = BoundaryType.SURFACE ∧ k ∈ judge.getNeighbors x := by
            rintro ⟨x, hx, hp⟩
            rcases List.mem_cons.mp hx with h | h
            · subst h
              exact hi hp
            · exact hr ⟨x, h, hp⟩
          have c1 : ¬ ((s.boundary_types i = BoundaryType.SURFACE ∧ k ∈ judge.getNeighbors i)
              ∧ s.boundary_types k = BoundaryType.INNER
              ∧ s.free_surface_type k = SurfaceLayer.INNER) := fun h => hi h.1
          have c2 : ¬ ((∃ x ∈ rest,
                s.boundary_types x = BoundaryType.SURFACE ∧ k ∈ judge.getNeighbors x)
              ∧ s.boundary_types k = BoundaryType.INNER
              ∧ s.free_surface_type k = SurfaceLayer.INNER) := fun h => hr h.1
          have c3 : ¬ ((∃ x ∈ i :: rest,
                s.boundary_types x = BoundaryType.SURFACE ∧ k ∈ judge.getNeighbors x)
              ∧ s.boundary_types k = BoundaryType.INNER
              ∧ s.free_surface_type k = SurfaceLayer.INNER) := fun h => hr2 h.1
          rw [if_neg c1, if_neg c2, if_neg c3]
    · have c1 : ¬ ((s.boundary_types i = BoundaryType.SURFACE ∧ k ∈ judge.getNeighbors i)
          ∧ s.boundary_types k = BoundaryType.INNER
          ∧ s.free_surface_type k = SurfaceLayer.INNER) := fun h => hI h.2
      have c3 : ¬ ((∃ x ∈ i :: rest,
            s.boundary_types x = BoundaryType.SURFACE ∧ k ∈ judge.getNeighbors x)
          ∧ s.boundary_types k = BoundaryType.INNER
          ∧ s.free_surface_type k = SurfaceLayer.INNER) := fun h => hI h.2
      rw [if_neg c1, if_neg c3]
      by_cases c2 : ((∃ x ∈ rest,
            s.boundary_types x = BoundaryType.SURFACE ∧ k ∈ judge.getNeighbors x)
          ∧ s.boundary_types k = BoundaryType.INNER
          ∧ s.free_surface_type k = SurfaceLayer.INNER)
      · exact absurd c2.2 hI
      · rw [if_neg c2]

/-- The first step as a whole, in closed form. -/
theorem checkSurfaceFirst_eq (s : BubbleParticles) :
    checkSurfaceFirst s
      = { s with
          boundary_types := fun k =>
            if k < s.size then (checkSurfaceFirstStep s k).boundary_types k
            else s.boundary_types k
          free_surface_type := fun k =>
            if k < s.size then (checkSurfaceFirstStep s k).free_surface_type k
            else s.free_surface_type k } :=
  checkSurfaceFirst_foldl s s.size

/-- The second step as a whole, in closed form. -/
theorem checkSurfaceSecond_eq (E : Externals) (s : BubbleParticles) :
    checkSurfaceSecond E s
      = { s with
          normal_vector := fun k =>
            if k < s.size then
              (checkSurfaceSecondStep E (surfaceGrid E s)
                { s with normal_vector := fun _ => Vector3d.zero } k).normal_vector k
            else Vector3d.zero
          boundary_types := fun k =>
            if k < s.size then
              (checkSurfaceSecondStep E (surfaceGrid E s)
                { s with normal_vector := fun _ => Vector3d.zero } k).boundary_types k
            else s.boundary_types k
          free_surface_type := fun k =>
            if k < s.size then
              (checkSurfaceSecondStep E (surfaceGrid E s)
                { s with normal_vector := fun _ => Vector3d.zero } k).free_surface_type k
            else s.free_surface_type k } := by
  unfold checkSurfaceSecond
  rw [checkSurfaceSecond_foldl]

/-- The third step as a whole, in closed form. -/
theorem checkSurfaceThird_eq (E : Externals) (s : BubbleParticles) :
    checkSurfaceThird E s
      = { s with
          free_surface_type := fun k =>
            if (∃ i ∈ List.range s.size,
                  s.boundary_types i = BoundaryType.SURFACE
                    ∧ k ∈ (judgeInnerSurfaceGrid E s).getNeighbors i)
                ∧ s.boundary_types k = BoundaryType.INNER
                ∧ s.free_surface_type k = SurfaceLayer.INNER then
              SurfaceLayer.INNER_SURFACE
            else s.free_surface_type k } := by
  unfold checkSurfaceThird
  rw [checkSurfaceThird_foldl]

/-- The second step as a whole at one particle. -/
theorem checkSurfaceSecond_apply (E : Externals) (s : BubbleParticles) (k : ℕ)
    (hk : k < s.size) :
    (checkSurfaceSecond E s).normal_vector k
        = (checkSurfaceSecondStep E (surfaceGrid E s)
            { s with normal_vector := fun _ => Vector3d.zero } k).normal_vector k
      ∧ (checkSurfaceSecond E s).boundary_types k
        = (checkSurfaceSecondStep E (surfaceGrid E s)
            { s with normal_vector := fun _ => Vector3d.zero } k).boundary_types k
      ∧ (checkSurfaceSecond E s).free_surface_type k
        = (checkSurfaceSecondStep E (surfaceGrid E s)
            { s with normal_vector := fun _ => Vector3d.zero } k).free_surface_type k := by
  rw [checkSurfaceSecond_eq]
  simp [hk]

/-- What the first step writes at one particle. -/
theorem checkSurfaceFirstStep_values (s : BubbleParticles) (k : ℕ) :
    (checkSurfaceFirstStep s k).boundary_types k
        = (if s.particle_types k = ParticleType.NORMAL
              ∨ s.particle_types k = ParticleType.WALL
              ∨ s.particle_types k = ParticleType.INFLOW then
            if s.particle_number_density k
                  < s.condition_.surface_threshold_pnd * s.initial_particle_number_density
                ∧ (s.neighbor_particles k : ℚ)
                  < s.condition_.surface_threshold_number
                    * (s.initial_neighbor_particles : ℚ) then
              BoundaryType.SURFACE
            else BoundaryType.INNER
          else BoundaryType.OTHERS)
      ∧ (checkSurfaceFirstStep s k).free_surface_type k
        = (if s.particle_types k = ParticleType.NORMAL
              ∨ s.particle_types k = ParticleType.WALL
              ∨ s.particle_types k = ParticleType.INFLOW then
            if s.particle_number_density k
                  < s.condition_.surface_threshold_pnd * s.initial_particle_number_density
                ∧ (s.neighbor_particles k : ℚ)
                  < s.condition_.surface_threshold_number
                    * (s.initial_neighbor_particles : ℚ) then
              SurfaceLayer.OUTER_SURFACE
            else SurfaceLayer.INNER
          else SurfaceLayer.OTHERS) := by
  unfold checkSurfaceFirstStep
  split_ifs <;> simp

/-- What the second step does to the classification of one particle: it leaves it, or it
turns a SURFACE particle into an INNER one in both classifications. -/
theorem checkSurfaceSecondStep_cases (E : Externals) (grid : Grid) (t : BubbleParticles)
    (k : ℕ) :
    ((checkSurfaceSecondStep E grid t k).boundary_types k = t.boundary_types k
        ∧ (checkSurfaceSecondStep E grid t k).free_surface_type k = t.free_surface_type k)
      ∨ (t.boundary_types k = BoundaryType.SURFACE
        ∧ (checkSurfaceSecondStep E grid t k).boundary_types k = BoundaryType.INNER
        ∧ (checkSurfaceSecondStep E grid t k).free_surface_type k = SurfaceLayer.INNER) := by
  unfold checkSurfaceSecondStep
  dsimp only
  split_ifs with h1 h2 h3
  · exact Or.inl ⟨rfl, rfl⟩
  · exact Or.inr ⟨h1, by simp, by simp⟩
  · exact Or.inl ⟨rfl, rfl⟩
  · exact Or.inl ⟨rfl, rfl⟩

/-- The classification of a particle after the first two steps, in terms of the frozen
inputs: either the first-step values, or INNER in both classifications for a particle
that the first step made SURFACE. -/
theorem checkSurfaceSecond_first_cases (E : Externals) (s : BubbleParticles) (k : ℕ)
    (hk : k < s.size) :
    ((checkSurfaceSecond E (checkSurfaceFirst s)).boundary_types k
          = (checkSurfaceFirstStep s k).boundary_types k
        ∧ (checkSurfaceSecond E (checkSurfaceFirst s)).free_surface_type k
          = (checkSurfaceFirstStep s k).free_surface_type k)
      ∨ ((checkSurfaceFirstStep s k).boundary_types k = BoundaryType.SURFACE
        ∧ (checkSurfaceSecond E (checkSurfaceFirst s)).boundary_types k = BoundaryType.INNER
        ∧ (checkSurfaceSecond E (checkSurfaceFirst s)).free_surface_type k
          = SurfaceLayer.INNER) := by
  have hsize : (checkSurfaceFirst s).size = s.size := by rw [checkSurfaceFirst_eq]
  have hb : (checkSurfaceFirst s).boundary_types k
      = (checkSurfaceFirstStep s k).boundary_types k := by
    rw [checkSurfaceFirst_eq]
    simp [hk]
  have hf : (checkSurfaceFirst s).free_surface_type k
      = (checkSurfaceFirstStep s k).free_surface_type k := by
    rw [checkSurfaceFirst_eq]
    simp [hk]
  obtain ⟨_, e2, e3⟩ := checkSurfaceSecond_apply E (checkSurfaceFirst s) k (by rw [hsize]; exact hk)
  rw [e2, e3]
  have h := checkSurfaceSecondStep_cases E (surfaceGrid E (checkSurfaceFirst s))
    { checkSurfaceFirst s with normal_vector := fun _ => Vector3d.zero } k
  dsimp only at h
  rw [hb, hf] at h
  exact h

/-- The third step at one particle: the boundary type is kept, and the layer is kept or
promoted from INNER to INNER_SURFACE, the latter exactly for a particle that is INNER in
both classifications and a neighbour of a SURFACE particle. -/
theorem checkSurfaceThird_apply (E : Externals) (t : BubbleParticles) (k : ℕ) :
    (checkSurfaceThird E t).boundary_types = t.boundary_types
      ∧ (((∃ i, i < t.size ∧ t.boundary_types i = BoundaryType.SURFACE
              ∧ k ∈ (judgeInnerSurfaceGrid E t).getNeighbors i)
            ∧ t.boundary_types k = BoundaryType.INNER
            ∧ t.free_surface_type k = SurfaceLayer.INNER
            ∧ (checkSurfaceThird E t).free_surface_type k = SurfaceLayer.INNER_SURFACE)
        ∨ (¬ ((∃ i, i < t.size ∧ t.boundary_types i = BoundaryType.SURFACE
              ∧ k ∈ (judgeInnerSurfaceGrid E t).getNeighbors i)
            ∧ t.boundary_types k = BoundaryType.INNER
            ∧ t.free_surface_type k = SurfaceLayer.INNER)
          ∧ (checkSurfaceThird E t).free_surface_type k = t.free_surface_type k)) := by
  rw [checkSurfaceThird_eq]
  refine ⟨rfl, ?_⟩
  dsimp only
  have hex : (∃ i ∈ List.range t.size, t.boundary_types i = BoundaryType.SURFACE
        ∧ k ∈ (judgeInnerSurfaceGrid E t).getNeighbors i)
      ↔ ∃ i, i < t.size ∧ t.boundary_types i = BoundaryType.SURFACE
        ∧ k ∈ (judgeInnerSurfaceGrid E t).getNeighbors i := by
    constructor
    · rintro ⟨i, hi, hp⟩
      exact ⟨i, List.mem_range.mp hi, hp⟩
    · rintro ⟨i, hi, hp⟩
      exact ⟨i, List.mem_range.mpr hi, hp⟩
  by_cases hc : (∃ i ∈ List.range t.size, t.boundary_types i = BoundaryType.SURFACE
        ∧ k ∈ (judgeInnerSurfaceGrid E t).getNeighbors i)
      ∧ t.boundary_types k = BoundaryType.INNER
      ∧ t.free_surface_type k = SurfaceLayer.INNER
  · rw [if_pos hc]
    exact Or.inl ⟨hex.mp hc.1, hc.2.1, hc.2.2, rfl⟩
  · rw [if_neg hc]
    exact Or.inr ⟨fun h => hc ⟨hex.mpr h.1, h.2⟩, rfl⟩

/-- C7: after `checkSurface`, a particle ends OTHERS (boundary type and layer) if and only
if its particle type is none of NORMAL, WALL, INFLOW; a particle that ends SURFACE is
below both thresholds; and a NORMAL, WALL or INFLOW particle that fails a threshold ends
INNER. -/
theorem checkSurface_role_and_thresholds (E : Externals) (s : BubbleParticles) (i : ℕ)
    (hi : i < s.size) :
    (((checkSurface E s).boundary_types i = BoundaryType.OTHERS
          ∧ (checkSurface E s).free_surface_type i = SurfaceLayer.OTHERS)
        ↔ ¬ (s.particle_types i = ParticleType.NORMAL
            ∨ s.particle_types i = ParticleType.WALL
            ∨ s.particle_types i = ParticleType.INFLOW))
      ∧ ((checkSurface E s).boundary_types i = BoundaryType.OTHERS
        ↔ ¬ (s.particle_types i = ParticleType.NORMAL
            ∨ s.particle_types i = ParticleType.WALL
            ∨ s.particle_types i = ParticleType.INFLOW))
      ∧ ((checkSurface E s).boundary_types i = BoundaryType.SURFACE →
          s.particle_number_density i
              < s.condition_.surface_threshold_pnd * s.initial_particle_number_density
            ∧ (s.neighbor_particles i : ℚ)
              < s.condition_.surface_threshold_number * (s.initial_neighbor_particles : ℚ))
      ∧ ((s.particle_types i = ParticleType.NORMAL
            ∨ s.particle_types i = ParticleType.WALL
            ∨ s.particle_types i = ParticleType.INFLOW) →
          ¬ (s.particle_number_density i
              < s.condition_.surface_threshold_pnd * s.initial_particle_number_density
            ∧ (s.neighbor_particles i : ℚ)
              < s.condition_.surface_threshold_number * (s.initial_neighbor_particles : ℚ)) →
          (checkSurface E s).boundary_types i = BoundaryType.INNER) := by
  obtain ⟨hbt, hfst⟩ := checkSurfaceThird_apply E (checkSurfaceSecond E (checkSurfaceFirst s)) i
  have hb : (checkSurface E s).boundary_types i
      = (checkSurfaceSecond E (checkSurfaceFirst s)).boundary_types i := by
    unfold checkSurface
    rw [hbt]
  have hf : (checkSurface E s).free_surface_type i
      = (checkSurfaceThird E (checkSurfaceSecond E (checkSurfaceFirst s))).free_surface_type i :=
    rfl
  obtain ⟨v1, v2⟩ := checkSurfaceFirstStep_values s i
  rw [hb, hf]
  by_cases hfl : s.particle_types i = ParticleType.NORMAL
      ∨ s.particle_types i = ParticleType.WALL
      ∨ s.particle_types i = ParticleType.INFLOW
  · rw [if_pos hfl] at v1 v2
    by_cases hbel : s.particle_number_density i
          < s.condition_.surface_threshold_pnd * s.initial_particle_number_density
        ∧ (s.neighbor_particles i : ℚ)
          < s.condition_.surface_threshold_number * (s.initial_neighbor_particles : ℚ)
    · rw [if_pos hbel] at v1 v2
      rcases checkSurfaceSecond_first_cases E s i hi with ⟨c1, c2⟩ | ⟨_, c1, c2⟩
      · rw [v1] at c1
        rw [v2] at c2
        rcases hfst with ⟨_, h1, _, _⟩ | ⟨_, h2⟩
        · rw [c1] at h1
          exact absurd h1 (by decide)
        · rw [h2, c1, c2]
          simp [hfl, hbel]
      · rcases hfst with ⟨_, _, _, h2⟩ | ⟨_, h2⟩
        · rw [h2, c1]
          simp [hfl, hbel]
        · rw [h2, c1, c2]
          simp [hfl, hbel]
    · rw [if_neg hbel] at v1 v2
      rcases checkSurfaceSecond_first_cases E s i hi with ⟨c1, c2⟩ | ⟨c0, _, _⟩
      · rw [v1] at c1
        rw [v2] at c2
        rcases hfst with ⟨_, _, _, h2⟩ | ⟨_, h2⟩
        · rw [h2, c1]
          simp [hfl, hbel]
        · rw [h2, c1, c2]
          simp [hfl, hbel]
      · rw [v1] at c0
        exact absurd c0 (by decide)
  · rw [if_neg hfl] at v1 v2
    rcases checkSurfaceSecond_first_cases E s i hi with ⟨c1, c2⟩ | ⟨c0, _, _⟩
    · rw [v1] at c1
      rw [v2] at c2
      rcases hfst with ⟨_, h1, _, _⟩ | ⟨_, h2⟩
      · rw [c1] at h1
        exact absurd h1 (by decide)
      · rw [h2, c1, c2]
        simp [hfl]
    · rw [v1] at c0
      exact absurd c0 (by decide)

/-- Witness for C7 on the example state, particle `0`. -/
theorem checkSurface_role_and_thresholds_witness :
    0 < exampleParticles.size
      ∧ ((((checkSurface exampleExternals exampleParticles).boundary_types 0
              = BoundaryType.OTHERS
            ∧ (checkSurface exampleExternals exampleParticles).free_surface_type 0
              = SurfaceLayer.OTHERS)
          ↔ ¬ (exampleParticles.particle_types 0 = ParticleType.NORMAL
              ∨ exampleParticles.particle_types 0 = ParticleType.WALL
              ∨ exampleParticles.particle_types 0 = ParticleType.INFLOW))
        ∧ ((checkSurface exampleExternals exampleParticles).boundary_types 0
            = BoundaryType.OTHERS
          ↔ ¬ (exampleParticles.particle_types 0 = ParticleType.NORMAL
              ∨ exampleParticles.particle_types 0 = ParticleType.WALL
              ∨ exampleParticles.particle_types 0 = ParticleType.INFLOW))
        ∧ ((checkSurface exampleExternals exampleParticles).boundary_types 0
            = BoundaryType.SURFACE →
            exampleParticles.particle_number_density 0
                < exampleParticles.condition_.surface_threshold_pnd
                  * exampleParticles.initial_particle_number_density
              ∧ (exampleParticles.neighbor_particles 0 : ℚ)
                < exampleParticles.condition_.surface_threshold_number
                  * (exampleParticles.initial_neighbor_particles : ℚ))
        ∧ ((exampleParticles.particle_types 0 = ParticleType.NORMAL
              ∨ exampleParticles.particle_types 0 = ParticleType.WALL
              ∨ exampleParticles.particle_types 0 = ParticleType.INFLOW) →
            ¬ (exampleParticles.particle_number_density 0
                < exampleParticles.condition_.surface_threshold_pnd
                  * exampleParticles.initial_particle_number_density
              ∧ (exampleParticles.neighbor_particles 0 : ℚ)
                < exampleParticles.condition_.surface_threshold_number
                  * (exampleParticles.initial_neighbor_particles : ℚ)) →
            (checkSurface exampleExternals exampleParticles).boundary_types 0
              = BoundaryType.INNER)) :=
  ⟨by decide, checkSurface_role_and_thresholds exampleExternals exampleParticles 0 (by decide)⟩

/-- After the first two steps no particle is INNER_SURFACE. -/
theorem checkSurfaceSecond_first_not_inner_surface (E : Externals) (s : BubbleParticles)
    (k : ℕ) (hk : k < s.size) :
    (checkSurfaceSecond E (checkSurfaceFirst s)).free_surface_type k
      ≠ SurfaceLayer.INNER_SURFACE := by
  obtain ⟨_, v2⟩ := checkSurfaceFirstStep_values s k
  rcases checkSurfaceSecond_first_cases E s k hk with ⟨_, c2⟩ | ⟨_, _, c2⟩
  · rw [c2, v2]
    split_ifs <;> decide
  · rw [c2]
    decide

/-- The first two steps keep the particle count. -/
theorem checkSurfaceSecond_first_size (E : Externals) (s : BubbleParticles) :
    (checkSurfaceSecond E (checkSurfaceFirst s)).size = s.size := by
  rw [checkSurfaceSecond_eq, checkSurfaceFirst_eq]

/-- C6: after `checkSurface`, particle `j` is INNER_SURFACE exactly when at the end of the
second step it was INNER in both classifications and in the secondary-grid neighbour list
of some particle that was SURFACE; a particle that is SURFACE or OUTER_SURFACE after the
second step is not changed by the third step; and the third step keeps every boundary
type and either keeps the layer or promotes it from INNER to INNER_SURFACE. -/
theorem inner_surface_iff (E : Externals) (s : BubbleParticles) (j : ℕ) (hj : j < s.size) :
    ((checkSurface E s).free_surface_type j = SurfaceLayer.INNER_SURFACE
        ↔ ((checkSurfaceSecond E (checkSurfaceFirst s)).boundary_types j = BoundaryType.INNER
            ∧ (checkSurfaceSecond E (checkSurfaceFirst s)).free_surface_type j
              = SurfaceLayer.INNER)
          ∧ ∃ i, i < s.size
            ∧ (checkSurfaceSecond E (checkSurfaceFirst s)).boundary_types i
              = BoundaryType.SURFACE
            ∧ j ∈ (judgeInnerSurfaceGrid E
                (checkSurfaceSecond E (checkSurfaceFirst s))).getNeighbors i)
      ∧ (((checkSurfaceSecond E (checkSurfaceFirst s)).boundary_types j = BoundaryType.SURFACE
            ∨ (checkSurfaceSecond E (checkSurfaceFirst s)).free_surface_type j
              = SurfaceLayer.OUTER_SURFACE) →
          (checkSurface E s).boundary_types j
              = (checkSurfaceSecond E (checkSurfaceFirst s)).boundary_types j
            ∧ (checkSurface E s).free_surface_type j
              = (checkSurfaceSecond E (checkSurfaceFirst s)).free_surface_type j)
      ∧ (checkSurface E s).boundary_types j
          = (checkSurfaceSecond E (checkSurfaceFirst s)).boundary_types j
      ∧ ((checkSurface E s).free_surface_type j
            = (checkSurfaceSecond E (checkSurfaceFirst s)).free_surface_type j
          ∨ ((checkSurfaceSecond E (checkSurfaceFirst s)).free_surface_type j
              = SurfaceLayer.INNER
            ∧ (checkSurface E s).free_surface_type j = SurfaceLayer.INNER_SURFACE)) := by
  obtain ⟨hbt, hfst⟩ := checkSurfaceThird_apply E (checkSurfaceSecond E (checkSurfaceFirst s)) j
  have hb : (checkSurface E s).boundary_types j
      = (checkSurfaceSecond E (checkSurfaceFirst s)).boundary_types j := by
    unfold checkSurface
    rw [hbt]
  have hf : (checkSurface E s).free_surface_type j
      = (checkSurfaceThird E (checkSurfaceSecond E (checkSurfaceFirst s))).free_surface_type j :=
    rfl
  have hnot := checkSurfaceSecond_first_not_inner_surface E s j hj
  rw [checkSurfaceSecond_first_size] at hfst
  rw [hf]
  rcases hfst with ⟨hex, h1, h2, h3⟩ | ⟨hne, h3⟩
  · refine ⟨⟨fun _ => ⟨⟨h1, h2⟩, hex⟩, fun _ => h3⟩, ?_, hb, Or.inr ⟨h2, h3⟩⟩
    rintro (h | h)
    · rw [h1] at h
      exact absurd h (by decide)
    · rw [h2] at h
      exact absurd h (by decide)
  · refine ⟨⟨fun h => ?_, fun h => ?_⟩, fun _ => ⟨hb, h3⟩, hb, Or.inl h3⟩
    · rw [h3] at h
      exact absurd h hnot
    · exact absurd ⟨h.2, h.1.1, h.1.2⟩ hne

/-- Witness for C6 on the example state, particle `1`. -/
theorem inner_surface_iff_witness :
    1 < exampleParticles.size
      ∧ (((checkSurface exampleExternals exampleParticles).free_surface_type 1
            = SurfaceLayer.INNER_SURFACE
          ↔ ((checkSurfaceSecond exampleExternals
                  (checkSurfaceFirst exampleParticles)).boundary_types 1 = BoundaryType.INNER
              ∧ (checkSurfaceSecond exampleExternals
                  (checkSurfaceFirst exampleParticles)).free_surface_type 1
                = SurfaceLayer.INNER)
            ∧ ∃ i, i < exampleParticles.size
              ∧ (checkSurfaceSecond exampleExternals
                  (checkSurfaceFirst exampleParticles)).boundary_types i
                = BoundaryType.SURFACE
              ∧ 1 ∈ (judgeInnerSurfaceGrid exampleExternals
                  (checkSurfaceSecond exampleExternals
                    (checkSurfaceFirst exampleParticles))).getNeighbors i)
        ∧ (((checkSurfaceSecond exampleExternals
                (checkSurfaceFirst exampleParticles)).boundary_types 1 = BoundaryType.SURFACE
              ∨ (checkSurfaceSecond exampleExternals
                  (checkSurfaceFirst exampleParticles)).free_surface_type 1
                = SurfaceLayer.OUTER_SURFACE) →
            (checkSurface exampleExternals exampleParticles).boundary_types 1
                = (checkSurfaceSecond exampleExternals
                    (checkSurfaceFirst exampleParticles)).boundary_types 1
              ∧ (checkSurface exampleExternals exampleParticles).free_surface_type 1
                = (checkSurfaceSecond exampleExternals
                    (checkSurfaceFirst exampleParticles)).free_surface_type 1)
        ∧ (checkSurface exampleExternals exampleParticles).boundary_types 1
            = (checkSurfaceSecond exampleExternals
                (checkSurfaceFirst exampleParticles)).boundary_types 1
        ∧ ((checkSurface exampleExternals exampleParticles).free_surface_type 1
              = (checkSurfaceSecond exampleExternals
                  (checkSurfaceFirst exampleParticles)).free_surface_type 1
            ∨ ((checkSurfaceSecond exampleExternals
                  (checkSurfaceFirst exampleParticles)).free_surface_type 1
                = SurfaceLayer.INNER
              ∧ (checkSurface exampleExternals exampleParticles).free_surface_type 1
                = SurfaceLayer.INNER_SURFACE))) :=
  ⟨by decide, inner_surface_iff exampleExternals exampleParticles 1 (by decide)⟩

/-! ## Free-surface classification: idempotence -/

/-- The first step keeps the frozen snapshot. -/
theorem checkSurfaceFirst_snapshot (s : BubbleParticles) :
    SameSnapshot s (checkSurfaceFirst s) := by
  rw [checkSurfaceFirst_eq]
  exact ⟨rfl, rfl, rfl, rfl, rfl, rfl, rfl, rfl, rfl⟩

/-- The second step keeps the frozen snapshot. -/
theorem checkSurfaceSecond_snapshot (E : Externals) (s : BubbleParticles) :
    SameSnapshot s (checkSurfaceSecond E s) := by
  rw [checkSurfaceSecond_eq]
  exact ⟨rfl, rfl, rfl, rfl, rfl, rfl, rfl, rfl, rfl⟩

/-- The third step keeps the frozen snapshot, the boundary types and the normals. -/
theorem checkSurfaceThird_snapshot (E : Externals) (s : BubbleParticles) :
    SameSnapshot s (checkSurfaceThird E s)
      ∧ (checkSurfaceThird E s).boundary_types = s.boundary_types
      ∧ (checkSurfaceThird E s).normal_vector = s.normal_vector := by
  rw [checkSurfaceThird_eq]
  exact ⟨⟨rfl, rfl, rfl, rfl, rfl, rfl, rfl, rfl, rfl⟩, rfl, rfl⟩

theorem SameSnapshot.trans {s t u : BubbleParticles} (h1 : SameSnapshot s t)
    (h2 : SameSnapshot t u) : SameSnapshot s u := by
  obtain ⟨a1, a2, a3, a4, a5, a6, a7, a8, a9⟩ := h1
  obtain ⟨b1, b2, b3, b4, b5, b6, b7, b8, b9⟩ := h2
  exact ⟨b1.trans a1, b2.trans a2, b3.trans a3, b4.trans a4, b5.trans a5, b6.trans a6,
    b7.trans a7, b8.trans a8, b9.trans a9⟩

/-- States with the same frozen snapshot get the same two grids. -/
theorem grids_of_snapshot (E : Externals) {s t : BubbleParticles} (h : SameSnapshot s t) :
    surfaceGrid E t = surfaceGrid E s
      ∧ judgeInnerSurfaceGrid E t = judgeInnerSurfaceGrid E s := by
  obtain ⟨a1, a2, a3, _, _, a6, a7, _, _⟩ := h
  unfold surfaceGrid judgeInnerSurfaceGrid
  rw [a1, a2, a3, a6, a7]
  exact ⟨rfl, rfl⟩

/-- The function `checkSurface` writes the normals and the two classifications, and nothing else. -/
theorem checkSurface_frame (E : Externals) (s : BubbleParticles) :
    checkSurface E s
      = { s with
          normal_vector := (checkSurface E s).normal_vector
          boundary_types := (checkSurface E s).boundary_types
          free_surface_type := (checkSurface E s).free_surface_type } := by
  unfold checkSurface
  rw [checkSurfaceThird_eq, checkSurfaceSecond_eq, checkSurfaceFirst_eq]

/-- What the first step writes at a particle is the same for states with the same frozen
snapshot. -/
theorem checkSurfaceFirstStep_of_snapshot {s t : BubbleParticles} (h : SameSnapshot s t)
    (k : ℕ) :
    (checkSurfaceFirstStep t k).boundary_types k = (checkSurfaceFirstStep s k).boundary_types k
      ∧ (checkSurfaceFirstStep t k).free_surface_type k
        = (checkSurfaceFirstStep s k).free_surface_type k := by
  obtain ⟨a1, _, _, a4, a5, a6, _, a8, a9⟩ := h
  obtain ⟨v1, v2⟩ := checkSurfaceFirstStep_values t k
  obtain ⟨w1, w2⟩ := checkSurfaceFirstStep_values s k
  rw [v1, v2, w1, w2, a1, a4, a5, a6, a8, a9]
  exact ⟨rfl, rfl⟩

/-- The state after the first two steps, for states with the same frozen snapshot: the
normals agree, the classifications of the particles agree, and entries beyond the particle
count are those of the input. -/
theorem checkSurfaceSecond_first_agree (E : Externals) {s t : BubbleParticles}
    (h : SameSnapshot s t) :
    (∀ k, (checkSurfaceSecond E (checkSurfaceFirst t)).normal_vector k
        = (checkSurfaceSecond E (checkSurfaceFirst s)).normal_vector k)
      ∧ (∀ k, k < s.size →
          (checkSurfaceSecond E (checkSurfaceFirst t)).boundary_types k
              = (checkSurfaceSecond E (checkSurfaceFirst s)).boundary_types k
            ∧ (checkSurfaceSecond E (checkSurfaceFirst t)).free_surface_type k
              = (checkSurfaceSecond E (checkSurfaceFirst s)).free_surface_type k)
      ∧ ∀ k, s.size ≤ k →
          (checkSurfaceSecond E (checkSurfaceFirst t)).boundary_types k = t.boundary_types k
            ∧ (checkSurfaceSecond E (checkSurfaceFirst t)).free_surface_type k
              = t.free_surface_type k := by
  have hs1 := checkSurfaceFirst_snapshot s
  have ht1 := checkSurfaceFirst_snapshot t
  have h11 : SameSnapshot (checkSurfaceFirst s) (checkSurfaceFirst t) := by
    obtain ⟨a1, a2, a3, a4, a5, a6, a7, a8, a9⟩ := h
    obtain ⟨b1, b2, b3, b4, b5, b6, b7, b8, b9⟩ := hs1
    obtain ⟨c1, c2, c3, c4, c5, c6, c7, c8, c9⟩ := ht1
    exact ⟨by rw [c1, b1, a1], by rw [c2, b2, a2], by rw [c3, b3, a3], by rw [c4, b4, a4],
      by rw [c5, b5, a5], by rw [c6, b6, a6], by rw [c7, b7, a7], by rw [c8, b8, a8],
      by rw [c9, b9, a9]⟩
  have hg := (grids_of_snapshot E h11).1
  have hsz : (checkSurfaceFirst s).size = s.size := hs1.2.1
  have htz : (checkSurfaceFirst t).size = s.size := ht1.2.1.trans h.2.1
  have hlocal : ∀ k, k < s.size →
      (checkSurfaceSecond E (checkSurfaceFirst t)).normal_vector k
          = (checkSurfaceSecond E (checkSurfaceFirst s)).normal_vector k
        ∧ (checkSurfaceSecond E (checkSurfaceFirst t)).boundary_types k
          = (checkSurfaceSecond E (checkSurfaceFirst s)).boundary_types k
        ∧ (checkSurfaceSecond E (checkSurfaceFirst t)).free_surface_type k
          = (checkSurfaceSecond E (checkSurfaceFirst s)).free_surface_type k := by
    intro k hk
    obtain ⟨p1, p2, p3⟩ := checkSurfaceSecond_apply E (checkSurfaceFirst t) k
      (by rw [htz]; exact hk)
    obtain ⟨q1, q2, q3⟩ := checkSurfaceSecond_apply E (checkSurfaceFirst s) k
      (by rw [hsz]; exact hk)
    rw [p1, p2, p3, q1, q2, q3, hg]
    have hb : (checkSurfaceFirst t).boundary_types k = (checkSurfaceFirst s).boundary_types k := by
      rw [checkSurfaceFirst_eq t, checkSurfaceFirst_eq s]
      simp only [h.2.1, hk, if_true]
      exact (checkSurfaceFirstStep_of_snapshot h k).1
    have hf : (checkSurfaceFirst t).free_surface_type k
        = (checkSurfaceFirst s).free_surface_type k := by
      rw [checkSurfaceFirst_eq t, checkSurfaceFirst_eq s]
      simp only [h.2.1, hk, if_true]
      exact (checkSurfaceFirstStep_of_snapshot h k).2
    exact checkSurfaceSecondStep_local E (surfaceGrid E (checkSurfaceFirst s))
      { checkSurfaceFirst s with normal_vector := fun _ => Vector3d.zero }
      { checkSurfaceFirst t with normal_vector := fun _ => Vector3d.zero } k
      h11.1 h11.2.2.2.2.2.2.1 h11.2.2.2.2.2.2.2.1 hb rfl hf
  refine ⟨?_, fun k hk => (hlocal k hk).2, ?_⟩
  · intro k
    by_cases hk : k < s.size
    · exact (hlocal k hk).1
    · rw [checkSurfaceSecond_eq (checkSurfaceFirst t) (E := E),
        checkSurfaceSecond_eq (checkSurfaceFirst s) (E := E)]
      simp [hsz, htz, hk]
  · intro k hk
    have hk' : ¬ k < s.size := by omega
    have hk'' : ¬ k < t.size := by rw [h.2.1]; exact hk'
    rw [checkSurfaceSecond_eq (checkSurfaceFirst t) (E := E)]
    simp only [htz, hk', if_false]
    rw [checkSurfaceFirst_eq t]
    simp only [hk'', if_false]
    exact ⟨trivial, trivial⟩

/-- The function `checkSurface` keeps the frozen snapshot. -/
theorem checkSurface_snapshot (E : Externals) (s : BubbleParticles) :
    SameSnapshot s (checkSurface E s) :=
  ((checkSurfaceFirst_snapshot s).trans (checkSurfaceSecond_snapshot E _)).trans
    (checkSurfaceThird_snapshot E _).1

/-- C5: `checkSurface` is idempotent on a frozen snapshot: a second run right after the
first returns the state of the first run, so `boundary_types`, `free_surface_type` and
`normal_vector` are exactly as the first run left them. -/
theorem checkSurface_idempotent (E : Externals) (s : BubbleParticles) :
    checkSurface E (checkSurface E s) = checkSurface E s
      ∧ (checkSurface E (checkSurface E s)).boundary_types
        = (checkSurface E s).boundary_types
      ∧ (checkSurface E (checkSurface E s)).free_surface_type
        = (checkSurface E s).free_surface_type
      ∧ (checkSurface E (checkSurface E s)).normal_vector
        = (checkSurface E s).normal_vector := by
  have key : checkSurface E (checkSurface E s) = checkSurface E s := by
    have F1 := checkSurface_snapshot E s
    have F2 : (checkSurface E s).boundary_types
        = (checkSurfaceSecond E (checkSurfaceFirst s)).boundary_types :=
      (checkSurfaceThird_snapshot E _).2.1
    have F3 : (checkSurface E s).normal_vector
        = (checkSurfaceSecond E (checkSurfaceFirst s)).normal_vector :=
      (checkSurfaceThird_snapshot E _).2.2
    have F4 : ∀ k, _ := fun k =>
      (checkSurfaceThird_apply E (checkSurfaceSecond E (checkSurfaceFirst s)) k).2
    have hvs : SameSnapshot s (checkSurfaceSecond E (checkSurfaceFirst s)) :=
      (checkSurfaceFirst_snapshot s).trans (checkSurfaceSecond_snapshot E _)
    rw [hvs.2.1] at F4
    change ∀ k, (_ ∧ _ ∧ _ ∧ (checkSurface E s).free_surface_type k = _)
      ∨ (_ ∧ (checkSurface E s).free_surface_type k = _) at F4
    generalize checkSurface E s = s' at F1 F2 F3 F4 ⊢
    obtain ⟨hnv, hlt, hge⟩ := checkSurfaceSecond_first_agree E F1
    have hvs' : SameSnapshot s' (checkSurfaceSecond E (checkSurfaceFirst s')) :=
      (checkSurfaceFirst_snapshot s').trans (checkSurfaceSecond_snapshot E _)
    have hvv : SameSnapshot (checkSurfaceSecond E (checkSurfaceFirst s))
        (checkSurfaceSecond E (checkSurfaceFirst s')) := by
      obtain ⟨a1, a2, a3, a4, a5, a6, a7, a8, a9⟩ := F1
      obtain ⟨b1, b2, b3, b4, b5, b6, b7, b8, b9⟩ := hvs
      obtain ⟨c1, c2, c3, c4, c5, c6, c7, c8, c9⟩ := hvs'
      exact ⟨by rw [c1, b1, a1], by rw [c2, b2, a2], by rw [c3, b3, a3], by rw [c4, b4, a4],
        by rw [c5, b5, a5], by rw [c6, b6, a6], by rw [c7, b7, a7], by rw [c8, b8, a8],
        by rw [c9, b9, a9]⟩
    have hjudge := (grids_of_snapshot E hvv).2
    have G2 : (checkSurface E s').boundary_types
        = (checkSurfaceSecond E (checkSurfaceFirst s')).boundary_types :=
      (checkSurfaceThird_snapshot E _).2.1
    have G3 : (checkSurface E s').normal_vector
        = (checkSurfaceSecond E (checkSurfaceFirst s')).normal_vector :=
      (checkSurfaceThird_snapshot E _).2.2
    have G4 : ∀ k, _ := fun k =>
      (checkSurfaceThird_apply E (checkSurfaceSecond E (checkSurfaceFirst s')) k).2
    rw [hvv.2.1, hvs.2.1, hjudge] at G4
    change ∀ k, (_ ∧ _ ∧ _ ∧ (checkSurface E s').free_surface_type k = _)
      ∨ (_ ∧ (checkSurface E s').free_surface_type k = _) at G4
    have hex : ∀ k,
        (∃ i, i < s.size
            ∧ (checkSurfaceSecond E (checkSurfaceFirst s')).boundary_types i
              = BoundaryType.SURFACE
            ∧ k ∈ (judgeInnerSurfaceGrid E
                (checkSurfaceSecond E (checkSurfaceFirst s))).getNeighbors i)
          ↔ ∃ i, i < s.size
            ∧ (checkSurfaceSecond E (checkSurfaceFirst s)).boundary_types i
              = BoundaryType.SURFACE
            ∧ k ∈ (judgeInnerSurfaceGrid E
                (checkSurfaceSecond E (checkSurfaceFirst s))).getNeighbors i := by
      intro k
      constructor
      · rintro ⟨i, hi, hb, hm⟩
        exact ⟨i, hi, by rw [← (hlt i hi).1]; exact hb, hm⟩
      · rintro ⟨i, hi, hb, hm⟩
        exact ⟨i, hi, by rw [(hlt i hi).1]; exact hb, hm⟩
    have e1 : (checkSurface E s').normal_vector = s'.normal_vector := by
      funext k
      rw [G3, hnv k, F3]
    have e2 : (checkSurface E s').boundary_types = s'.boundary_types := by
      funext k
      rw [G2]
      by_cases hk : k < s.size
      · rw [(hlt k hk).1, F2]
      · exact (hge k (by omega)).1
    have e3 : (checkSurface E s').free_surface_type = s'.free_surface_type := by
      funext k
      by_cases hk : k < s.size
      · obtain ⟨b, f⟩ := hlt k hk
        rcases G4 k with ⟨g1, g2, g3, g4⟩ | ⟨g1, g4⟩
        · rw [hex k] at g1
          rw [b] at g2
          rw [f] at g3
          rcases F4 k with ⟨_, _, _, f4⟩ | ⟨f1, _⟩
          · rw [g4, f4]
          · exact absurd ⟨g1, g2, g3⟩ f1
        · rw [hex k, b, f] at g1
          rcases F4 k with ⟨f1, f2, f3, _⟩ | ⟨_, f4⟩
          · exact absurd ⟨f1, f2, f3⟩ g1
          · rw [g4, f4, f]
      · obtain ⟨b, f⟩ := hge k (by omega)
        rcases G4 k with ⟨g1, g2, g3, g4⟩ | ⟨g1, g4⟩
        · rw [hex k] at g1
          rw [b, F2] at g2
          rw [f] at g3
          rcases F4 k with ⟨_, _, _, f4⟩ | ⟨f1, f4⟩
          · rw [f4] at g3
            exact absurd g3 (by decide)
          · rw [f4] at g3
            exact absurd ⟨g1, g2, g3⟩ f1
        · rw [g4, f]
    rw [checkSurface_frame E s', e1, e2, e3]
  exact ⟨key, by rw [key], by rw [key], by rw [key]⟩

/-! ## Loop control -/

/-- A refutation of C8 as stated: with every particle ghost and an output directory that
cannot be written, `nextLoop` raises `ios_base::failure` from the write of `err.vtk`, not
`range_error`. -/
theorem nextLoop_unwritable_not_range_error :
    unwritableExternals.checkNeedlessCalculation exampleParticles = true
      ∧ nextLoop unwritableExternals exampleTimerOps "output/" exampleParticles
          ⟨false, true, false⟩
        = Except.error (Exception.ios_failure "Error: in writeVtkFile() in particles.cpp.")
      ∧ ¬ ∃ what, nextLoop unwritableExternals exampleTimerOps "output/" exampleParticles
          ⟨false, true, false⟩ = Except.error (Exception.range_error what) := by
  have h : nextLoop unwritableExternals exampleTimerOps "output/" exampleParticles
      ⟨false, true, false⟩
        = Except.error (Exception.ios_failure "Error: in writeVtkFile() in particles.cpp.") := by
    simp [nextLoop, saveInterval, writeVtkFile, unwritableExternals, exampleTimerOps]
  refine ⟨rfl, h, ?_⟩
  rintro ⟨what, hw⟩
  rw [h] at hw
  cases hw

/-- C8, amended: when the interval output succeeds and `err.vtk` can be opened,
`nextLoop` raises `range_error` whenever all particles are ghost or the limited delta time
is under the minimum, also when the timer has no next loop; it returns false exactly when
neither holds and the timer has no next loop, and true exactly when neither holds and the
timer has a next loop, and then the temporary velocity and position on return are the
velocity and position. -/
theorem nextLoop_outcomes {τ : Type} (E : Externals) (T : TimerOps τ) (path : String)
    (s : BubbleParticles) (timer : τ)
    (hsave : ∃ b, saveInterval E T path
      (T.limitCurrentDeltaTime timer (E.getMaxSpeed s) s.condition_) = Except.ok b)
    (herr : E.ofstreamFails (path ++ "err.vtk") = false) :
    ((E.checkNeedlessCalculation s = true
          ∨ T.isUnderMinDeltaTime
              (T.limitCurrentDeltaTime timer (E.getMaxSpeed s) s.condition_) = true) →
        ∃ what, nextLoop E T path s timer = Except.error (Exception.range_error what))
      ∧ ((∃ s' timer', nextLoop E T path s timer = Except.ok (false, s', timer'))
        ↔ (E.checkNeedlessCalculation s = false
            ∧ T.isUnderMinDeltaTime
                (T.limitCurrentDeltaTime timer (E.getMaxSpeed s) s.condition_) = false)
          ∧ T.hasNextLoop
              (T.limitCurrentDeltaTime timer (E.getMaxSpeed s) s.condition_) = false)
      ∧ ((∃ s' timer', nextLoop E T path s timer = Except.ok (true, s', timer'))
        ↔ (E.checkNeedlessCalculation s = false
            ∧ T.isUnderMinDeltaTime
                (T.limitCurrentDeltaTime timer (E.getMaxSpeed s) s.condition_) = false)
          ∧ T.hasNextLoop
              (T.limitCurrentDeltaTime timer (E.getMaxSpeed s) s.condition_) = true)
      ∧ ∀ s' timer', nextLoop E T path s timer = Except.ok (true, s', timer') →
          s'.temporary_velocity = s'.velocity ∧ s'.temporary_position = s'.position
            ∧ s'.velocity = s.velocity ∧ s'.position = s.position := by
  obtain ⟨b, hb⟩ := hsave
  unfold nextLoop
  simp only [hb]
  unfold writeVtkFile
  simp only [herr]
  cases hc : E.checkNeedlessCalculation s <;>
    cases hu : T.isUnderMinDeltaTime
      (T.limitCurrentDeltaTime timer (E.getMaxSpeed s) s.condition_) <;>
    cases hn : T.hasNextLoop
      (T.limitCurrentDeltaTime timer (E.getMaxSpeed s) s.condition_) <;>
    simp

/-- Witness for the amended C8 on the example state, with a timer that has a next loop. -/
theorem nextLoop_outcomes_witness :
    ((∃ b, saveInterval exampleExternals exampleTimerOps "output/"
          (exampleTimerOps.limitCurrentDeltaTime ⟨false, true, true⟩
            (exampleExternals.getMaxSpeed exampleParticles) exampleParticles.condition_)
          = Except.ok b)
      ∧ exampleExternals.ofstreamFails ("output/" ++ "err.vtk") = false)
      ∧ ∃ s' timer', nextLoop exampleExternals exampleTimerOps "output/" exampleParticles
          ⟨false, true, true⟩ = Except.ok (true, s', timer') :=
  ⟨⟨⟨true, by simp [saveInterval, writeVtkFile, writeGridVtkFile, exampleExternals,
      exampleTimerOps]⟩, rfl⟩,
    (nextLoop_outcomes exampleExternals exampleTimerOps "output/" exampleParticles
      ⟨false, true, true⟩
      ⟨true, by simp [saveInterval, writeVtkFile, writeGridVtkFile, exampleExternals,
        exampleTimerOps]⟩ rfl).2.2.1.mpr ⟨⟨rfl, rfl⟩, rfl⟩⟩

end BubbleParticles

end my_mps

namespace tiny_mps

open my_mps

namespace Condition

/-! ## Analysis conditions -/

/-- The constructor once `readDataFile` has returned the map `data`: it fails, with
`out_of_range`, exactly when the dimension it obtains is neither 2 nor 3; in a 2-D run the
z components of gravity and inflow velocity are 0, in a 3-D run they are what `getValue`
yields for `gravity_z` and `inflow_z`. -/
theorem construct_after_read (L : StdLib) (init : Condition) (loc : ConstructorLocals)
    (lines : List String) (data : String → Option String)
    (hread : readDataLines L lines (fun _ => none) = Except.ok data) :
    ((∃ e, construct L init loc (some lines) = Except.error e)
        ↔ (constructDimension L { init with data := data }).dimension ≠ 2
          ∧ (constructDimension L { init with data := data }).dimension ≠ 3)
      ∧ (∀ e, construct L init loc (some lines) = Except.error e →
          e = Exception.out_of_range "Error: dimension is out of range.")
      ∧ ∀ c, construct L init loc (some lines) = Except.ok c →
          c.dimension = (constructDimension L { init with data := data }).dimension
            ∧ (c.dimension = 2 → c.gravity.z = 0 ∧ c.inflow_velocity.z = 0)
            ∧ (c.dimension = 3 →
                c.gravity.z
                    = (getValueDouble L { init with data := data } "gravity_z" loc.gz).2
                  ∧ c.inflow_velocity.z
                    = (getValueDouble L { init with data := data } "inflow_z" loc.iz).2) := by
  unfold construct readDataFile
  simp only [hread]
  by_cases hd : (constructDimension L { init with data := data }).dimension ≠ 2
      ∧ (constructDimension L { init with data := data }).dimension ≠ 3
  · rw [if_pos hd]
    simp [hd]
  · rw [if_neg hd]
    refine ⟨by simp [hd], by simp, ?_⟩
    intro c hc
    injection hc with hc
    subst hc
    refine ⟨rfl, ?_, ?_⟩
    · intro h2
      have h2' : (constructDimension L { init with data := data }).dimension = 2 := h2
      simp [constructRest, h2']
    · intro h3
      have h3' : (constructDimension L { init with data := data }).dimension = 3 := h3
      simp only [constructRest, h3', if_true]
      exact ⟨rfl, rfl⟩

/-- C9, the failing input: a data file whose second line holds one blank.  The line is
not empty, the extraction of `item` fails, and `item.at(0)` raises `out_of_range` although
the file sets the dimension to 2; without the blank line the same file constructs a 2-D
condition. -/
theorem construct_blank_line (init : Condition) (loc : ConstructorLocals) :
    (∃ c, construct exampleStdLib init loc (some ["dimension 2"]) = Except.ok c
        ∧ c.dimension = 2)
      ∧ construct exampleStdLib init loc (some blankLineFile)
        = Except.error (Exception.out_of_range "basic_string::at") := by
  constructor
  · refine ⟨constructRest exampleStdLib loc (constructDimension exampleStdLib
        { init with data := Function.update (fun _ => none) "dimension" (some "2") }),
      ?_, ?_⟩
    · simp [construct, readDataFile, readDataLines, readDataLine, extractToken, isspace,
        constructDimension, getValueInt, getValueDouble, exampleStdLib, leadingDigits]
    · simp [constructRest, constructDimension, getValueInt, getValueDouble, exampleStdLib,
        leadingDigits]
  · simp [construct, readDataFile, readDataLines, readDataLine, blankLineFile, extractToken,
      isspace]

/-- C10: for every key, if the key is absent from the map each overload of `getValue`
returns 1 and leaves the output argument as it was; if the key is present each returns 0,
the `int` and `double` overloads set the output to what the stream extraction reads from
the stored text, the `string` overload sets it to the stored text, and the `bool` overload
sets it to true exactly when the lower-cased stored text is `on` or `true`. -/
theorem getValue_outcome (L : StdLib) (c : Condition) (item : String) :
    (c.data item = none →
        (∀ v, c.getValueInt L item v = (1, v))
          ∧ (∀ v, c.getValueDouble L item v = (1, v))
          ∧ (∀ v, c.getValueBool item v = (1, v))
          ∧ ∀ v, c.getValueString item v = (1, v))
      ∧ ∀ text, c.data item = some text →
          (∀ v, c.getValueInt L item v = (0, L.extractInt text v))
            ∧ (∀ v, c.getValueDouble L item v = (0, L.extractDouble text v))
            ∧ (∀ v, (c.getValueBool item v).1 = 0
                ∧ ((c.getValueBool item v).2 = true
                  ↔ String.mk (text.data.map Char.toLower) = "on"
                    ∨ String.mk (text.data.map Char.toLower) = "true"))
            ∧ ∀ v, c.getValueString item v = (0, text) := by
  constructor
  · intro h
    simp [getValueInt, getValueDouble, getValueBool, getValueString, h]
  · intro text h
    refine ⟨by simp [getValueInt, h], by simp [getValueDouble, h], ?_, by simp [getValueString, h]⟩
    intro v
    unfold getValueBool
    simp only [h]
    split_ifs with hc
    · exact ⟨rfl, by simp [hc]⟩
    · exact ⟨rfl, by simp [hc]⟩

/-- Witness for C10 on the example map: `gravity_x` is absent, `viscosity_calculation`
holds `ON`, which the `bool` overload reads as true. -/
theorem getValue_outcome_witness :
    (exampleConditionObject.data "gravity_x" = none
        ∧ exampleConditionObject.data "viscosity_calculation" = some "ON")
      ∧ (∀ v, exampleConditionObject.getValueDouble exampleStdLib "gravity_x" v = (1, v))
      ∧ ((exampleConditionObject.getValueBool "viscosity_calculation" false).1 = 0
        ∧ ((exampleConditionObject.getValueBool "viscosity_calculation" false).2 = true
          ↔ String.mk ("ON".data.map Char.toLower) = "on"
            ∨ String.mk ("ON".data.map Char.toLower) = "true")) :=
  ⟨⟨by decide, by decide⟩,
    ((getValue_outcome exampleStdLib exampleConditionObject "gravity_x").1 (by decide)).2.1,
    ((getValue_outcome exampleStdLib exampleConditionObject "viscosity_calculation").2 "ON"
      (by decide)).2.2.1 false⟩

end Condition

end tiny_mps

namespace my_mps

open tiny_mps

namespace BubbleParticles

/-! ## Storage of the bubble extension -/

/-- Resizing an array of `n` entries to `n + k` and zeroing the segment `(n, k)` appends
`k` zeros, whatever the indeterminate entries were. -/
theorem segmentSetZero_conservativeResize {α : Type} (fill : ℕ → α) (zero : α)
    (v : List α) (n k : ℕ) (hv : v.length = n) :
    segmentSetZero zero (conservativeResize fill v (n + k)) n k
      = v ++ List.replicate k zero := by
  have hlen : (conservativeResize fill v (n + k)).length = n + k := by
    simp [conservativeResize]
  apply List.ext_getElem
  · simp [segmentSetZero, hlen, hv]
  · intro i h1 h2
    have hi : i < n + k := by
      simpa [segmentSetZero, hlen] using h1
    simp only [segmentSetZero, List.getElem_map, List.getElem_range]
    by_cases hin : i < n
    · have hnot : ¬ (n ≤ i ∧ i < n + k) := fun h => absurd h.1 (by omega)
      rw [if_neg hnot, List.getElem_append_left (by rw [hv]; exact hin)]
      have hvi : i < v.length := by rw [hv]; exact hin
      simp [conservativeResize, hi, hvi]
    · have hyes : n ≤ i ∧ i < n + k := ⟨by omega, hi⟩
      rw [if_pos hyes, List.getElem_append_right (by rw [hv]; omega)]
      simp

/-- C11: if the six arrays of the extension all have `getSize() = n` entries before
`extendStorage(k)`, `k ≥ 0`, then afterwards each is the old array followed by `k` zeros:
each has `n + k` entries, the first `n` are unchanged and the `k` new ones are zero. -/
theorem extendStorage_appends_zeros (junk : Indeterminate) (n : ℕ) (k : ℤ)
    (st : BubbleStorage) (hk : 0 ≤ k)
    (h1 : st.average_pressure.length = n) (h2 : st.normal_vector.length = n)
    (h3 : st.modified_pnd.length = n) (h4 : st.bubble_radius.length = n)
    (h5 : st.void_fraction.length = n) (h6 : st.free_surface_type.length = n) :
    ((extendStorage junk n k st).average_pressure
          = st.average_pressure ++ List.replicate k.toNat 0
        ∧ (extendStorage junk n k st).normal_vector
          = st.normal_vector ++ List.replicate k.toNat Vector3d.zero
        ∧ (extendStorage junk n k st).modified_pnd
          = st.modified_pnd ++ List.replicate k.toNat 0
        ∧ (extendStorage junk n k st).bubble_radius
          = st.bubble_radius ++ List.replicate k.toNat 0
        ∧ (extendStorage junk n k st).void_fraction
          = st.void_fraction ++ List.replicate k.toNat 0
        ∧ (extendStorage junk n k st).free_surface_type
          = st.free_surface_type ++ List.replicate k.toNat 0)
      ∧ (extendStorage junk n k st).average_pressure.length = n + k.toNat
      ∧ (extendStorage junk n k st).normal_vector.length = n + k.toNat
      ∧ (extendStorage junk n k st).modified_pnd.length = n + k.toNat
      ∧ (extendStorage junk n k st).bubble_radius.length = n + k.toNat
      ∧ (extendStorage junk n k st).void_fraction.length = n + k.toNat
      ∧ (extendStorage junk n k st).free_surface_type.length = n + k.toNat := by
  have hn : ((n : ℤ) + k).toNat = n + k.toNat := by omega
  have e1 := segmentSetZero_conservativeResize junk.double 0 st.average_pressure n k.toNat h1
  have e2 := segmentSetZero_conservativeResize junk.vector Vector3d.zero st.normal_vector n
    k.toNat h2
  have e3 := segmentSetZero_conservativeResize junk.double 0 st.modified_pnd n k.toNat h3
  have e4 := segmentSetZero_conservativeResize junk.double 0 st.bubble_radius n k.toNat h4
  have e5 := segmentSetZero_conservativeResize junk.double 0 st.void_fraction n k.toNat h5
  have e6 := segmentSetZero_conservativeResize junk.int 0 st.free_surface_type n k.toNat h6
  unfold extendStorage
  simp only [hn]
  rw [e1, e2, e3, e4, e5, e6]
  simp [h1, h2, h3, h4, h5, h6]

/-- Witness for C11: the example storage of two particles, extended by three. -/
theorem extendStorage_appends_zeros_witness :
    ((0 : ℤ) ≤ 3 ∧ exampleStorage.average_pressure.length = 2
        ∧ exampleStorage.normal_vector.length = 2 ∧ exampleStorage.modified_pnd.length = 2
        ∧ exampleStorage.bubble_radius.length = 2 ∧ exampleStorage.void_fraction.length = 2
        ∧ exampleStorage.free_surface_type.length = 2)
      ∧ (extendStorage exampleIndeterminate 2 3 exampleStorage).average_pressure
        = [100, 200] ++ List.replicate (3 : ℤ).toNat 0
      ∧ (extendStorage exampleIndeterminate 2 3 exampleStorage).free_surface_type
        = [1, 2] ++ List.replicate (3 : ℤ).toNat 0 :=
  ⟨⟨by decide, rfl, rfl, rfl, rfl, rfl, rfl⟩,
    (extendStorage_appends_zeros exampleIndeterminate 2 3 exampleStorage (by decide) rfl rfl
      rfl rfl rfl rfl).1.1,
    (extendStorage_appends_zeros exampleIndeterminate 2 3 exampleStorage (by decide) rfl rfl
      rfl rfl rfl rfl).1.2.2.2.2.2⟩

/-! ## Average grid -/

/-- The particle loop of `updateAverageGrid` over a list of particles: each cell gains
the pressures, and the count, of the particles of the list that count for it. -/
theorem updateAverageGridParticle_foldl (s : BubbleParticles) (c : ℕ) (particles : List ℕ)
    (acc : GridSample) :
    (particles.foldl (updateAverageGridParticle s) acc).tmp_average c
        = acc.tmp_average c + ((particles.filter (roundsToCell s c)).map s.pressure).sum
      ∧ (particles.foldl (updateAverageGridParticle s) acc).number c
        = acc.number c + ((particles.filter (roundsToCell s c)).length : ℤ) := by
  induction particles generalizing acc with
  | nil => simp
  | cons i rest ih =>
    rw [List.foldl_cons]
    obtain ⟨e1, e2⟩ := ih (updateAverageGridParticle s acc i)
    rw [e1, e2, List.filter_cons]
    unfold updateAverageGridParticle
    by_cases hO : s.boundary_types i = BoundaryType.OTHERS
    · have hr : roundsToCell s c i = false := by simp [roundsToCell, hO]
      simp [hO, hr]
    · rw [if_neg hO]
      dsimp only
      by_cases hx : cellIndex s.condition_.average_distance (s.temporary_position i).x
            s.grid_min_pos.x < 0
          ∨ cellIndex s.condition_.average_distance (s.temporary_position i).x
            s.grid_min_pos.x ≥ s.grid_w
      · have hr : roundsToCell s c i = false := by
          simp only [roundsToCell, decide_eq_false_iff_not]
          rintro ⟨_, ⟨h1, h2⟩, _⟩
          rcases hx with h | h <;> omega
        simp [hx, hr]
      · rw [if_neg hx]
        by_cases hy : cellIndex s.condition_.average_distance (s.temporary_position i).y
              s.grid_min_pos.y < 0
            ∨ cellIndex s.condition_.average_distance (s.temporary_position i).y
              s.grid_min_pos.y ≥ s.grid_h
        · have hr : roundsToCell s c i = false := by
            simp only [roundsToCell, decide_eq_false_iff_not]
            rintro ⟨_, _, ⟨h1, h2⟩, _⟩
            rcases hy with h | h <;> omega
          simp [hy, hr]
        · rw [if_neg hy]
          have hx' := not_or.mp hx
          have hy' := not_or.mp hy
          by_cases hc : (cellIndex s.condition_.average_distance (s.temporary_position i).x
                s.grid_min_pos.x
              + cellIndex s.condition_.average_distance (s.temporary_position i).y
                  s.grid_min_pos.y * s.grid_w).toNat = c
          · have hr : roundsToCell s c i = true := by
              simp only [roundsToCell, decide_eq_true_eq]
              exact ⟨hO, ⟨not_lt.mp hx'.1, not_le.mp hx'.2⟩,
                ⟨not_lt.mp hy'.1, not_le.mp hy'.2⟩, hc⟩
            subst hc
            simp only [hr, if_true, Function.update_same, List.map_cons, List.sum_cons,
              List.length_cons]
            constructor
            · ring
            · push_cast
              ring
          · have hr : roundsToCell s c i = false := by
              simp only [roundsToCell, decide_eq_false_iff_not]
              rintro ⟨_, _, _, h⟩
              exact hc h
            have hc' : c ≠ (cellIndex s.condition_.average_distance
                (s.temporary_position i).x s.grid_min_pos.x
              + cellIndex s.condition_.average_distance (s.temporary_position i).y
                  s.grid_min_pos.y * s.grid_w).toNat := fun h => hc h.symm
            simp [hr, Function.update_noteq hc']

/-- The cell loop of `updateAverageGrid` over the first `m` cells, in closed form. -/
theorem updateAverageGridCell_foldl (n : ℤ) (sample : GridSample) (average_grid : ℕ → ℚ)
    (m : ℕ) :
    (List.range m).foldl (updateAverageGridCell n sample) average_grid
      = fun k =>
          if k < m then updateAverageGridCell n sample average_grid k k
          else average_grid k := by
  induction m with
  | zero => simp
  | succ m ih =>
    rw [List.range_succ, List.foldl_append, ih]
    simp only [List.foldl_cons, List.foldl_nil]
    rw [← update_below average_grid
      (fun k => updateAverageGridCell n sample average_grid k k) m]
    unfold updateAverageGridCell
    simp

/-- C12: `updateAverageGrid(start_time, timer)`: if `start_time` is later than the
current time the grid is unchanged and `average_count` becomes the loop count; otherwise,
with `n = loop_count - average_count`, every cell `c` of the grid gets
`(old[c] * n + sample[c]) / (n + 1)`, where `sample[c]` is the mean pressure of the
particles, not of boundary type OTHERS, whose position rounds to cell `c`, and `0` when
there is none. -/
theorem updateAverageGrid_running_mean {τ : Type} (T : TimerOps τ) (start_time : ℚ)
    (timer : τ) (s : BubbleParticles) :
    (start_time > T.getCurrentTime timer →
        (updateAverageGrid T start_time timer s).average_grid = s.average_grid
          ∧ (updateAverageGrid T start_time timer s).average_count = T.getLoopCount timer)
      ∧ (¬ start_time > T.getCurrentTime timer →
          ∀ c, c < (s.grid_w * s.grid_h).toNat →
            (updateAverageGrid T start_time timer s).average_grid c
              = (s.average_grid c * ((T.getLoopCount timer - s.average_count : ℤ) : ℚ)
                  + cellSample s c)
                / ((T.getLoopCount timer - s.average_count + 1 : ℤ) : ℚ)) := by
  constructor
  · intro h
    unfold updateAverageGrid
    rw [if_pos h]
    exact ⟨rfl, rfl⟩
  · intro h c hc
    unfold updateAverageGrid
    rw [if_neg h]
    dsimp only
    rw [updateAverageGridCell_foldl]
    simp only [hc, if_true]
    unfold updateAverageGridCell
    simp only [Function.update_same]
    obtain ⟨e1, e2⟩ := updateAverageGridParticle_foldl s c (List.range s.size)
      ⟨fun _ => 0, fun _ => 0⟩
    simp only [zero_add] at e1 e2
    rw [e1, e2]
    have hp : List.filter (roundsToCell s c) (List.range s.size) = particlesOfCell s c := rfl
    rw [hp]
    unfold cellSample
    by_cases hnil : particlesOfCell s c = []
    · simp [hnil]
    · have hpos : 0 < (particlesOfCell s c).length := List.length_pos.mpr hnil
      have hpos' : ((particlesOfCell s c).length : ℤ) > 0 := by exact_mod_cast hpos
      rw [if_pos hpos', if_neg hnil]
      push_cast
      rfl

/-- Witness for C12 on the example state: the running mean has not started at time
`0 < 5`, and has started at time `0 ≥ 0`. -/
theorem updateAverageGrid_running_mean_witness :
    ((5 : ℚ) > exampleTimerOps.getCurrentTime ⟨false, true, false⟩
        ∧ ¬ (0 : ℚ) > exampleTimerOps.getCurrentTime ⟨false, true, false⟩
        ∧ 4 < (exampleParticles.grid_w * exampleParticles.grid_h).toNat)
      ∧ (updateAverageGrid exampleTimerOps 5 ⟨false, true, false⟩
          exampleParticles).average_grid = exampleParticles.average_grid
      ∧ (updateAverageGrid exampleTimerOps 0 ⟨false, true, false⟩
          exampleParticles).average_grid 4
        = (exampleParticles.average_grid 4
              * ((exampleTimerOps.getLoopCount ⟨false, true, false⟩
                  - exampleParticles.average_count : ℤ) : ℚ)
            + cellSample exampleParticles 4)
          / ((exampleTimerOps.getLoopCount ⟨false, true, false⟩
              - exampleParticles.average_count + 1 : ℤ) : ℚ) :=
  ⟨⟨by norm_num [exampleTimerOps], by norm_num [exampleTimerOps], by decide⟩,
    ((updateAverageGrid_running_mean exampleTimerOps 5 ⟨false, true, false⟩
      exampleParticles).1 (by norm_num [exampleTimerOps])).1,
    (updateAverageGrid_running_mean exampleTimerOps 0 ⟨false, true, false⟩
      exampleParticles).2 (by norm_num [exampleTimerOps]) 4 (by decide)⟩

/-! ## Free-surface classification: the second step -/

/-- The accumulation loop of the normal adds the weighted direction sum to the stored
normal. -/
theorem accumulateNormal_eq (E : Externals) (pos : ℕ → Vector3d) (i : ℕ)
    (neighbors : List ℕ) (normal : Vector3d) :
    accumulateNormal E pos i normal neighbors
      = normal.add (weightedDirectionSum E pos i neighbors) := by
  unfold accumulateNormal
  induction neighbors generalizing normal with
  | nil => simp [weightedDirectionSum, Vector3d.add]
  | cons j rest ih =>
    rw [List.foldl_cons, ih]
    simp only [weightedDirectionSum, Vector3d.add, Vector3d.smul, List.map_cons, List.sum_cons,
      Vector3d.mk.injEq]
    refine ⟨by ring, by ring, by ring⟩

/-- The scan of the second step finds a neighbour exactly when some neighbour meets the
first or the second condition. -/
theorem reclassifiedByNeighbor_iff (E : Externals) (c : BubbleCondition) (pos : ℕ → Vector3d)
    (i : ℕ) (normal : Vector3d) (neighbors : List ℕ) :
    reclassifiedByNeighbor E c pos i normal neighbors = true
      ↔ ∃ j ∈ neighbors,
          (((pos j).sub (pos i)).norm E.sqrt ≥ E.sqrt 2 * c.average_distance
            ∧ (((pos i).add ((normal.normalized E.sqrt).smul c.average_distance)).sub
                (pos j)).norm E.sqrt < c.average_distance)
          ∨ (((pos j).sub (pos i)).norm E.sqrt < E.sqrt 2 * c.average_distance
            ∧ (((pos j).sub (pos i)).normalized E.sqrt).dot (normal.normalized E.sqrt)
              > 1 / E.sqrt 2) := by
  induction neighbors with
  | nil => simp [reclassifiedByNeighbor]
  | cons j rest ih =>
    unfold reclassifiedByNeighbor
    dsimp only
    by_cases hA : ((pos j).sub (pos i)).norm E.sqrt ≥ E.sqrt 2 * c.average_distance
        ∧ (((pos i).add ((normal.normalized E.sqrt).smul c.average_distance)).sub
            (pos j)).norm E.sqrt < c.average_distance
    · rw [if_pos hA]
      exact ⟨fun _ => ⟨j, List.mem_cons_self _ _, Or.inl hA⟩, fun _ => rfl⟩
    · rw [if_neg hA]
      by_cases hB : ((pos j).sub (pos i)).norm E.sqrt < E.sqrt 2 * c.average_distance
          ∧ (((pos j).sub (pos i)).normalized E.sqrt).dot (normal.normalized E.sqrt)
            > 1 / E.sqrt 2
      · rw [if_pos hB]
        exact ⟨fun _ => ⟨j, List.mem_cons_self _ _, Or.inr hB⟩, fun _ => rfl⟩
      · rw [if_neg hB, ih]
        constructor
        · rintro ⟨k, hk, hp⟩
          exact ⟨k, List.mem_cons_of_mem _ hk, hp⟩
        · rintro ⟨k, hk, hp⟩
          rcases List.mem_cons.mp hk with h | h
          · subst h
            rcases hp with h1 | h1
            · exact absurd h1 hA
            · exact absurd h1 hB
          · exact ⟨k, h, hp⟩

/-- C14: in the second step of `checkSurface`, a particle `i` that enters the step SURFACE
(as the first step left it) with a non-empty neighbour list gets the normal
`(Σ_j unit(r_ij) w(r_ij)) / pnd(i)` and ends the step INNER if and only if some neighbour
`j` has (a) `|r_ij| ≥ √2 l0` and `|x_i + l0 unit(normal_i) - x_j| < l0`, or
(b) `|r_ij| < √2 l0` and `unit(r_ij) · unit(normal_i) > 1/√2`, with `l0` the average
distance; with an empty neighbour list it stays SURFACE, with the zero normal. -/
theorem second_step_reclassification (E : Externals) (t : BubbleParticles) (i : ℕ)
    (hi : i < t.size) (hS : t.boundary_types i = BoundaryType.SURFACE) :
    ((surfaceGrid E t).getNeighbors i ≠ [] →
        (checkSurfaceSecond E t).normal_vector i
            = claimedNormal E t i ((surfaceGrid E t).getNeighbors i)
          ∧ ((checkSurfaceSecond E t).boundary_types i = BoundaryType.INNER
            ↔ ∃ j ∈ (surfaceGrid E t).getNeighbors i,
                (((t.temporary_position j).sub (t.temporary_position i)).norm E.sqrt
                    ≥ E.sqrt 2 * t.condition_.average_distance
                  ∧ (((t.temporary_position i).add
                        (((claimedNormal E t i ((surfaceGrid E t).getNeighbors i)).normalized
                          E.sqrt).smul t.condition_.average_distance)).sub
                      (t.temporary_position j)).norm E.sqrt < t.condition_.average_distance)
                ∨ (((t.temporary_position j).sub (t.temporary_position i)).norm E.sqrt
                    < E.sqrt 2 * t.condition_.average_distance
                  ∧ (((t.temporary_position j).sub (t.temporary_position i)).normalized
                        E.sqrt).dot
                      ((claimedNormal E t i ((surfaceGrid E t).getNeighbors i)).normalized
                        E.sqrt)
                    > 1 / E.sqrt 2)))
      ∧ ((surfaceGrid E t).getNeighbors i = [] →
          (checkSurfaceSecond E t).boundary_types i = BoundaryType.SURFACE
            ∧ (checkSurfaceSecond E t).normal_vector i = Vector3d.zero) := by
  obtain ⟨e1, e2, _⟩ := checkSurfaceSecond_apply E t i hi
  rw [e1, e2]
  have hnormal : (accumulateNormal E t.temporary_position i Vector3d.zero
        ((surfaceGrid E t).getNeighbors i)).sdiv (t.particle_number_density i)
      = claimedNormal E t i ((surfaceGrid E t).getNeighbors i) := by
    rw [accumulateNormal_eq]
    simp [claimedNormal, Vector3d.add, Vector3d.zero, weightedDirectionSum]
  unfold checkSurfaceSecondStep
  dsimp only
  rw [if_pos hS]
  constructor
  · intro hne
    have hemp : ¬ ((surfaceGrid E t).getNeighbors i).isEmpty = true := by
      rw [List.isEmpty_iff]
      exact hne
    rw [if_neg hemp, hnormal]
    by_cases hr : reclassifiedByNeighbor E t.condition_ t.temporary_position i
        (claimedNormal E t i ((surfaceGrid E t).getNeighbors i))
        ((surfaceGrid E t).getNeighbors i) = true
    · rw [if_pos hr]
      refine ⟨by simp, ?_⟩
      simp only [Function.update_same, true_iff]
      exact (reclassifiedByNeighbor_iff _ _ _ _ _ _).mp hr
    · rw [if_neg hr]
      refine ⟨by simp, ?_⟩
      dsimp only
      rw [hS]
      constructor
      · intro h
        exact absurd h (by decide)
      · intro h
        exact absurd ((reclassifiedByNeighbor_iff _ _ _ _ _ _).mpr h) hr
  · intro hnil
    have hemp : ((surfaceGrid E t).getNeighbors i).isEmpty = true := by
      rw [List.isEmpty_iff]
      exact hnil
    rw [if_pos hemp]
    exact ⟨hS, rfl⟩

/-- Witness for C14 on the example state after the first step, particle `0`. -/
theorem second_step_reclassification_witness :
    (0 < (checkSurfaceFirst exampleParticles).size
        ∧ (checkSurfaceFirst exampleParticles).boundary_types 0 = BoundaryType.SURFACE
        ∧ (surfaceGrid exampleExternals (checkSurfaceFirst exampleParticles)).getNeighbors 0
          ≠ [])
      ∧ (checkSurfaceSecond exampleExternals (checkSurfaceFirst exampleParticles)).normal_vector
          0
        = claimedNormal exampleExternals (checkSurfaceFirst exampleParticles) 0
            ((surfaceGrid exampleExternals
              (checkSurfaceFirst exampleParticles)).getNeighbors 0) := by
  have h1 : 0 < (checkSurfaceFirst exampleParticles).size := by
    rw [(checkSurfaceFirst_snapshot exampleParticles).2.1]
    decide
  have h2 : (checkSurfaceFirst exampleParticles).boundary_types 0 = BoundaryType.SURFACE := by
    rw [checkSurfaceFirst_eq]
    have h0 : (0 : ℕ) < exampleParticles.size := by decide
    simp only [h0, if_true]
    rw [(checkSurfaceFirstStep_values exampleParticles 0).1]
    norm_num [exampleParticles, exampleCondition]
  have h3 : (surfaceGrid exampleExternals (checkSurfaceFirst exampleParticles)).getNeighbors 0
      ≠ [] := by
    simp [surfaceGrid, exampleExternals, exampleGrid]
  exact ⟨⟨h1, h2, h3⟩,
    ((second_step_reclassification exampleExternals (checkSurfaceFirst exampleParticles) 0
      h1 h2).1 h3).1⟩

/-! ## Pressure Poisson assembly: inner rows -/

/-- The neighbour loop of an inner row, in closed form. -/
theorem poissonNeighbor_foldl (E : Externals) (s : BubbleParticles) (i : ℕ)
    (neighbors : List ℕ) (acc : PoissonRow) :
    (neighbors.foldl (poissonNeighborStep E s i) acc).sum
        = acc.sum
          - ((neighbors.filter
              (fun j => decide (s.boundary_types j ≠ BoundaryType.OTHERS))).map
              (laplacianCoefficient E s i)).sum
      ∧ (neighbors.foldl (poissonNeighborStep E s i) acc).div_vel
        = acc.div_vel
          + ((neighbors.filter
              (fun j => decide (s.boundary_types j ≠ BoundaryType.OTHERS))).map
              (divergenceContribution E s i)).sum
      ∧ (neighbors.foldl (poissonNeighborStep E s i) acc).coeffs
        = acc.coeffs
          ++ (neighbors.filter
              (fun j => decide (s.boundary_types j = BoundaryType.INNER))).map
              (fun j => ⟨i, j, laplacianCoefficient E s i j⟩) := by
  induction neighbors generalizing acc with
  | nil => simp
  | cons j rest ih =>
    rw [List.foldl_cons]
    obtain ⟨e1, e2, e3⟩ := ih (poissonNeighborStep E s i acc j)
    rw [e1, e2, e3, List.filter_cons, List.filter_cons]
    unfold poissonNeighborStep
    by_cases hO : s.boundary_types j = BoundaryType.OTHERS
    · have hI : ¬ s.boundary_types j = BoundaryType.INNER := by rw [hO]; decide
      simp [hO]
    · rw [if_neg hO]
      dsimp only
      by_cases hI : s.boundary_types j = BoundaryType.INNER
      · simp only [hI, if_true, decide_True, ne_eq, not_false_eq_true, List.map_cons,
          List.sum_cons, List.append_assoc, List.singleton_append, reduceCtorEq]
        refine ⟨?_, ?_, rfl⟩
        · unfold laplacianCoefficient
          ring
        · unfold divergenceContribution
          ring
      · simp only [hI, hO, if_false, decide_False, decide_True, ne_eq, not_false_eq_true,
          if_true, List.map_cons, List.sum_cons]
        refine ⟨?_, ?_, rfl⟩
        · unfold laplacianCoefficient
          ring
        · unfold divergenceContribution
          ring

/-- One row of `solvePressurePoisson`, in closed form. -/
theorem solvePressurePoissonRow_eq (E : Externals) (grid : Grid) (delta_time : ℚ)
    (s : BubbleParticles) (sys : PoissonSystem) (i : ℕ) :
    (solvePressurePoissonRow E grid delta_time s sys i).coeffs
        = sys.coeffs ++ rowTriplets E s grid (innerRowDiagonal E s grid delta_time i) i
      ∧ (solvePressurePoissonRow E grid delta_time s sys i).source_term
        = match rowSourceTerm s (innerRowSourceTerm E s grid delta_time i) i with
          | some v => Function.update sys.source_term i v
          | none => sys.source_term := by
  unfold solvePressurePoissonRow rowTriplets rowSourceTerm
  by_cases hO : s.boundary_types i = BoundaryType.OTHERS
  · simp [hO]
  · by_cases hS : s.boundary_types i = BoundaryType.SURFACE
    · simp [hS]
    · obtain ⟨e1, e2, e3⟩ := poissonNeighbor_foldl E s i (grid.getNeighbors i)
        ⟨0, 0, sys.coeffs⟩
      simp only [hO, hS, if_false, or_self]
      rw [e1, e2, e3]
      exact ⟨by simp [innerRowDiagonal, innerRowOffDiagonal, coupledNeighbors, neighborsOfType],
        by simp [innerRowSourceTerm, innerRowDivergence, coupledNeighbors]⟩

/-- One row of `solvePressurePoissonDuan`, in closed form. -/
theorem solvePressurePoissonDuanRow_eq (E : Externals) (grid : Grid) (delta_time : ℚ)
    (s : BubbleParticles) (sys : PoissonSystem) (i : ℕ) :
    (solvePressurePoissonDuanRow E grid delta_time s sys i).coeffs
        = sys.coeffs ++ rowTriplets E s grid (innerRowDiagonalDuan E s grid delta_time i) i
      ∧ (solvePressurePoissonDuanRow E grid delta_time s sys i).source_term
        = match rowSourceTerm s (innerRowSourceTermDuan E s grid delta_time i) i with
          | some v => Function.update sys.source_term i v
          | none => sys.source_term := by
  unfold solvePressurePoissonDuanRow rowTriplets rowSourceTerm
  by_cases hO : s.boundary_types i = BoundaryType.OTHERS
  · simp [hO]
  · by_cases hS : s.boundary_types i = BoundaryType.SURFACE
    · simp [hS]
    · obtain ⟨e1, e2, e3⟩ := poissonNeighbor_foldl E s i (grid.getNeighbors i)
        ⟨0, 0, sys.coeffs⟩
      simp only [hO, hS, if_false, or_self]
      rw [e1, e2, e3]
      by_cases hIS : s.free_surface_type i = SurfaceLayer.INNER_SURFACE
      · rw [if_pos hIS]
        exact ⟨by simp [innerRowDiagonalDuan, innerRowDiagonal, innerRowOffDiagonal,
            coupledNeighbors, neighborsOfType, hIS],
          by simp [innerRowSourceTermDuan, innerRowDivergence, coupledNeighbors, hIS]⟩
      · rw [if_neg hIS]
        exact ⟨by simp [innerRowDiagonalDuan, innerRowDiagonal, innerRowOffDiagonal,
            coupledNeighbors, neighborsOfType, hIS],
          by simp [innerRowSourceTermDuan, innerRowDivergence, coupledNeighbors, hIS]⟩

/-- The row loop over the first `n` particles, for a row function that appends the
triplets `app i` and writes the source term `w i` when there is one: the triplets of row
`i` in the result are those of the initial list followed by `app i`, and the source term
of a particle among the first `n` is what its row wrote. -/
theorem rowLoop_rows (rowf : PoissonSystem → ℕ → PoissonSystem) (app : ℕ → List Triplet)
    (w : ℕ → Option ℚ)
    (happ : ∀ sys i, (rowf sys i).coeffs = sys.coeffs ++ app i)
    (hrow : ∀ i, ∀ t ∈ app i, t.row = i)
    (hsrc : ∀ sys i, (rowf sys i).source_term
      = match w i with
        | some v => Function.update sys.source_term i v
        | none => sys.source_term)
    (sys0 : PoissonSystem) (n : ℕ) :
    (∀ i, ((List.range n).foldl rowf sys0).coeffs.filter (fun t => decide (t.row = i))
        = sys0.coeffs.filter (fun t => decide (t.row = i)) ++ (if i < n then app i else []))
      ∧ ∀ i, ((List.range n).foldl rowf sys0).source_term i
          = if i < n then (w i).getD (sys0.source_term i) else sys0.source_term i := by
  induction n with
  | zero => simp
  | succ n ih =>
    obtain ⟨ih1, ih2⟩ := ih
    rw [List.range_succ, List.foldl_append]
    simp only [List.foldl_cons, List.foldl_nil]
    constructor
    · intro i
      rw [happ, List.filter_append, ih1 i]
      by_cases hin : i = n
      · subst hin
        have e : (app i).filter (fun t => decide (t.row = i)) = app i := by
          rw [List.filter_eq_self]
          intro t ht
          simp [hrow i t ht]
        simp [e]
      · have e : (app n).filter (fun t => decide (t.row = i)) = [] := by
          rw [List.filter_eq_nil_iff]
          intro t ht
          simp only [decide_eq_true_eq]
          rw [hrow n t ht]
          exact fun h => hin h.symm
        rw [e, List.append_nil]
        by_cases hlt : i < n
        · simp [hlt, Nat.lt_succ_of_lt hlt]
        · have h2 : ¬ i < n + 1 := by omega
          simp [hlt, h2]
    · intro i
      rw [hsrc]
      by_cases hin : i = n
      · subst hin
        cases hw : w i with
        | none => simp [ih2 i]
        | some v => simp
      · have hupd : ∀ v, Function.update ((List.range n).foldl rowf sys0).source_term n v i
            = ((List.range n).foldl rowf sys0).source_term i :=
          fun v => Function.update_noteq hin _ _
        have hgoal : (match w n with
            | some v => Function.update ((List.range n).foldl rowf sys0).source_term n v
            | none => ((List.range n).foldl rowf sys0).source_term) i
              = ((List.range n).foldl rowf sys0).source_term i := by
          cases w n with
          | none => rfl
          | some v => exact hupd v
        rw [hgoal, ih2 i]
        by_cases hlt : i < n
        · simp [hlt, Nat.lt_succ_of_lt hlt]
        · have h2 : ¬ i < n + 1 := by omega
          simp [hlt, h2]

/-- Every triplet of a row sits in that row. -/
theorem rowTriplets_row (E : Externals) (s : BubbleParticles) (grid : Grid) (d : ℚ) (i : ℕ) :
    ∀ t ∈ rowTriplets E s grid d i, t.row = i := by
  intro t ht
  unfold rowTriplets at ht
  split_ifs at ht
  · rw [List.mem_singleton] at ht
    rw [ht]
  · rcases List.mem_append.mp ht with h | h
    · unfold innerRowOffDiagonal at h
      rw [List.mem_map] at h
      obtain ⟨j, _, rfl⟩ := h
      rfl
    · rw [List.mem_singleton] at h
      rw [h]

/-- The entries of a list of triplets of row `i`, one per element `k` of a list, in
column `k` and with value `f k`: column `j` holds `f j` as often as `j` is in the list. -/
theorem setFromTriplets_map (i j : ℕ) (f : ℕ → ℚ) (cols : List ℕ) :
    setFromTriplets (cols.map (fun k => (⟨i, k, f k⟩ : Triplet))) i j
      = (cols.count j : ℚ) * f j := by
  induction cols with
  | nil => simp [setFromTriplets]
  | cons k rest ih =>
    have hcons : setFromTriplets ((⟨i, k, f k⟩ : Triplet)
          :: rest.map (fun k => (⟨i, k, f k⟩ : Triplet))) i j
        = setFromTriplets [(⟨i, k, f k⟩ : Triplet)] i j
          + setFromTriplets (rest.map (fun k => (⟨i, k, f k⟩ : Triplet))) i j :=
      setFromTriplets_append [_] _ i j
    rw [List.map_cons, hcons, ih, List.count_cons]
    by_cases hk : k = j
    · subst hk
      simp [setFromTriplets]
      ring
    · simp [setFromTriplets, hk]

/-- The entries of row `i` of a system assembled by a row loop are those of the triplets
that row `i` pushed. -/
theorem rowLoop_entry (rowf : PoissonSystem → ℕ → PoissonSystem) (app : ℕ → List Triplet)
    (w : ℕ → Option ℚ)
    (happ : ∀ sys i, (rowf sys i).coeffs = sys.coeffs ++ app i)
    (hrow : ∀ i, ∀ t ∈ app i, t.row = i)
    (hsrc : ∀ sys i, (rowf sys i).source_term
      = match w i with
        | some v => Function.update sys.source_term i v
        | none => sys.source_term)
    (m n i : ℕ) (hi : i < n) :
    (∀ j, setFromTriplets ((List.range n).foldl rowf
        ⟨List.replicate m ⟨0, 0, 0⟩, fun _ => 0⟩).coeffs i j = setFromTriplets (app i) i j)
      ∧ ((List.range n).foldl rowf
          ⟨List.replicate m ⟨0, 0, 0⟩, fun _ => 0⟩).source_term i = (w i).getD 0 := by
  obtain ⟨h1, h2⟩ := rowLoop_rows rowf app w happ hrow hsrc
    ⟨List.replicate m ⟨0, 0, 0⟩, fun _ => 0⟩ n
  constructor
  · intro j
    rw [setFromTriplets_filter_row, h1 i, if_pos hi, setFromTriplets_append,
      ← setFromTriplets_filter_row, setFromTriplets_replicate_zero, zero_add]
  · rw [h2 i, if_pos hi]

/-- The system assembled by `solvePressurePoisson`, row by row. -/
theorem assemblePressurePoisson_row (E : Externals) (delta_time : ℚ) (s : BubbleParticles)
    (i : ℕ) (hi : i < s.size) :
    (∀ j, setFromTriplets (assemblePressurePoisson E delta_time s).coeffs i j
        = setFromTriplets (rowTriplets E s (laplacianGrid E s)
            (innerRowDiagonal E s (laplacianGrid E s) delta_time i) i) i j)
      ∧ (assemblePressurePoisson E delta_time s).source_term i
        = (rowSourceTerm s (innerRowSourceTerm E s (laplacianGrid E s) delta_time i) i).getD
            0 :=
  rowLoop_entry (solvePressurePoissonRow E (laplacianGrid E s) delta_time s)
    (fun i => rowTriplets E s (laplacianGrid E s)
      (innerRowDiagonal E s (laplacianGrid E s) delta_time i) i)
    (fun i => rowSourceTerm s (innerRowSourceTerm E s (laplacianGrid E s) delta_time i) i)
    (fun sys i => (solvePressurePoissonRow_eq E _ delta_time s sys i).1)
    (fun i => rowTriplets_row E s _ _ i)
    (fun sys i => (solvePressurePoissonRow_eq E _ delta_time s sys i).2) _ s.size i hi

/-- The system assembled by `solvePressurePoissonDuan`, row by row. -/
theorem assemblePressurePoissonDuan_row (E : Externals) (delta_time : ℚ)
    (s : BubbleParticles) (i : ℕ) (hi : i < s.size) :
    (∀ j, setFromTriplets (assemblePressurePoissonDuan E delta_time s).coeffs i j
        = setFromTriplets (rowTriplets E s (laplacianGrid E s)
            (innerRowDiagonalDuan E s (laplacianGrid E s) delta_time i) i) i j)
      ∧ (assemblePressurePoissonDuan E delta_time s).source_term i
        = (rowSourceTerm s
            (innerRowSourceTermDuan E s (laplacianGrid E s) delta_time i) i).getD 0 :=
  rowLoop_entry (solvePressurePoissonDuanRow E (laplacianGrid E s) delta_time s)
    (fun i => rowTriplets E s (laplacianGrid E s)
      (innerRowDiagonalDuan E s (laplacianGrid E s) delta_time i) i)
    (fun i => rowSourceTerm s (innerRowSourceTermDuan E s (laplacianGrid E s) delta_time i) i)
    (fun sys i => (solvePressurePoissonDuanRow_eq E _ delta_time s sys i).1)
    (fun i => rowTriplets_row E s _ _ i)
    (fun sys i => (solvePressurePoissonDuanRow_eq E _ delta_time s sys i).2) _ s.size i hi

/-- The entries of the triplets of an inner row with diagonal value `d`: the coefficient
of `j` as often as `j` is an INNER neighbour, plus `d` on the diagonal. -/
theorem rowTriplets_inner_entry (E : Externals) (s : BubbleParticles) (grid : Grid) (d : ℚ)
    (i j : ℕ) (hI : s.boundary_types i = BoundaryType.INNER) :
    setFromTriplets (rowTriplets E s grid d i) i j
      = ((neighborsOfType s grid BoundaryType.INNER i).count j : ℚ)
          * laplacianCoefficient E s i j
        + (if j = i then d else 0) := by
  have h : ¬ (s.boundary_types i = BoundaryType.OTHERS
      ∨ s.boundary_types i = BoundaryType.SURFACE) := by
    rw [hI]
    decide
  unfold rowTriplets
  rw [if_neg h, setFromTriplets_append]
  unfold innerRowOffDiagonal
  rw [setFromTriplets_map]
  by_cases hj : j = i
  · subst hj
    simp [setFromTriplets]
  · have hj' : ¬ i = j := fun h => hj h.symm
    simp [setFromTriplets, hj, hj']

/-- A sum over the coupled neighbours splits into the INNER and the SURFACE ones. -/
theorem sum_coupled_split (bt : ℕ → BoundaryType) (f : ℕ → ℚ) (neighbors : List ℕ) :
    ((neighbors.filter (fun j => decide (bt j ≠ BoundaryType.OTHERS))).map f).sum
      = ((neighbors.filter (fun j => decide (bt j = BoundaryType.INNER))).map f).sum
        + ((neighbors.filter (fun j => decide (bt j = BoundaryType.SURFACE))).map f).sum := by
  induction neighbors with
  | nil => simp
  | cons j rest ih =>
    rw [List.filter_cons, List.filter_cons, List.filter_cons]
    cases hb : bt j <;>
      simp only [decide_True, decide_False, ne_eq, not_true_eq_false, not_false_eq_true,
        reduceCtorEq, if_true, if_false, List.map_cons, List.sum_cons, ih, Bool.false_eq_true] <;>
      ring

/-- Summing, over the columns `j ≠ i` below `n`, the value `f j` as often as `j` is in a
list of such columns, gives the sum of `f` over the list. -/
theorem sum_count_mul (n i : ℕ) (f : ℕ → ℚ) (cols : List ℕ)
    (hcols : ∀ k ∈ cols, k < n ∧ k ≠ i) :
    Finset.sum ((Finset.range n).erase i) (fun j => (cols.count j : ℚ) * f j)
      = (cols.map f).sum := by
  induction cols with
  | nil => simp
  | cons k rest ih =>
    have hk := hcols k (List.mem_cons_self _ _)
    have hmem : k ∈ (Finset.range n).erase i :=
      Finset.mem_erase.mpr ⟨hk.2, Finset.mem_range.mpr hk.1⟩
    have hrest := ih (fun x hx => hcols x (List.mem_cons_of_mem _ hx))
    have hsplit : ∀ j, ((k :: rest).count j : ℚ) * f j
        = (rest.count j : ℚ) * f j + (if k = j then f j else 0) := by
      intro j
      rw [List.count_cons]
      by_cases hkj : k = j
      · simp [hkj]
        ring
      · simp [hkj]
    simp only [hsplit]
    rw [Finset.sum_add_distrib, hrest, Finset.sum_ite_eq, if_pos hmem, List.map_cons,
      List.sum_cons]
    ring

/-- A particle that is not its own neighbour is not among its neighbours of any type. -/
theorem count_self_neighborsOfType (s : BubbleParticles) (grid : Grid) (b : BoundaryType)
    (i : ℕ) (hself : i ∉ grid.getNeighbors i) : (neighborsOfType s grid b i).count i = 0 := by
  rw [List.count_eq_zero]
  intro h
  exact hself (List.mem_filter.mp h).1

/-- The diagonal and the off-diagonal row sum of an INNER row of `solvePressurePoisson`,
for a particle that is not its own neighbour and whose neighbours are particles. -/
theorem inner_row_values (E : Externals) (delta_time : ℚ) (s : BubbleParticles) (i : ℕ)
    (hi : i < s.size) (hI : s.boundary_types i = BoundaryType.INNER)
    (hself : i ∉ (laplacianGrid E s).getNeighbors i)
    (hrange : ∀ j ∈ (laplacianGrid E s).getNeighbors i, j < s.size) :
    setFromTriplets (assemblePressurePoisson E delta_time s).coeffs i i
        = innerRowDiagonal E s (laplacianGrid E s) delta_time i
      ∧ Finset.sum ((Finset.range s.size).erase i)
          (fun j => setFromTriplets (assemblePressurePoisson E delta_time s).coeffs i j)
        = ((neighborsOfType s (laplacianGrid E s) BoundaryType.INNER i).map
            (laplacianCoefficient E s i)).sum := by
  obtain ⟨hrow, _⟩ := assemblePressurePoisson_row E delta_time s i hi
  constructor
  · rw [hrow i, rowTriplets_inner_entry E s _ _ i i hI,
      count_self_neighborsOfType s _ _ i hself]
    simp
  · have hentry : ∀ j ∈ (Finset.range s.size).erase i,
        setFromTriplets (assemblePressurePoisson E delta_time s).coeffs i j
          = ((neighborsOfType s (laplacianGrid E s) BoundaryType.INNER i).count j : ℚ)
            * laplacianCoefficient E s i j := by
      intro j hj
      have hji : j ≠ i := (Finset.mem_erase.mp hj).1
      rw [hrow j, rowTriplets_inner_entry E s _ _ i j hI, if_neg hji, add_zero]
    rw [Finset.sum_congr rfl hentry]
    apply sum_count_mul
    intro k hk
    have hk' := (List.mem_filter.mp hk).1
    exact ⟨hrange k hk', fun h => hself (h ▸ hk')⟩

/-- C13, amended: for an INNER particle `i` that is not its own neighbour and whose
neighbours are particles, the diagonal of row `i` assembled by `solvePressurePoisson` is
minus the sum of the off-diagonal entries of the row, minus the coefficients of the
SURFACE neighbours of `i` (which have no entry in the row), minus the compressibility
term `weak_compressibility * mass_density / delta_time²`. -/
theorem inner_row_diagonal (E : Externals) (delta_time : ℚ) (s : BubbleParticles) (i : ℕ)
    (hi : i < s.size) (hI : s.boundary_types i = BoundaryType.INNER)
    (hself : i ∉ (laplacianGrid E s).getNeighbors i)
    (hrange : ∀ j ∈ (laplacianGrid E s).getNeighbors i, j < s.size) :
    setFromTriplets (assemblePressurePoisson E delta_time s).coeffs i i
      = - Finset.sum ((Finset.range s.size).erase i)
            (fun j => setFromTriplets (assemblePressurePoisson E delta_time s).coeffs i j)
        - ((neighborsOfType s (laplacianGrid E s) BoundaryType.SURFACE i).map
            (laplacianCoefficient E s i)).sum
        - s.condition_.weak_compressibility * s.condition_.mass_density
          / (delta_time * delta_time) := by
  obtain ⟨h1, h2⟩ := inner_row_values E delta_time s i hi hI hself hrange
  rw [h1, h2]
  unfold innerRowDiagonal coupledNeighbors neighborsOfType
  rw [sum_coupled_split]
  ring

/-- A refutation of C13 as stated: in the example state particle `1` is INNER and its only
neighbour, particle `0`, is SURFACE; the row has no off-diagonal entry and the
compressibility term is zero, yet the diagonal is `-2/3`. -/
theorem inner_row_diagonal_not_row_sum :
    exampleParticles.boundary_types 1 = BoundaryType.INNER
      ∧ setFromTriplets (assemblePressurePoisson exampleExternals 1 exampleParticles).coeffs
          1 1 = -2 / 3
      ∧ setFromTriplets (assemblePressurePoisson exampleExternals 1 exampleParticles).coeffs
          1 1
        ≠ - Finset.sum ((Finset.range exampleParticles.size).erase 1)
              (fun j => setFromTriplets
                (assemblePressurePoisson exampleExternals 1 exampleParticles).coeffs 1 j)
          - exampleParticles.condition_.weak_compressibility
            * exampleParticles.condition_.mass_density / (1 * 1) := by
  have hI : exampleParticles.boundary_types 1 = BoundaryType.INNER := rfl
  have hself : 1 ∉ (laplacianGrid exampleExternals exampleParticles).getNeighbors 1 := by
    simp [laplacianGrid, exampleExternals, exampleGrid]
  have hrange : ∀ j ∈ (laplacianGrid exampleExternals exampleParticles).getNeighbors 1,
      j < exampleParticles.size := by
    simp [laplacianGrid, exampleExternals, exampleGrid, exampleParticles]
  obtain ⟨h1, h2⟩ := inner_row_values exampleExternals 1 exampleParticles 1 (by decide) hI
    hself hrange
  have d : innerRowDiagonal exampleExternals exampleParticles
      (laplacianGrid exampleExternals exampleParticles) 1 1 = -2 / 3 := by
    simp [innerRowDiagonal, coupledNeighbors, laplacianGrid, exampleExternals, exampleGrid,
      exampleParticles, laplacianCoefficient, exampleCondition]
    norm_num
  have o : ((neighborsOfType exampleParticles
      (laplacianGrid exampleExternals exampleParticles) BoundaryType.INNER 1).map
        (laplacianCoefficient exampleExternals exampleParticles 1)).sum = 0 := by
    simp [neighborsOfType, laplacianGrid, exampleExternals, exampleGrid, exampleParticles]
  rw [d] at h1
  rw [o] at h2
  refine ⟨hI, h1, ?_⟩
  rw [h1, h2]
  norm_num [exampleParticles, exampleCondition]

/-- Witness for the amended C13 on the example state, particle `1`. -/
theorem inner_row_diagonal_witness :
    (1 < exampleParticles.size ∧ exampleParticles.boundary_types 1 = BoundaryType.INNER
        ∧ 1 ∉ (laplacianGrid exampleExternals exampleParticles).getNeighbors 1
        ∧ ∀ j ∈ (laplacianGrid exampleExternals exampleParticles).getNeighbors 1,
            j < exampleParticles.size)
      ∧ setFromTriplets (assemblePressurePoisson exampleExternals 1 exampleParticles).coeffs
          1 1
        = - Finset.sum ((Finset.range exampleParticles.size).erase 1)
              (fun j => setFromTriplets
                (assemblePressurePoisson exampleExternals 1 exampleParticles).coeffs 1 j)
          - ((neighborsOfType exampleParticles
                (laplacianGrid exampleExternals exampleParticles) BoundaryType.SURFACE 1).map
              (laplacianCoefficient exampleExternals exampleParticles 1)).sum
          - exampleParticles.condition_.weak_compressibility
            * exampleParticles.condition_.mass_density / (1 * 1) := by
  have hself : 1 ∉ (laplacianGrid exampleExternals exampleParticles).getNeighbors 1 := by
    simp [laplacianGrid, exampleExternals, exampleGrid]
  have hrange : ∀ j ∈ (laplacianGrid exampleExternals exampleParticles).getNeighbors 1,
      j < exampleParticles.size := by
    simp [laplacianGrid, exampleExternals, exampleGrid, exampleParticles]
  exact ⟨⟨by decide, rfl, hself, hrange⟩,
    inner_row_diagonal exampleExternals 1 exampleParticles 1 (by decide) rfl hself hrange⟩

/-- The source term of an INNER row of `solvePressurePoisson`. -/
theorem inner_row_source (E : Externals) (delta_time : ℚ) (s : BubbleParticles) (i : ℕ)
    (hi : i < s.size) (hI : s.boundary_types i = BoundaryType.INNER) :
    (assemblePressurePoisson E delta_time s).source_term i
      = innerRowSourceTerm E s (laplacianGrid E s) delta_time i := by
  have h : ¬ (s.boundary_types i = BoundaryType.OTHERS
      ∨ s.boundary_types i = BoundaryType.SURFACE) := by
    rw [hI]
    decide
  rw [(assemblePressurePoisson_row E delta_time s i hi).2]
  unfold rowSourceTerm
  rw [if_neg h]
  rfl

/-- The divergence sum of a particle vanishes when its coupled neighbours move with it. -/
theorem innerRowDivergence_at_rest (E : Externals) (s : BubbleParticles) (grid : Grid)
    (i : ℕ)
    (hvel : ∀ j ∈ grid.getNeighbors i, s.boundary_types j ≠ BoundaryType.OTHERS →
      s.temporary_velocity j = s.temporary_velocity i) :
    innerRowDivergence E s grid i = 0 := by
  unfold innerRowDivergence
  rw [zero_add]
  apply List.sum_eq_zero
  intro x hx
  rw [List.mem_map] at hx
  obtain ⟨j, hj, rfl⟩ := hx
  unfold coupledNeighbors at hj
  obtain ⟨hj1, hj2⟩ := List.mem_filter.mp hj
  have hb : s.boundary_types j ≠ BoundaryType.OTHERS := by simpa using hj2
  unfold divergenceContribution
  rw [hvel j hj1 hb]
  simp [Vector3d.sub, Vector3d.dot]

/-- C16, amended: for an INNER particle `i` whose neighbours other than OTHERS all have
the temporary velocity of `i`, `solvePressurePoisson` computes `source_term(i) = 0` when
`particle_number_density(i)` equals the reference density of the particle,
`initial_particle_number_density * (1 - void_fraction(i))`; when it equals
`initial_particle_number_density` itself, the source term is
`-(initial_particle_number_density * void_fraction(i)) * relaxation_coefficient_pnd
  * mass_density / (delta_time² * initial_particle_number_density)`. -/
theorem source_term_at_rest (E : Externals) (delta_time : ℚ) (s : BubbleParticles) (i : ℕ)
    (hi : i < s.size) (hI : s.boundary_types i = BoundaryType.INNER)
    (hvel : ∀ j ∈ (laplacianGrid E s).getNeighbors i,
      s.boundary_types j ≠ BoundaryType.OTHERS →
        s.temporary_velocity j = s.temporary_velocity i) :
    (s.particle_number_density i
          = s.initial_particle_number_density * (1 - s.void_fraction i) →
        (assemblePressurePoisson E delta_time s).source_term i = 0)
      ∧ (s.particle_number_density i = s.initial_particle_number_density →
        (assemblePressurePoisson E delta_time s).source_term i
          = -(s.initial_particle_number_density * s.void_fraction i)
            * s.condition_.relaxation_coefficient_pnd * s.condition_.mass_density
            / (delta_time * delta_time * s.initial_particle_number_density)) := by
  rw [inner_row_source E delta_time s i hi hI]
  unfold innerRowSourceTerm
  rw [innerRowDivergence_at_rest E s _ i hvel]
  constructor
  · intro hp
    rw [hp]
    simp
  · intro hp
    rw [hp]
    ring

/-- A refutation of C16 as stated: in the example state particle `1` is INNER, its only
neighbour has its temporary velocity, and its number density is the initial one, yet its
source term is `-10`, not `0`: the void fraction `1/100` lowers the reference density. -/
theorem source_term_at_rest_nonzero :
    exampleParticles.boundary_types 1 = BoundaryType.INNER
      ∧ (∀ j ∈ (laplacianGrid exampleExternals exampleParticles).getNeighbors 1,
          exampleParticles.boundary_types j ≠ BoundaryType.OTHERS →
            exampleParticles.temporary_velocity j = exampleParticles.temporary_velocity 1)
      ∧ exampleParticles.particle_number_density 1
        = exampleParticles.initial_particle_number_density
      ∧ (assemblePressurePoisson exampleExternals 1 exampleParticles).source_term 1 = -10
      ∧ (assemblePressurePoisson exampleExternals 1 exampleParticles).source_term 1 ≠ 0 := by
  have hv : ∀ j ∈ (laplacianGrid exampleExternals exampleParticles).getNeighbors 1,
      exampleParticles.boundary_types j ≠ BoundaryType.OTHERS →
        exampleParticles.temporary_velocity j = exampleParticles.temporary_velocity 1 :=
    fun _ _ _ => rfl
  have hs : (assemblePressurePoisson exampleExternals 1 exampleParticles).source_term 1
      = -10 := by
    rw [inner_row_source exampleExternals 1 exampleParticles 1 (by decide) rfl]
    unfold innerRowSourceTerm
    rw [innerRowDivergence_at_rest exampleExternals exampleParticles _ 1 hv]
    norm_num [exampleParticles, exampleCondition]
  refine ⟨rfl, hv, ?_, hs, ?_⟩
  · norm_num [exampleParticles]
  · rw [hs]
    norm_num

/-- Witness for the amended C16: the example state with particle `1` at its reference
density `6 * (1 - 1/100)`. -/
theorem source_term_at_rest_witness :
    (1 < exampleParticles.size ∧ exampleParticles.boundary_types 1 = BoundaryType.INNER
        ∧ (∀ j ∈ (laplacianGrid exampleExternals
              { exampleParticles with particle_number_density := fun _ => 594 / 100 }
            ).getNeighbors 1,
            exampleParticles.boundary_types j ≠ BoundaryType.OTHERS →
              exampleParticles.temporary_velocity j = exampleParticles.temporary_velocity 1)
        ∧ (594 / 100 : ℚ)
          = exampleParticles.initial_particle_number_density
            * (1 - exampleParticles.void_fraction 1))
      ∧ (assemblePressurePoisson exampleExternals 1
          { exampleParticles with particle_number_density := fun _ => 594 / 100 }).source_term 1
        = 0 :=
  ⟨⟨by decide, rfl, fun _ _ _ => rfl, by norm_num [exampleParticles]⟩,
    (source_term_at_rest exampleExternals 1
      { exampleParticles with particle_number_density := fun _ => 594 / 100 } 1 (by decide)
      rfl (fun _ _ _ => rfl)).1 (by norm_num [exampleParticles])⟩

/-- The source term of an INNER row of `solvePressurePoissonDuan`. -/
theorem inner_row_source_duan (E : Externals) (delta_time : ℚ) (s : BubbleParticles) (i : ℕ)
    (hi : i < s.size) (hI : s.boundary_types i = BoundaryType.INNER) :
    (assemblePressurePoissonDuan E delta_time s).source_term i
      = innerRowSourceTermDuan E s (laplacianGrid E s) delta_time i := by
  have h : ¬ (s.boundary_types i = BoundaryType.OTHERS
      ∨ s.boundary_types i = BoundaryType.SURFACE) := by
    rw [hI]
    decide
  rw [(assemblePressurePoissonDuan_row E delta_time s i hi).2]
  unfold rowSourceTerm
  rw [if_neg h]
  rfl

/-- The entries of a row of the two solvers agree off the diagonal, and on the diagonal
when the two diagonal values agree or the row is an identity row. -/
theorem rowTriplets_entry_congr (E : Externals) (s : BubbleParticles) (grid : Grid)
    (d1 d2 : ℚ) (i j : ℕ)
    (h : j = i → s.boundary_types i = BoundaryType.INNER → d1 = d2) :
    setFromTriplets (rowTriplets E s grid d1 i) i j
      = setFromTriplets (rowTriplets E s grid d2 i) i j := by
  cases hb : s.boundary_types i with
  | INNER =>
    rw [rowTriplets_inner_entry E s grid d1 i j hb, rowTriplets_inner_entry E s grid d2 i j hb]
    by_cases hj : j = i
    · rw [if_pos hj, if_pos hj, h hj hb]
    · rw [if_neg hj, if_neg hj]
  | SURFACE => simp [rowTriplets, hb]
  | OTHERS => simp [rowTriplets, hb]

/-- C17, amended: on the same state, for a particle `i` whose layer is not INNER_SURFACE
the two solvers assemble the same matrix row; their source terms agree on an OTHERS or
SURFACE row, while on an INNER row that is not INNER_SURFACE the Duan source term measures
the density error against `initial_particle_number_density`, the base one against
`initial_particle_number_density * (1 - void_fraction(i))`.  On an INNER row whose layer
is INNER_SURFACE the Duan diagonal is the base diagonal minus
`(modified_pnd(i) - pnd(i)) * 2 * dimension / (lambda * initial_pnd)`, the off-diagonal
entries agree, and the Duan source term has `modified_pnd(i)` in place of `pnd(i)`. -/
theorem duan_versus_base (E : Externals) (delta_time : ℚ) (s : BubbleParticles) (i : ℕ)
    (hi : i < s.size) :
    (s.free_surface_type i ≠ SurfaceLayer.INNER_SURFACE →
        ∀ j, setFromTriplets (assemblePressurePoissonDuan E delta_time s).coeffs i j
          = setFromTriplets (assemblePressurePoisson E delta_time s).coeffs i j)
      ∧ ((s.boundary_types i = BoundaryType.OTHERS
            ∨ s.boundary_types i = BoundaryType.SURFACE) →
          (assemblePressurePoissonDuan E delta_time s).source_term i
            = (assemblePressurePoisson E delta_time s).source_term i)
      ∧ (s.boundary_types i = BoundaryType.INNER →
          s.free_surface_type i ≠ SurfaceLayer.INNER_SURFACE →
          (assemblePressurePoissonDuan E delta_time s).source_term i
            = (assemblePressurePoisson E delta_time s).source_term i
              + (s.initial_particle_number_density * s.void_fraction i)
                * s.condition_.relaxation_coefficient_pnd * s.condition_.mass_density
                / (delta_time * delta_time * s.initial_particle_number_density))
      ∧ (s.boundary_types i = BoundaryType.INNER →
          s.free_surface_type i = SurfaceLayer.INNER_SURFACE →
          setFromTriplets (assemblePressurePoissonDuan E delta_time s).coeffs i i
              = setFromTriplets (assemblePressurePoisson E delta_time s).coeffs i i
                - (s.modified_pnd i - s.particle_number_density i) * 2 * (s.dimension : ℚ)
                  / (s.laplacian_lambda_pressure * s.initial_particle_number_density)
            ∧ (∀ j, j ≠ i →
                setFromTriplets (assemblePressurePoissonDuan E delta_time s).coeffs i j
                  = setFromTriplets (assemblePressurePoisson E delta_time s).coeffs i j)
            ∧ (assemblePressurePoissonDuan E delta_time s).source_term i
              = (assemblePressurePoisson E delta_time s).source_term i
                - (s.modified_pnd i - s.particle_number_density i)
                  * s.condition_.relaxation_coefficient_pnd * s.condition_.mass_density
                  / (delta_time * delta_time * s.initial_particle_number_density)) := by
  obtain ⟨hb, hbs⟩ := assemblePressurePoisson_row E delta_time s i hi
  obtain ⟨hd, hds⟩ := assemblePressurePoissonDuan_row E delta_time s i hi
  refine ⟨?_, ?_, ?_, ?_⟩
  · intro hIS j
    rw [hd j, hb j]
    apply rowTriplets_entry_congr
    intro _ _
    unfold innerRowDiagonalDuan
    rw [if_neg hIS]
  · intro hOS
    rw [hds, hbs]
    unfold rowSourceTerm
    rw [if_pos hOS, if_pos hOS]
  · intro hI hIS
    rw [inner_row_source_duan E delta_time s i hi hI, inner_row_source E delta_time s i hi hI]
    unfold innerRowSourceTermDuan innerRowSourceTerm
    rw [if_neg hIS]
    ring
  · intro hI hIS
    refine ⟨?_, ?_, ?_⟩
    · rw [hd i, hb i, rowTriplets_inner_entry E s _ _ i i hI,
        rowTriplets_inner_entry E s _ _ i i hI]
      unfold innerRowDiagonalDuan
      rw [if_pos hIS]
      simp only [if_true]
      ring
    · intro j hj
      rw [hd j, hb j]
      apply rowTriplets_entry_congr
      intro h
      exact absurd h hj
    · rw [inner_row_source_duan E delta_time s i hi hI,
        inner_row_source E delta_time s i hi hI]
      unfold innerRowSourceTermDuan innerRowSourceTerm
      rw [if_pos hIS]
      ring

/-- A refutation of C17 as stated: in the example state particle `1` is INNER with layer
INNER, not INNER_SURFACE, and the base solver computes the source term `-10` where the
Duan solver computes `0`. -/
theorem duan_source_term_differs :
    exampleParticles.free_surface_type 1 ≠ SurfaceLayer.INNER_SURFACE
      ∧ (assemblePressurePoisson exampleExternals 1 exampleParticles).source_term 1 = -10
      ∧ (assemblePressurePoissonDuan exampleExternals 1 exampleParticles).source_term 1 = 0
      ∧ (assemblePressurePoissonDuan exampleExternals 1 exampleParticles).source_term 1
        ≠ (assemblePressurePoisson exampleExternals 1 exampleParticles).source_term 1 := by
  have hv : ∀ j ∈ (laplacianGrid exampleExternals exampleParticles).getNeighbors 1,
      exampleParticles.boundary_types j ≠ BoundaryType.OTHERS →
        exampleParticles.temporary_velocity j = exampleParticles.temporary_velocity 1 :=
    fun _ _ _ => rfl
  have hIS : exampleParticles.free_surface_type 1 ≠ SurfaceLayer.INNER_SURFACE := by decide
  have hb : (assemblePressurePoisson exampleExternals 1 exampleParticles).source_term 1
      = -10 := by
    rw [inner_row_source exampleExternals 1 exampleParticles 1 (by decide) rfl]
    unfold innerRowSourceTerm
    rw [innerRowDivergence_at_rest exampleExternals exampleParticles _ 1 hv]
    norm_num [exampleParticles, exampleCondition]
  have hd : (assemblePressurePoissonDuan exampleExternals 1 exampleParticles).source_term 1
      = 0 := by
    rw [inner_row_source_duan exampleExternals 1 exampleParticles 1 (by decide) rfl]
    unfold innerRowSourceTermDuan
    rw [if_neg hIS, innerRowDivergence_at_rest exampleExternals exampleParticles _ 1 hv]
    norm_num [exampleParticles, exampleCondition]
  refine ⟨hIS, hb, hd, ?_⟩
  rw [hb, hd]
  norm_num

/-- Witness for the amended C17 on the example state, particle `1`: an INNER row that is
not INNER_SURFACE. -/
theorem duan_versus_base_witness :
    (1 < exampleParticles.size ∧ exampleParticles.boundary_types 1 = BoundaryType.INNER
        ∧ exampleParticles.free_surface_type 1 ≠ SurfaceLayer.INNER_SURFACE)
      ∧ (∀ j, setFromTriplets
            (assemblePressurePoissonDuan exampleExternals 1 exampleParticles).coeffs 1 j
          = setFromTriplets
            (assemblePressurePoisson exampleExternals 1 exampleParticles).coeffs 1 j)
      ∧ (assemblePressurePoissonDuan exampleExternals 1 exampleParticles).source_term 1
        = (assemblePressurePoisson exampleExternals 1 exampleParticles).source_term 1
          + (exampleParticles.initial_particle_number_density
              * exampleParticles.void_fraction 1)
            * exampleParticles.condition_.relaxation_coefficient_pnd
            * exampleParticles.condition_.mass_density
            / (1 * 1 * exampleParticles.initial_particle_number_density) :=
  ⟨⟨by decide, rfl, by decide⟩,
    (duan_versus_base exampleExternals 1 exampleParticles 1 (by decide)).1 (by decide),
    (duan_versus_base exampleExternals 1 exampleParticles 1 (by decide)).2.2.1 rfl
      (by decide)⟩

/-! ## Pressure Poisson assembly: symmetry -/

/-- An off-diagonal entry of a row: the coefficient of `j`, as often as `j` is a neighbour
of `i`, when both particles are INNER, and `0` otherwise. -/
theorem rowTriplets_offdiagonal (E : Externals) (s : BubbleParticles) (grid : Grid) (d : ℚ)
    (i j : ℕ) (hij : i ≠ j) :
    setFromTriplets (rowTriplets E s grid d i) i j
      = if s.boundary_types i = BoundaryType.INNER ∧ s.boundary_types j = BoundaryType.INNER
        then ((grid.getNeighbors i).count j : ℚ) * laplacianCoefficient E s i j
        else 0 := by
  have hji : ¬ j = i := fun h => hij h.symm
  cases hb : s.boundary_types i with
  | INNER =>
    rw [rowTriplets_inner_entry E s grid d i j hb, if_neg hji, add_zero]
    unfold neighborsOfType
    by_cases hbj : s.boundary_types j = BoundaryType.INNER
    · rw [List.count_filter (by simp [hbj])]
      simp [hbj]
    · have hz : ((grid.getNeighbors i).filter
          (fun k => decide (s.boundary_types k = BoundaryType.INNER))).count j = 0 := by
        rw [List.count_eq_zero]
        intro h
        have := (List.mem_filter.mp h).2
        simp only [decide_eq_true_eq] at this
        exact hbj this
      rw [hz]
      simp [hbj]
  | SURFACE => simp [rowTriplets, hb, setFromTriplets, hij]
  | OTHERS => simp [rowTriplets, hb, setFromTriplets, hij]

/-- A weight that depends only on the length of its argument gives `mat_ij = mat_ji`. -/
theorem laplacianCoefficient_symm (E : Externals) (s : BubbleParticles) (i j : ℕ)
    (heven : ∀ u v : Vector3d, u.squaredNorm = v.squaredNorm →
      E.weightForLaplacianPressure u = E.weightForLaplacianPressure v) :
    laplacianCoefficient E s i j = laplacianCoefficient E s j i := by
  unfold laplacianCoefficient
  have h : ((s.temporary_position j).sub (s.temporary_position i)).squaredNorm
      = ((s.temporary_position i).sub (s.temporary_position j)).squaredNorm := by
    simp only [Vector3d.squaredNorm, Vector3d.dot, Vector3d.sub]
    ring
  rw [heven _ _ h]

/-- C19: the matrix assembled by `solvePressurePoisson`, and the one assembled by
`solvePressurePoissonDuan`, is symmetric, `A[i,j] = A[j,i]` for `i ≠ j`, when the
neighbour relation of the grid is symmetric (`j` is listed for `i` as often as `i` is
listed for `j`) and the Laplacian weight depends only on `|r_ij|`; a row has no entry in
the column of a SURFACE or OTHERS particle other than its own, and a non-zero off-diagonal
entry joins two INNER particles that are grid neighbours. -/
theorem poisson_matrix_symmetric (E : Externals) (delta_time : ℚ) (s : BubbleParticles)
    (hsym : ∀ i j, ((laplacianGrid E s).getNeighbors i).count j
      = ((laplacianGrid E s).getNeighbors j).count i)
    (heven : ∀ u v : Vector3d, u.squaredNorm = v.squaredNorm →
      E.weightForLaplacianPressure u = E.weightForLaplacianPressure v)
    (i j : ℕ) (hi : i < s.size) (hj : j < s.size) (hij : i ≠ j) :
    (setFromTriplets (assemblePressurePoisson E delta_time s).coeffs i j
          = setFromTriplets (assemblePressurePoisson E delta_time s).coeffs j i
        ∧ setFromTriplets (assemblePressurePoissonDuan E delta_time s).coeffs i j
          = setFromTriplets (assemblePressurePoissonDuan E delta_time s).coeffs j i)
      ∧ ((s.boundary_types j = BoundaryType.SURFACE
            ∨ s.boundary_types j = BoundaryType.OTHERS) →
          setFromTriplets (assemblePressurePoisson E delta_time s).coeffs i j = 0
            ∧ setFromTriplets (assemblePressurePoissonDuan E delta_time s).coeffs i j = 0)
      ∧ ((setFromTriplets (assemblePressurePoisson E delta_time s).coeffs i j ≠ 0
            ∨ setFromTriplets (assemblePressurePoissonDuan E delta_time s).coeffs i j ≠ 0) →
          s.boundary_types i = BoundaryType.INNER ∧ s.boundary_types j = BoundaryType.INNER
            ∧ j ∈ (laplacianGrid E s).getNeighbors i) := by
  have b1 := (assemblePressurePoisson_row E delta_time s i hi).1 j
  have b2 := (assemblePressurePoisson_row E delta_time s j hj).1 i
  have d1 := (assemblePressurePoissonDuan_row E delta_time s i hi).1 j
  have d2 := (assemblePressurePoissonDuan_row E delta_time s j hj).1 i
  rw [rowTriplets_offdiagonal E s _ _ i j hij] at b1 d1
  rw [rowTriplets_offdiagonal E s _ _ j i hij.symm] at b2 d2
  rw [b1, b2, d1, d2]
  have hswap : (if s.boundary_types j = BoundaryType.INNER
        ∧ s.boundary_types i = BoundaryType.INNER
      then (((laplacianGrid E s).getNeighbors j).count i : ℚ) * laplacianCoefficient E s j i
      else 0)
      = if s.boundary_types i = BoundaryType.INNER ∧ s.boundary_types j = BoundaryType.INNER
        then (((laplacianGrid E s).getNeighbors i).count j : ℚ) * laplacianCoefficient E s i j
        else 0 := by
    rw [hsym j i, laplacianCoefficient_symm E s j i heven]
    by_cases h : s.boundary_types i = BoundaryType.INNER
        ∧ s.boundary_types j = BoundaryType.INNER
    · rw [if_pos h, if_pos ⟨h.2, h.1⟩]
    · rw [if_neg h, if_neg (fun h' => h ⟨h'.2, h'.1⟩)]
  refine ⟨⟨hswap.symm, hswap.symm⟩, ?_, ?_⟩
  · intro hb
    have hne : ¬ (s.boundary_types i = BoundaryType.INNER
        ∧ s.boundary_types j = BoundaryType.INNER) := by
      rintro ⟨_, h⟩
      rcases hb with h' | h' <;> rw [h] at h' <;> exact absurd h' (by decide)
    rw [if_neg hne]
    exact ⟨rfl, rfl⟩
  · intro hnz
    have hne : (if s.boundary_types i = BoundaryType.INNER
          ∧ s.boundary_types j = BoundaryType.INNER
        then (((laplacianGrid E s).getNeighbors i).count j : ℚ) * laplacianCoefficient E s i j
        else 0) ≠ 0 := by
      rcases hnz with h | h <;> exact h
    by_cases h : s.boundary_types i = BoundaryType.INNER
        ∧ s.boundary_types j = BoundaryType.INNER
    · rw [if_pos h] at hne
      refine ⟨h.1, h.2, ?_⟩
      by_contra hmem
      rw [List.count_eq_zero.mpr hmem] at hne
      simp at hne
    · rw [if_neg h] at hne
      exact absurd rfl hne

/-- Witness for C19 on the example state and grid, whose neighbour lists are symmetric,
with the constant weight: particles `1` and `2`. -/
theorem poisson_matrix_symmetric_witness :
    ((∀ i j, ((laplacianGrid exampleExternals exampleParticles).getNeighbors i).count j
          = ((laplacianGrid exampleExternals exampleParticles).getNeighbors j).count i)
        ∧ (∀ u v : Vector3d, u.squaredNorm = v.squaredNorm →
            exampleExternals.weightForLaplacianPressure u
              = exampleExternals.weightForLaplacianPressure v)
        ∧ 1 < exampleParticles.size ∧ 2 < exampleParticles.size ∧ (1 : ℕ) ≠ 2)
      ∧ setFromTriplets (assemblePressurePoisson exampleExternals 1 exampleParticles).coeffs
          1 2
        = setFromTriplets (assemblePressurePoisson exampleExternals 1 exampleParticles).coeffs
          2 1 := by
  have hsym : ∀ i j,
      ((laplacianGrid exampleExternals exampleParticles).getNeighbors i).count j
        = ((laplacianGrid exampleExternals exampleParticles).getNeighbors j).count i := by
    intro i j
    simp only [laplacianGrid, exampleExternals, exampleGrid]
    by_cases hi0 : i = 0 <;> by_cases hj0 : j = 0 <;> by_cases hi1 : i = 1 <;>
      by_cases hj1 : j = 1 <;> by_cases hi2 : i = 2 <;> by_cases hj2 : j = 2 <;>
      simp [hi0, hj0, hi1, hj1, hi2, hj2, List.count_cons]
  have heven : ∀ u v : Vector3d, u.squaredNorm = v.squaredNorm →
      exampleExternals.weightForLaplacianPressure u
        = exampleExternals.weightForLaplacianPressure v := fun _ _ _ => rfl
  exact ⟨⟨hsym, heven, by decide, by decide, by decide⟩,
    (poisson_matrix_symmetric exampleExternals 1 exampleParticles hsym heven 1 2 (by decide)
      (by decide) (by decide)).1.1⟩

/-! ## Average pressure -/

/-- The neighbour loop of `calculateAveragePressure` adds the weighted pressures to the
numerator and the weights to the denominator. -/
theorem averagePressureNeighbor_foldl (E : Externals) (s : BubbleParticles) (i : ℕ)
    (l : List ℕ) (acc : ℚ × ℚ) :
    l.foldl (averagePressureNeighbor E s i) acc
      = (acc.1 + (l.map (fun j => s.pressure j * averagePressureWeight E s i j)).sum,
         acc.2 + (l.map (fun j => averagePressureWeight E s i j)).sum) := by
  induction l generalizing acc with
  | nil => simp
  | cons j l ih =>
    rw [List.foldl_cons, ih]
    simp only [averagePressureNeighbor, List.map_cons, List.sum_cons]
    ext <;> simp only <;> ring

/-- One step of `calculateAveragePressure` writes entry `i` of `average_pressure`, with
the value `averagePressureOf`, and nothing else. -/
theorem calculateAveragePressureStep_eq (E : Externals) (grid : Grid) (s : BubbleParticles)
    (i : ℕ) :
    calculateAveragePressureStep E grid s i
      = { s with average_pressure :=
            Function.update s.average_pressure i (averagePressureOf E grid s i) } := by
  unfold calculateAveragePressureStep averagePressureOf
  by_cases hb : s.boundary_types i = BoundaryType.OTHERS
  · simp only [hb, if_true]
  · simp only [hb, if_false]
    by_cases hn : (grid.getNeighbors i).isEmpty = true
    · simp only [hn, if_true]
    · simp only [hn, if_false, averagePressureNeighbor_foldl]
      rfl

/-- The loop of `calculateAveragePressure` over the first `n` particles, in closed
form. -/
theorem calculateAveragePressure_foldl (E : Externals) (grid : Grid) (s : BubbleParticles)
    (n : ℕ) :
    (List.range n).foldl (calculateAveragePressureStep E grid) s
      = { s with average_pressure := fun k =>
            if k < n then averagePressureOf E grid s k else s.average_pressure k } := by
  induction n with
  | zero => simp
  | succ n ih =>
    rw [List.range_succ, List.foldl_append, ih, List.foldl_cons, List.foldl_nil,
      calculateAveragePressureStep_eq]
    show { s with average_pressure := (Function.update
        (fun k => if k < n then averagePressureOf E grid s k else s.average_pressure k) n
        (averagePressureOf E grid s n)) } = _
    rw [update_below]

/-- The kernel weight is not negative at a distance that is not negative. -/
theorem weightPoly6Kernel_nonneg (d : ℤ) (r h : ℚ) (hr : 0 ≤ r) (hh : 0 < h) :
    0 ≤ weightPoly6Kernel d r h := by
  have hpi := M_PI_pos
  have h8 : 0 < h ^ 8 := pow_pos hh 8
  unfold weightPoly6Kernel
  by_cases h1 : r > h
  · rw [if_pos h1]
  · rw [if_neg h1]
    have hle : r ≤ h := not_lt.mp h1
    have hsq : 0 ≤ h * h - r * r := by nlinarith
    have h3 : 0 ≤ (h * h - r * r) ^ 3 := pow_nonneg hsq 3
    by_cases h2 : d = 2
    · rw [if_pos h2]; positivity
    · rw [if_neg h2]; positivity

/-- The kernel weight at distance zero is positive. -/
theorem weightPoly6Kernel_zero_pos (d : ℤ) (h : ℚ) (hh : 0 < h) :
    0 < weightPoly6Kernel d 0 h := by
  have hpi := M_PI_pos
  unfold weightPoly6Kernel
  rw [if_neg (not_lt.mpr hh.le)]
  have h3 : 0 < (h * h - 0 * 0) ^ 3 := by
    have : 0 < h * h - 0 * 0 := by nlinarith
    exact pow_pos this 3
  by_cases h2 : d = 2
  · rw [if_pos h2]; positivity
  · rw [if_neg h2]; positivity

/-- A weighted sum with weights that are not negative is at least the bound of its
values times the sum of the weights. -/
theorem weighted_sum_lower (l : List ℕ) (p w : ℕ → ℚ) (lo : ℚ) (hw : ∀ j ∈ l, 0 ≤ w j)
    (hp : ∀ j ∈ l, lo ≤ p j) :
    lo * (l.map w).sum ≤ (l.map (fun j => p j * w j)).sum := by
  induction l with
  | nil => simp
  | cons j l ih =>
    simp only [List.map_cons, List.sum_cons]
    have h1 := ih (fun k hk => hw k (List.mem_cons_of_mem _ hk))
      (fun k hk => hp k (List.mem_cons_of_mem _ hk))
    have h2 := mul_le_mul_of_nonneg_right (hp j (List.mem_cons_self _ _))
      (hw j (List.mem_cons_self _ _))
    linarith

/-- A weighted sum with weights that are not negative is at most the bound of its values
times the sum of the weights. -/
theorem weighted_sum_upper (l : List ℕ) (p w : ℕ → ℚ) (hi : ℚ) (hw : ∀ j ∈ l, 0 ≤ w j)
    (hp : ∀ j ∈ l, p j ≤ hi) :
    (l.map (fun j => p j * w j)).sum ≤ hi * (l.map w).sum := by
  induction l with
  | nil => simp
  | cons j l ih =>
    simp only [List.map_cons, List.sum_cons]
    have h1 := ih (fun k hk => hw k (List.mem_cons_of_mem _ hk))
      (fun k hk => hp k (List.mem_cons_of_mem _ hk))
    have h2 := mul_le_mul_of_nonneg_right (hp j (List.mem_cons_self _ _))
      (hw j (List.mem_cons_self _ _))
    linarith

/-- A sum of weights that are not negative is not negative. -/
theorem weight_sum_nonneg (l : List ℕ) (w : ℕ → ℚ) (hw : ∀ j ∈ l, 0 ≤ w j) :
    0 ≤ (l.map w).sum := by
  induction l with
  | nil => simp
  | cons j l ih =>
    simp only [List.map_cons, List.sum_cons]
    have h1 := ih (fun k hk => hw k (List.mem_cons_of_mem _ hk))
    have hj := hw j (List.mem_cons_self _ _)
    linarith

/-- C20: after `calculateAveragePressure` with `pnd_weight_radius > 0` (and a square root
that is never negative), for every particle `i` that is not OTHERS, `average_pressure(i)`
is the weighted mean of `pressure(i)`, with a positive weight, and of the pressures of its
grid neighbours, with weights that are not negative: it is at least every lower bound and
at most every upper bound of those pressures, and it equals `pressure(i)` when `i` has no
neighbours or when all of them share the pressure of `i`; for every OTHERS particle
`average_pressure(i) = 0`. -/
theorem calculateAveragePressure_convex (E : Externals) (s : BubbleParticles)
    (hR : 0 < s.condition_.pnd_weight_radius) (hsqrt : ∀ x, 0 ≤ E.sqrt x)
    (i : ℕ) (hi : i < s.size) :
    (s.boundary_types i = BoundaryType.OTHERS →
        (calculateAveragePressure E s).average_pressure i = 0)
      ∧ (s.boundary_types i ≠ BoundaryType.OTHERS →
          (0 < weightPoly6Kernel s.condition_.dimension 0 s.condition_.pnd_weight_radius
            ∧ (∀ j, 0 ≤ averagePressureWeight E s i j)
            ∧ (calculateAveragePressure E s).average_pressure i
              = (s.pressure i
                    * weightPoly6Kernel s.condition_.dimension 0
                        s.condition_.pnd_weight_radius
                  + (((averagePressureGrid E s).getNeighbors i).map
                      (fun j => s.pressure j * averagePressureWeight E s i j)).sum)
                / (weightPoly6Kernel s.condition_.dimension 0 s.condition_.pnd_weight_radius
                  + (((averagePressureGrid E s).getNeighbors i).map
                      (fun j => averagePressureWeight E s i j)).sum))
          ∧ (∀ lo, lo ≤ s.pressure i →
              (∀ j ∈ (averagePressureGrid E s).getNeighbors i, lo ≤ s.pressure j) →
              lo ≤ (calculateAveragePressure E s).average_pressure i)
          ∧ (∀ hi, s.pressure i ≤ hi →
              (∀ j ∈ (averagePressureGrid E s).getNeighbors i, s.pressure j ≤ hi) →
              (calculateAveragePressure E s).average_pressure i ≤ hi)
          ∧ ((averagePressureGrid E s).getNeighbors i = [] →
              (calculateAveragePressure E s).average_pressure i = s.pressure i)
          ∧ ((∀ j ∈ (averagePressureGrid E s).getNeighbors i,
                s.pressure j = s.pressure i) →
              (calculateAveragePressure E s).average_pressure i = s.pressure i)) := by
  have hval : (calculateAveragePressure E s).average_pressure i
      = averagePressureOf E (averagePressureGrid E s) s i := by
    unfold calculateAveragePressure
    rw [calculateAveragePressure_foldl]
    simp only [hi, if_true]
  have hw0 := weightPoly6Kernel_zero_pos s.condition_.dimension _ hR
  have hw : ∀ j, 0 ≤ averagePressureWeight E s i j := fun j =>
    weightPoly6Kernel_nonneg _ _ _ (hsqrt _) hR
  have hsum := weight_sum_nonneg ((averagePressureGrid E s).getNeighbors i)
    (fun j => averagePressureWeight E s i j) (fun j _ => hw j)
  have hD : 0 < weightPoly6Kernel s.condition_.dimension 0 s.condition_.pnd_weight_radius
      + (((averagePressureGrid E s).getNeighbors i).map
          (fun j => averagePressureWeight E s i j)).sum := by linarith
  have hmean : s.boundary_types i ≠ BoundaryType.OTHERS →
      averagePressureOf E (averagePressureGrid E s) s i
        = (s.pressure i
              * weightPoly6Kernel s.condition_.dimension 0 s.condition_.pnd_weight_radius
            + (((averagePressureGrid E s).getNeighbors i).map
                (fun j => s.pressure j * averagePressureWeight E s i j)).sum)
          / (weightPoly6Kernel s.condition_.dimension 0 s.condition_.pnd_weight_radius
            + (((averagePressureGrid E s).getNeighbors i).map
                (fun j => averagePressureWeight E s i j)).sum) := by
    intro hb
    unfold averagePressureOf
    rw [if_neg hb]
    by_cases hn : ((averagePressureGrid E s).getNeighbors i).isEmpty = true
    · rw [if_pos hn]
      rw [List.isEmpty_iff.mp hn]
      simp only [List.map_nil, List.sum_nil, add_zero]
      field_simp
    · rw [if_neg hn]
  rw [hval]
  refine ⟨?_, ?_⟩
  · intro hb
    unfold averagePressureOf
    rw [if_pos hb]
  · intro hb
    have hlo : ∀ lo, lo ≤ s.pressure i →
        (∀ j ∈ (averagePressureGrid E s).getNeighbors i, lo ≤ s.pressure j) →
        lo ≤ averagePressureOf E (averagePressureGrid E s) s i := by
      intro lo h0 hn
      rw [hmean hb, le_div_iff₀ hD]
      have h1 := weighted_sum_lower _ s.pressure (fun j => averagePressureWeight E s i j)
        lo (fun j _ => hw j) hn
      have h2 := mul_le_mul_of_nonneg_right h0 hw0.le
      linarith
    have hup : ∀ hi, s.pressure i ≤ hi →
        (∀ j ∈ (averagePressureGrid E s).getNeighbors i, s.pressure j ≤ hi) →
        averagePressureOf E (averagePressureGrid E s) s i ≤ hi := by
      intro up h0 hn
      rw [hmean hb, div_le_iff₀ hD]
      have h1 := weighted_sum_upper _ s.pressure (fun j => averagePressureWeight E s i j)
        up (fun j _ => hw j) hn
      have h2 := mul_le_mul_of_nonneg_right h0 hw0.le
      linarith
    refine ⟨⟨hw0, hw, hmean hb⟩, hlo, hup, ?_, ?_⟩
    · intro hn
      unfold averagePressureOf
      rw [if_neg hb, hn]
      simp
    · intro hall
      exact le_antisymm (hup _ le_rfl (fun j hj => (hall j hj).le))
        (hlo _ le_rfl (fun j hj => (hall j hj).ge))

/-- Witness for C20 on the example state: particle `0` and its neighbours share the
pressure `100`, which is its average pressure. -/
theorem calculateAveragePressure_convex_witness :
    (0 < exampleParticles.condition_.pnd_weight_radius
        ∧ (∀ x, 0 ≤ exampleExternals.sqrt x) ∧ 0 < exampleParticles.size)
      ∧ (calculateAveragePressure exampleExternals exampleParticles).average_pressure 0
        = 100 := by
  have hR : 0 < exampleParticles.condition_.pnd_weight_radius := by
    norm_num [exampleParticles, exampleCondition]
  have hsqrt : ∀ x, 0 ≤ exampleExternals.sqrt x := fun x => Nat.cast_nonneg _
  have hb : exampleParticles.boundary_types 0 ≠ BoundaryType.OTHERS := by
    simp [exampleParticles]
  exact ⟨⟨hR, hsqrt, by decide⟩,
    ((calculateAveragePressure_convex exampleExternals exampleParticles hR hsqrt 0
      (by decide)).2 hb).2.2.2.2 (fun _ _ => rfl)⟩

/-! ## Velocity correction -/

/-- Subtracting the zero vector changes nothing. -/
theorem Vector3d_sub_zero (v : Vector3d) : v.sub Vector3d.zero = v := by
  cases v
  simp [Vector3d.sub, Vector3d.zero]

/-- Adding the zero vector changes nothing. -/
theorem Vector3d_add_zero (v : Vector3d) : v.add Vector3d.zero = v := by
  cases v
  simp [Vector3d.add, Vector3d.zero]

/-- One step of `correctVelocityDuan` subtracts `velocityCorrection` from entry `i` of
`correction_velocity`, and does nothing else. -/
theorem correctVelocityDuanStep_eq (E : Externals) (W : Vector3d → ℚ) (grid : Grid)
    (delta_time : ℚ) (s : BubbleParticles) (i : ℕ) :
    correctVelocityDuanStep E W grid delta_time s i
      = { s with correction_velocity := (Function.update s.correction_velocity i
            ((s.correction_velocity i).sub (velocityCorrection E W grid delta_time s i))) } := by
  unfold correctVelocityDuanStep velocityCorrection
  by_cases hp : s.particle_types i ≠ ParticleType.NORMAL
  · simp only [if_pos hp, Vector3d_sub_zero, Function.update_eq_self]
  · simp only [if_neg hp]
    by_cases hb : s.boundary_types i = BoundaryType.OTHERS
    · simp only [if_pos hb, Vector3d_sub_zero, Function.update_eq_self]
    · simp only [if_neg hb]
      by_cases hf : s.free_surface_type i = SurfaceLayer.INNER_SURFACE
      · simp only [if_pos hf]
      · simp only [if_neg hf]
        split_ifs <;> rfl

/-- The loop of `correctVelocityDuan` over the first `n` particles, in closed form. -/
theorem correctVelocityDuanStep_foldl (E : Externals) (W : Vector3d → ℚ) (grid : Grid)
    (delta_time : ℚ) (s : BubbleParticles) (n : ℕ) :
    (List.range n).foldl (correctVelocityDuanStep E W grid delta_time) s
      = { s with correction_velocity := fun k =>
            if k < n then
              (s.correction_velocity k).sub (velocityCorrection E W grid delta_time s k)
            else s.correction_velocity k } := by
  induction n with
  | zero => simp
  | succ n ih =>
    rw [List.range_succ, List.foldl_append, ih, List.foldl_cons, List.foldl_nil,
      correctVelocityDuanStep_eq]
    show { s with correction_velocity := (Function.update
        (fun k => if k < n then
            (s.correction_velocity k).sub (velocityCorrection E W grid delta_time s k)
          else s.correction_velocity k) n
        ((if n < n then
            (s.correction_velocity n).sub (velocityCorrection E W grid delta_time s n)
          else s.correction_velocity n).sub
          (velocityCorrection E W grid delta_time s n))) } = _
    rw [if_neg (lt_irrefl n)]
    exact congrArg (fun F => { s with correction_velocity := F })
      (update_below s.correction_velocity
        (fun k => (s.correction_velocity k).sub (velocityCorrection E W grid delta_time s k))
        n)

/-- The arrays that `correctVelocityDuan` writes, in closed form: the correction of a
particle is minus its `velocityCorrection`, and the temporary velocity is moved by the
correction. -/
theorem correctVelocityDuan_eq {τ : Type} (E : Externals) (W : Vector3d → ℚ)
    (T : TimerOps τ) (timer : τ) (s : BubbleParticles) :
    (correctVelocityDuan E W T timer s).correction_velocity
        = (fun k => if k < s.size then
            Vector3d.zero.sub
              (velocityCorrection E W (gradientGrid E s) (T.getCurrentDeltaTime timer) s k)
          else Vector3d.zero)
      ∧ (correctVelocityDuan E W T timer s).temporary_velocity
        = fun k => (s.temporary_velocity k).add
            ((correctVelocityDuan E W T timer s).correction_velocity k) := by
  unfold correctVelocityDuan
  simp only [correctVelocityDuanStep_foldl]
  exact ⟨rfl, trivial⟩

/-- The correction that `correctVelocityDuan` subtracts for particle `0` of the example
state with a pressure step, a NORMAL particle on the free surface: the tensor is singular,
so the fall-back formula gives `(1/30, 0, 0)`. -/
theorem velocityCorrection_pressureStep :
    velocityCorrection exampleExternals exampleGradientWeight
        (gradientGrid exampleExternals pressureStepParticles) 1 pressureStepParticles 0
      = ⟨1 / 30, 0, 0⟩ := by
  have hs0 : exampleSqrt 0 = 0 := by simp [exampleSqrt]
  have hs1 : exampleSqrt 1 = 1 := by simp [exampleSqrt]
  simp [velocityCorrection, pressureStepParticles, exampleParticles, gradientGrid,
    exampleExternals, exampleGrid, exampleGradientWeight, tensorNeighbor,
    pressureRangeNeighbor, Vector3d.sub, Vector3d.smul, Vector3d.sdiv, Vector3d.add,
    Vector3d.zero, Vector3d.squaredNorm, Vector3d.dot, Vector3d.norm, Vector3d.normalized,
    Matrix3d.zero, Matrix3d.determinant, exampleCondition, hs0, hs1]
  norm_num

/-- C15 (amended): `correctVelocityDuan` leaves alone exactly the particles that its loop
skips, those whose type is not NORMAL or whose boundary type is OTHERS: for each of them
`correction_velocity(i)` is zero and `temporary_velocity(i)` is unchanged; for every
particle `temporary_velocity` after the call is `temporary_velocity` before it plus
`correction_velocity`; and every NORMAL particle whose boundary type is not OTHERS, a
SURFACE one included, gets minus the gradient sum of its branch as correction. -/
theorem correctVelocityDuan_frame {τ : Type} (E : Externals) (W : Vector3d → ℚ)
    (T : TimerOps τ) (timer : τ) (s : BubbleParticles) :
    (∀ i, (correctVelocityDuan E W T timer s).temporary_velocity i
        = (s.temporary_velocity i).add
            ((correctVelocityDuan E W T timer s).correction_velocity i))
      ∧ (∀ i, (s.particle_types i ≠ ParticleType.NORMAL
            ∨ s.boundary_types i = BoundaryType.OTHERS) →
          (correctVelocityDuan E W T timer s).correction_velocity i = Vector3d.zero
            ∧ (correctVelocityDuan E W T timer s).temporary_velocity i
              = s.temporary_velocity i)
      ∧ (∀ i, i < s.size → s.particle_types i = ParticleType.NORMAL →
          s.boundary_types i ≠ BoundaryType.OTHERS →
          (correctVelocityDuan E W T timer s).correction_velocity i
            = Vector3d.zero.sub
                (velocityCorrection E W (gradientGrid E s) (T.getCurrentDeltaTime timer)
                  s i)) := by
  obtain ⟨hcv, htv⟩ := correctVelocityDuan_eq E W T timer s
  have hskip : ∀ i, (s.particle_types i ≠ ParticleType.NORMAL
        ∨ s.boundary_types i = BoundaryType.OTHERS) →
      (correctVelocityDuan E W T timer s).correction_velocity i = Vector3d.zero := by
    intro i h
    have hvc : velocityCorrection E W (gradientGrid E s) (T.getCurrentDeltaTime timer) s i
        = Vector3d.zero := by
      unfold velocityCorrection
      by_cases hp : s.particle_types i ≠ ParticleType.NORMAL
      · rw [if_pos hp]
      · rw [if_neg hp]
        rcases h with h | h
        · exact absurd h hp
        · rw [if_pos h]
    rw [hcv]
    simp only [hvc, Vector3d_sub_zero, ite_self]
  refine ⟨?_, ?_, ?_⟩
  · intro i
    rw [htv]
  · intro i h
    refine ⟨hskip i h, ?_⟩
    rw [htv]
    simp only [hskip i h, Vector3d_add_zero]
  · intro i hi _ _
    rw [hcv]
    simp only [hi, if_true]

/-- Counterexample to C15 as stated: in the example state with a pressure step, particle
`0` has boundary type SURFACE and layer OUTER_SURFACE, and `correctVelocityDuan` gives it
the correction `(-1/30, 0, 0)` and moves its temporary velocity. -/
theorem correctVelocityDuan_corrects_surface :
    pressureStepParticles.boundary_types 0 = BoundaryType.SURFACE
      ∧ pressureStepParticles.free_surface_type 0 = SurfaceLayer.OUTER_SURFACE
      ∧ (correctVelocityDuan exampleExternals exampleGradientWeight exampleTimerOps
          exampleTimerValue pressureStepParticles).correction_velocity 0 = ⟨-1 / 30, 0, 0⟩
      ∧ (correctVelocityDuan exampleExternals exampleGradientWeight exampleTimerOps
          exampleTimerValue pressureStepParticles).correction_velocity 0 ≠ Vector3d.zero
      ∧ (correctVelocityDuan exampleExternals exampleGradientWeight exampleTimerOps
          exampleTimerValue pressureStepParticles).temporary_velocity 0
        ≠ pressureStepParticles.temporary_velocity 0 := by
  obtain ⟨hcv, htv⟩ := correctVelocityDuan_eq exampleExternals exampleGradientWeight
    exampleTimerOps exampleTimerValue pressureStepParticles
  have hdt : exampleTimerOps.getCurrentDeltaTime exampleTimerValue = 1 := rfl
  have hsize : (0 : ℕ) < pressureStepParticles.size := by decide
  have h0 : (correctVelocityDuan exampleExternals exampleGradientWeight exampleTimerOps
      exampleTimerValue pressureStepParticles).correction_velocity 0 = ⟨-1 / 30, 0, 0⟩ := by
    rw [hcv]
    simp only [hsize, if_true, hdt, velocityCorrection_pressureStep]
    norm_num [Vector3d.sub, Vector3d.zero]
  have htv0 : pressureStepParticles.temporary_velocity 0 = Vector3d.zero := rfl
  refine ⟨by simp [pressureStepParticles, exampleParticles],
    by simp [pressureStepParticles, exampleParticles], h0, ?_, ?_⟩
  · rw [h0]
    intro h
    have hx := congrArg Vector3d.x h
    norm_num [Vector3d.zero] at hx
  · rw [htv]
    simp only [h0, htv0]
    intro h
    have hx := congrArg Vector3d.x h
    norm_num [Vector3d.zero, Vector3d.add] at hx

/-- Witness for C15 (amended) on the example state: particle `3` is a GHOST particle of
boundary type OTHERS, so it gets no correction. -/
theorem correctVelocityDuan_frame_witness :
    (exampleParticles.particle_types 3 ≠ ParticleType.NORMAL
        ∨ exampleParticles.boundary_types 3 = BoundaryType.OTHERS)
      ∧ (correctVelocityDuan exampleExternals exampleGradientWeight exampleTimerOps
            exampleTimerValue exampleParticles).correction_velocity 3 = Vector3d.zero
      ∧ (correctVelocityDuan exampleExternals exampleGradientWeight exampleTimerOps
            exampleTimerValue exampleParticles).temporary_velocity 3
          = exampleParticles.temporary_velocity 3 :=
  have h : exampleParticles.particle_types 3 ≠ ParticleType.NORMAL
      ∨ exampleParticles.boundary_types 3 = BoundaryType.OTHERS :=
    Or.inr (by simp [exampleParticles])
  ⟨h, (correctVelocityDuan_frame exampleExternals exampleGradientWeight exampleTimerOps
    exampleTimerValue exampleParticles).2.1 3 h⟩

/-- In a planar configuration the tensor sum keeps the entries `(2,0)` and `(2,1)` at
zero. -/
theorem tensorNeighbor_foldl_planar (E : Externals) (W : Vector3d → ℚ) (s : BubbleParticles)
    (i : ℕ) (p_min p_max : ℚ) (l : List ℕ) (acc : Matrix3d × Vector3d)
    (hl : ∀ j ∈ l, (s.temporary_position j).z = (s.temporary_position i).z)
    (h0 : acc.1.m20 = 0 ∧ acc.1.m21 = 0) :
    (l.foldl (tensorNeighbor E W s i p_min p_max) acc).1.m20 = 0
      ∧ (l.foldl (tensorNeighbor E W s i p_min p_max) acc).1.m21 = 0 := by
  induction l generalizing acc with
  | nil => exact h0
  | cons j l ih =>
    rw [List.foldl_cons]
    apply ih _ (fun k hk => hl k (List.mem_cons_of_mem _ hk))
    unfold tensorNeighbor
    by_cases hb : s.boundary_types j = BoundaryType.OTHERS
    · rw [if_pos hb]
      exact h0
    · rw [if_neg hb]
      have hz : (((s.temporary_position j).sub (s.temporary_position i)).normalized
          E.sqrt).z = 0 := by
        have hr : ((s.temporary_position j).sub (s.temporary_position i)).z = 0 := by
          simp only [Vector3d.sub]
          rw [hl j (List.mem_cons_self _ _)]
          ring
        unfold Vector3d.normalized
        split_ifs
        · simp only [Vector3d.sdiv, hr, zero_div]
        · exact hr
      simp only [hz, h0.1, h0.2, zero_mul, zero_div, add_zero, and_self]

/-- C18: in a 2-D run (`dimension = 2`) in which every `temporary_position` has `z = 0`
(the grid naming only particles of the set as neighbours), `correctVelocityDuan` yields a
`correction_velocity` whose z component is `0` for every particle, whichever branch the
particle takes, and leaves the z component of every `temporary_velocity` unchanged. -/
theorem correctVelocityDuan_planar {τ : Type} (E : Externals) (W : Vector3d → ℚ)
    (T : TimerOps τ) (timer : τ) (s : BubbleParticles) (hdim : s.dimension = 2)
    (hz : ∀ k, k < s.size → (s.temporary_position k).z = 0)
    (hgrid : ∀ i, i < s.size → ∀ j ∈ (gradientGrid E s).getNeighbors i, j < s.size)
    (i : ℕ) :
    ((correctVelocityDuan E W T timer s).correction_velocity i).z = 0
      ∧ ((correctVelocityDuan E W T timer s).temporary_velocity i).z
        = (s.temporary_velocity i).z := by
  obtain ⟨hcv, htv⟩ := correctVelocityDuan_eq E W T timer s
  have hvc : i < s.size →
      (velocityCorrection E W (gradientGrid E s) (T.getCurrentDeltaTime timer) s i).z
        = 0 := by
    intro hi
    unfold velocityCorrection
    simp only [hdim, if_true]
    by_cases hp : s.particle_types i ≠ ParticleType.NORMAL
    · rw [if_pos hp]; rfl
    · rw [if_neg hp]
      by_cases hb : s.boundary_types i = BoundaryType.OTHERS
      · rw [if_pos hb]; rfl
      · rw [if_neg hb]
        by_cases hf : s.free_surface_type i = SurfaceLayer.INNER_SURFACE
        · rw [if_pos hf]
          simp only [Vector3d.smul, Vector3d.sdiv, zero_mul, zero_div]
        · rw [if_neg hf]
          have hpl := tensorNeighbor_foldl_planar E W s i
            (((gradientGrid E s).getNeighbors i).foldl (pressureRangeNeighbor s)
              (s.pressure i, s.pressure i)).1
            (((gradientGrid E s).getNeighbors i).foldl (pressureRangeNeighbor s)
              (s.pressure i, s.pressure i)).2
            ((gradientGrid E s).getNeighbors i) (Matrix3d.zero, Vector3d.zero)
            (fun j hj => by rw [hz j (hgrid i hi j hj), hz i hi]) ⟨rfl, rfl⟩
          split_ifs
          · simp only [Vector3d.smul, Vector3d.sdiv, Matrix3d.mulVec, Matrix3d.inverse,
              hpl.1, hpl.2, mul_zero, zero_mul, sub_zero, add_zero, zero_div]
          · simp only [Vector3d.smul, Vector3d.sdiv, zero_mul, zero_div]
  have hc : ((correctVelocityDuan E W T timer s).correction_velocity i).z = 0 := by
    rw [hcv]
    by_cases hi : i < s.size
    · simp only [hi, if_true, Vector3d.sub, Vector3d.zero, hvc hi, sub_zero]
    · simp only [hi, if_false, Vector3d.zero]
  refine ⟨hc, ?_⟩
  rw [htv]
  simp only [Vector3d.add, hc, add_zero]

/-- Witness for C18 on the example state with a pressure step, a planar 2-D
configuration: the correction of particle `0` has no z component. -/
theorem correctVelocityDuan_planar_witness :
    (pressureStepParticles.dimension = 2
        ∧ (∀ k, k < pressureStepParticles.size →
            (pressureStepParticles.temporary_position k).z = 0)
        ∧ (∀ i, i < pressureStepParticles.size →
            ∀ j ∈ (gradientGrid exampleExternals pressureStepParticles).getNeighbors i,
              j < pressureStepParticles.size))
      ∧ ((correctVelocityDuan exampleExternals exampleGradientWeight exampleTimerOps
            exampleTimerValue pressureStepParticles).correction_velocity 0).z = 0
      ∧ ((correctVelocityDuan exampleExternals exampleGradientWeight exampleTimerOps
            exampleTimerValue pressureStepParticles).temporary_velocity 0).z
          = (pressureStepParticles.temporary_velocity 0).z := by
  have hdim : pressureStepParticles.dimension = 2 := rfl
  have hz : ∀ k, k < pressureStepParticles.size →
      (pressureStepParticles.temporary_position k).z = 0 := by
    intro k _
    simp only [pressureStepParticles, exampleParticles]
    split_ifs <;> rfl
  have hgrid : ∀ i, i < pressureStepParticles.size →
      ∀ j ∈ (gradientGrid exampleExternals pressureStepParticles).getNeighbors i,
        j < pressureStepParticles.size := by
    intro i _ j hj
    have hsz : pressureStepParticles.size = 4 := rfl
    rw [hsz]
    simp only [gradientGrid, exampleExternals, exampleGrid] at hj
    split_ifs at hj <;> simp at hj <;> omega
  exact ⟨⟨hdim, hz, hgrid⟩,
    correctVelocityDuan_planar exampleExternals exampleGradientWeight exampleTimerOps
      exampleTimerValue pressureStepParticles hdim hz hgrid 0⟩

/-! ## Agreement of the two classifications -/

/-- A property of the state that every step of a loop keeps holds after the loop. -/
theorem foldl_keeps {α β : Type} (P : α → Prop) (f : α → β → α)
    (h : ∀ a b, P a → P (f a b)) (l : List β) (a : α) (ha : P a) : P (l.foldl f a) := by
  induction l generalizing a with
  | nil => exact ha
  | cons b l ih => exact ih (f a b) (h a b ha)

/-- What `layersAgree` says, as the three equivalences. -/
theorem layersAgree_iff (b : BoundaryType) (l : SurfaceLayer) (h : layersAgree b l = true) :
    (b = BoundaryType.OTHERS ↔ l = SurfaceLayer.OTHERS)
      ∧ (b = BoundaryType.SURFACE ↔ l = SurfaceLayer.OUTER_SURFACE)
      ∧ (b = BoundaryType.INNER ↔ (l = SurfaceLayer.INNER ∨ l = SurfaceLayer.INNER_SURFACE)) := by
  cases b <;> cases l <;> simp_all [layersAgree]

/-- A first step, of either variant, makes the two classifications of its particle agree
and leaves the other particles alone. -/
theorem firstStep_agree (s : BubbleParticles) (n i : ℕ) :
    (layersAgree ((checkSurfaceFirstStep s n).boundary_types n)
          ((checkSurfaceFirstStep s n).free_surface_type n) = true
        ∧ layersAgree ((checkSurface2FirstStep s n).boundary_types n)
          ((checkSurface2FirstStep s n).free_surface_type n) = true)
      ∧ (i ≠ n →
          ((checkSurfaceFirstStep s n).boundary_types i = s.boundary_types i
            ∧ (checkSurfaceFirstStep s n).free_surface_type i = s.free_surface_type i)
          ∧ ((checkSurface2FirstStep s n).boundary_types i = s.boundary_types i
            ∧ (checkSurface2FirstStep s n).free_surface_type i = s.free_surface_type i)) := by
  refine ⟨⟨?_, ?_⟩, fun hne => ⟨⟨?_, ?_⟩, ?_, ?_⟩⟩
  · unfold checkSurfaceFirstStep
    split_ifs <;> simp [layersAgree]
  · unfold checkSurface2FirstStep
    split_ifs <;> simp [layersAgree]
  · unfold checkSurfaceFirstStep
    split_ifs <;> simp [Function.update_noteq hne]
  · unfold checkSurfaceFirstStep
    split_ifs <;> simp [Function.update_noteq hne]
  · unfold checkSurface2FirstStep
    split_ifs <;> simp [Function.update_noteq hne]
  · unfold checkSurface2FirstStep
    split_ifs <;> simp [Function.update_noteq hne]

/-- After the first loop over the first `n` particles, of either variant, the two
classifications agree on each of them. -/
theorem firstLoop_agree (s : BubbleParticles) (n i : ℕ) (hi : i < n) :
    layersAgree (((List.range n).foldl checkSurfaceFirstStep s).boundary_types i)
        (((List.range n).foldl checkSurfaceFirstStep s).free_surface_type i) = true
      ∧ layersAgree (((List.range n).foldl checkSurface2FirstStep s).boundary_types i)
        (((List.range n).foldl checkSurface2FirstStep s).free_surface_type i) = true := by
  induction n with
  | zero => exact absurd hi (Nat.not_lt_zero i)
  | succ n ih =>
    rw [List.range_succ, List.foldl_append, List.foldl_append]
    simp only [List.foldl_cons, List.foldl_nil]
    by_cases hn : i = n
    · subst hn
      exact ⟨(firstStep_agree _ i i).1.1, (firstStep_agree _ i i).1.2⟩
    · have hlt : i < n := by omega
      have h1 := (firstStep_agree ((List.range n).foldl checkSurfaceFirstStep s) n i).2 hn
      have h2 := (firstStep_agree ((List.range n).foldl checkSurface2FirstStep s) n i).2 hn
      rw [h1.1.1, h1.1.2, h2.2.1, h2.2.2]
      exact ih hlt

/-- A second step, of either variant, keeps the agreement at every particle. -/
theorem secondStep_agree (E : Externals) (grid : Grid) (s : BubbleParticles) (n i : ℕ)
    (h : layersAgree (s.boundary_types i) (s.free_surface_type i) = true) :
    layersAgree ((checkSurfaceSecondStep E grid s n).boundary_types i)
          ((checkSurfaceSecondStep E grid s n).free_surface_type i) = true
      ∧ layersAgree ((checkSurface2SecondStep E grid s n).boundary_types i)
          ((checkSurface2SecondStep E grid s n).free_surface_type i) = true := by
  constructor
  · unfold checkSurfaceSecondStep
    dsimp only
    split_ifs
    · exact h
    · by_cases hn : i = n
      · subst hn
        simp [layersAgree]
      · simp only [Function.update_noteq hn]
        exact h
    · exact h
    · exact h
  · unfold checkSurface2SecondStep
    dsimp only
    split_ifs <;> exact h

/-- Marking a neighbour keeps the agreement at every particle. -/
theorem markInnerSurface_agree (s : BubbleParticles) (j i : ℕ)
    (h : layersAgree (s.boundary_types i) (s.free_surface_type i) = true) :
    layersAgree ((markInnerSurface s j).boundary_types i)
      ((markInnerSurface s j).free_surface_type i) = true := by
  unfold markInnerSurface
  split_ifs with hc
  · by_cases hj : i = j
    · subst hj
      simp [hc.1, layersAgree]
    · simp only [Function.update_noteq hj]
      exact h
  · exact h

/-- A third step keeps the agreement at every particle. -/
theorem thirdStep_agree (grid : Grid) (s : BubbleParticles) (n i : ℕ)
    (h : layersAgree (s.boundary_types i) (s.free_surface_type i) = true) :
    layersAgree ((checkSurfaceThirdStep grid s n).boundary_types i)
      ((checkSurfaceThirdStep grid s n).free_surface_type i) = true := by
  unfold checkSurfaceThirdStep
  dsimp only
  split_ifs
  · exact h
  · exact foldl_keeps
      (fun t => layersAgree (t.boundary_types i) (t.free_surface_type i) = true)
      markInnerSurface (fun a b ha => markInnerSurface_agree a b i ha) _ s h
  · exact h

/-- After `checkSurface`, and after `checkSurface2`, the two classifications of every
particle agree. -/
theorem checkSurface_layersAgree (E : Externals) (s : BubbleParticles) (i : ℕ)
    (hi : i < s.size) :
    layersAgree ((checkSurface E s).boundary_types i)
        ((checkSurface E s).free_surface_type i) = true
      ∧ layersAgree ((checkSurface2 E s).boundary_types i)
        ((checkSurface2 E s).free_surface_type i) = true := by
  have h1 := firstLoop_agree s s.size i hi
  constructor
  · unfold checkSurface checkSurfaceThird checkSurfaceSecond
    apply foldl_keeps
      (fun t => layersAgree (t.boundary_types i) (t.free_surface_type i) = true)
      _ (fun a b ha => thirdStep_agree _ a b i ha)
    apply foldl_keeps
      (fun t => layersAgree (t.boundary_types i) (t.free_surface_type i) = true)
      _ (fun a b ha => (secondStep_agree E _ a b i ha).1)
    exact h1.1
  · unfold checkSurface2 checkSurfaceThird checkSurface2Second
    apply foldl_keeps
      (fun t => layersAgree (t.boundary_types i) (t.free_surface_type i) = true)
      _ (fun a b ha => thirdStep_agree _ a b i ha)
    apply foldl_keeps
      (fun t => layersAgree (t.boundary_types i) (t.free_surface_type i) = true)
      _ (fun a b ha => (secondStep_agree E _ a b i ha).2)
    exact h1.2

/-- C21: after `checkSurface`, and likewise after `checkSurface2`, the two classifications
agree for every particle: its boundary type is OTHERS if and only if its layer is OTHERS,
SURFACE if and only if its layer is OUTER_SURFACE, and INNER if and only if its layer is
INNER or INNER_SURFACE. -/
theorem classifications_agree (E : Externals) (s : BubbleParticles) (i : ℕ)
    (hi : i < s.size) :
    (((checkSurface E s).boundary_types i = BoundaryType.OTHERS
          ↔ (checkSurface E s).free_surface_type i = SurfaceLayer.OTHERS)
        ∧ ((checkSurface E s).boundary_types i = BoundaryType.SURFACE
          ↔ (checkSurface E s).free_surface_type i = SurfaceLayer.OUTER_SURFACE)
        ∧ ((checkSurface E s).boundary_types i = BoundaryType.INNER
          ↔ ((checkSurface E s).free_surface_type i = SurfaceLayer.INNER
            ∨ (checkSurface E s).free_surface_type i = SurfaceLayer.INNER_SURFACE)))
      ∧ (((checkSurface2 E s).boundary_types i = BoundaryType.OTHERS
          ↔ (checkSurface2 E s).free_surface_type i = SurfaceLayer.OTHERS)
        ∧ ((checkSurface2 E s).boundary_types i = BoundaryType.SURFACE
          ↔ (checkSurface2 E s).free_surface_type i = SurfaceLayer.OUTER_SURFACE)
        ∧ ((checkSurface2 E s).boundary_types i = BoundaryType.INNER
          ↔ ((checkSurface2 E s).free_surface_type i = SurfaceLayer.INNER
            ∨ (checkSurface2 E s).free_surface_type i = SurfaceLayer.INNER_SURFACE))) :=
  ⟨layersAgree_iff _ _ (checkSurface_layersAgree E s i hi).1,
    layersAgree_iff _ _ (checkSurface_layersAgree E s i hi).2⟩

/-- Witness for C21 on the example state, particle `0`. -/
theorem classifications_agree_witness :
    0 < exampleParticles.size
      ∧ ((checkSurface exampleExternals exampleParticles).boundary_types 0
          = BoundaryType.SURFACE
        ↔ (checkSurface exampleExternals exampleParticles).free_surface_type 0
          = SurfaceLayer.OUTER_SURFACE)
      ∧ ((checkSurface2 exampleExternals exampleParticles).boundary_types 0
          = BoundaryType.SURFACE
        ↔ (checkSurface2 exampleExternals exampleParticles).free_surface_type 0
          = SurfaceLayer.OUTER_SURFACE) :=
  ⟨by decide,
    (classifications_agree exampleExternals exampleParticles 0 (by decide)).1.2.1,
    (classifications_agree exampleExternals exampleParticles 0 (by decide)).2.2.1⟩

/-! ## Average grid: allocation -/

/-- The loop of lines 614-616 over the first `n` indices: it writes `n` zeros when the
vector has at least `n` elements, and otherwise its first write outside of the vector is
the one at index `size()`. -/
theorem assignLoop_eq (v : StdVector) (n : ℕ) :
    (List.range n).foldlM (fun (v : StdVector) (i : ℕ) => v.assign (i : ℤ) 0) v
      = if n ≤ v.size then
          Except.ok { v with elems := fun k => if k < n then 0 else v.elems k }
        else Except.error (StorageFault.out_of_bounds (v.size : ℤ) v.size) := by
  induction n with
  | zero =>
    simp
    rfl
  | succ n ih =>
    rw [List.range_succ, List.foldlM_append, ih]
    by_cases h1 : n + 1 ≤ v.size
    · have h0 : n ≤ v.size := by omega
      have hlt : (0 : ℤ) ≤ (n : ℤ) ∧ (n : ℤ) < (v.size : ℤ) := by omega
      rw [if_pos h0, if_pos h1]
      simp only [bind, Except.bind, List.foldlM_cons, List.foldlM_nil, StdVector.assign,
        if_pos hlt, pure, Except.pure, Int.toNat_ofNat]
      rw [update_below v.elems (fun _ => 0) n]
    · rw [if_neg h1]
      by_cases h0 : n ≤ v.size
      · have hn : n = v.size := by omega
        have hlt : ¬ ((0 : ℤ) ≤ (n : ℤ) ∧ (n : ℤ) < (v.size : ℤ)) := by omega
        rw [if_pos h0]
        simp only [bind, Except.bind, List.foldlM_cons, List.foldlM_nil, StdVector.assign,
          if_neg hlt]
        rw [hn]
      · rw [if_neg h0]
        rfl

/-- Truncation after adding one to a double that is not negative. -/
theorem truncToInt_add_one (x : ℚ) (hx : 0 ≤ x) :
    truncToInt (x + 1) = truncToInt x + 1 ∧ 1 ≤ truncToInt (x + 1) := by
  have h1 : (0 : ℚ) ≤ x + 1 := by linarith
  have hf : (0 : ℤ) ≤ ⌊x⌋ := Int.floor_nonneg.mpr hx
  unfold truncToInt
  rw [if_pos h1, if_pos hx, Int.floor_add_one]
  exact ⟨rfl, by omega⟩

/-- The index arithmetic of lines 375-378 and 636-639: a cell that passes the two range
checks has an index below `grid_w * grid_h`. -/
theorem cell_index_in_range (grid_w grid_h ix iy : ℤ) (hx0 : 0 ≤ ix) (hx1 : ix < grid_w)
    (hy0 : 0 ≤ iy) (hy1 : iy < grid_h) :
    0 ≤ ix + iy * grid_w ∧ ix + iy * grid_w < grid_w * grid_h := by
  have hw : 0 ≤ grid_w := by omega
  constructor
  · nlinarith [mul_nonneg hy0 hw]
  · have h : (iy + 1) * grid_w ≤ grid_h * grid_w :=
      mul_le_mul_of_nonneg_right (by omega) hw
    nlinarith

/-- What `initAverageGrid(min_pos, max_pos)` does, for `max_pos ≥ min_pos` in x and y and
`average_distance > 0`: both extents are `trunc(...) + 1 ≥ 1`; on a vector with fewer than
`grid_w * grid_h` elements the loop writes outside of the vector, first at index
`size()`, since `reserve` does not change `size()`; on a vector that already has that many
elements the call sets the first `grid_w * grid_h` of them to zero and leaves `size()` as
it is. -/
theorem initAverageGrid_outcome (c : BubbleCondition) (min_pos max_pos : Vector3d)
    (st : AverageGridStorage) (hx : min_pos.x ≤ max_pos.x) (hy : min_pos.y ≤ max_pos.y)
    (hl : 0 < c.average_distance) :
    (1 ≤ claimedGridExtent c min_pos.x max_pos.x
        ∧ 1 ≤ claimedGridExtent c min_pos.y max_pos.y)
      ∧ (st.average_grid.size
            < (claimedGridExtent c min_pos.x max_pos.x
                * claimedGridExtent c min_pos.y max_pos.y).toNat →
          initAverageGrid c min_pos max_pos st
            = Except.error
                (StorageFault.out_of_bounds (st.average_grid.size : ℤ) st.average_grid.size))
      ∧ ((claimedGridExtent c min_pos.x max_pos.x
              * claimedGridExtent c min_pos.y max_pos.y).toNat ≤ st.average_grid.size →
          initAverageGrid c min_pos max_pos st
            = Except.ok
                { grid_min_pos := min_pos
                  grid_max_pos := max_pos
                  grid_w := claimedGridExtent c min_pos.x max_pos.x
                  grid_h := claimedGridExtent c min_pos.y max_pos.y
                  average_grid :=
                    { size := st.average_grid.size
                      capacity := max st.average_grid.capacity
                        (claimedGridExtent c min_pos.x max_pos.x
                          * claimedGridExtent c min_pos.y max_pos.y).toNat
                      elems := fun k =>
                        if k < (claimedGridExtent c min_pos.x max_pos.x
                            * claimedGridExtent c min_pos.y max_pos.y).toNat then 0
                        else st.average_grid.elems k } }) := by
  have hqx : 0 ≤ (max_pos.x - min_pos.x) / c.average_distance :=
    div_nonneg (by linarith) hl.le
  have hqy : 0 ≤ (max_pos.y - min_pos.y) / c.average_distance :=
    div_nonneg (by linarith) hl.le
  have hw := truncToInt_add_one _ hqx
  have hh := truncToInt_add_one _ hqy
  have hw1 : 1 ≤ claimedGridExtent c min_pos.x max_pos.x := by
    unfold claimedGridExtent
    rw [← hw.1]
    exact hw.2
  have hh1 : 1 ≤ claimedGridExtent c min_pos.y max_pos.y := by
    unfold claimedGridExtent
    rw [← hh.1]
    exact hh.2
  have hprod : ¬ claimedGridExtent c min_pos.x max_pos.x
      * claimedGridExtent c min_pos.y max_pos.y < 0 := by
    have := mul_nonneg (by omega : (0 : ℤ) ≤ claimedGridExtent c min_pos.x max_pos.x)
      (by omega : (0 : ℤ) ≤ claimedGridExtent c min_pos.y max_pos.y)
    omega
  have hcall : initAverageGrid c min_pos max_pos st
      = ((List.range (claimedGridExtent c min_pos.x max_pos.x
            * claimedGridExtent c min_pos.y max_pos.y).toNat).foldlM
          (fun (v : StdVector) (i : ℕ) => v.assign (i : ℤ) 0)
          { st.average_grid with
            capacity := max st.average_grid.capacity
              (claimedGridExtent c min_pos.x max_pos.x
                * claimedGridExtent c min_pos.y max_pos.y).toNat }).bind
        fun average_grid =>
          Except.ok
            { grid_min_pos := min_pos
              grid_max_pos := max_pos
              grid_w := claimedGridExtent c min_pos.x max_pos.x
              grid_h := claimedGridExtent c min_pos.y max_pos.y
              average_grid := average_grid } := by
    unfold initAverageGrid
    simp only [Vector3d.sub, hw.1, hh.1]
    unfold claimedGridExtent at hprod ⊢
    simp only [StdVector.reserve, if_neg hprod, Except.bind]
  refine ⟨⟨hw1, hh1⟩, ?_, ?_⟩
  · intro hlt
    rw [hcall, assignLoop_eq]
    have : ¬ (claimedGridExtent c min_pos.x max_pos.x
        * claimedGridExtent c min_pos.y max_pos.y).toNat ≤ st.average_grid.size := by omega
    simp only [this, if_false, Except.bind]
  · intro hle
    rw [hcall, assignLoop_eq]
    simp only [hle, if_true, Except.bind]

/-- C22, evaluated on an object that has just been constructed, with
`average_distance = 1`, `min_pos = (0,0,0)` and `max_pos = (1,1,0)`: the extents are
`2` and `2`, `reserve(4)` leaves `size() = 0`, and the first assignment of the loop,
`average_grid[0] = 0`, is outside of the vector. -/
theorem initAverageGrid_fresh_vector :
    claimedGridExtent exampleCondition 0 1 = 2
      ∧ (freshAverageGrid.average_grid.reserve 4).map StdVector.size = Except.ok 0
      ∧ initAverageGrid exampleCondition ⟨0, 0, 0⟩ ⟨1, 1, 0⟩ freshAverageGrid
        = Except.error (StorageFault.out_of_bounds 0 0) := by
  have hext : claimedGridExtent exampleCondition 0 1 = 2 := by
    norm_num [claimedGridExtent, exampleCondition, truncToInt]
  refine ⟨hext, rfl, ?_⟩
  have h := (initAverageGrid_outcome exampleCondition ⟨0, 0, 0⟩ ⟨1, 1, 0⟩ freshAverageGrid
    (by norm_num) (by norm_num) (by norm_num [exampleCondition])).2.1
  simp only [hext] at h
  exact h (by decide)

end BubbleParticles

end my_mps
